import Mathlib

/-!
Verification development for three GStreamer plugin sources:

* `gst-libs/gst/audio/gstaudiofilter.c` : namespace `AudioFilter`
* `gst-libs/gst/gl/gstglsyncmeta.c`     : namespace `GLSyncMeta`
* `ext/gl/gstgldownloadelement.c`       : namespace `GLDownload`

The sources are thin layers over the GStreamer core and the GL driver.  What
the core or the driver decides from data these files never look into (does a
caps string parse, what does the driver return, is one structure a subset of
another) is a field of a `Host` / `Env` record, and the theorems hold for every
such core.  The functions of the core that move data around (attaching a meta
to a buffer, copying and merging caps) are written out after their
documentation.
-/

namespace AudioFilter

/-! ## gstaudiofilter.c -/

/-- Address of a `GstCaps` object: an index into the caps heap. -/
abbrev CapsPtr := Nat

/-- The instance structure `GstAudioFilter`: the parsed ring buffer spec
`format`, followed by the instance data of the derived class. -/
structure GstAudioFilter (Spec Sub : Type) where
  format : Spec
  sub : Sub
deriving DecidableEq, Repr

/-- The virtual function `GstAudioFilterClass::setup (filter, &filter->format)`.
Its second argument points into the first, so it is a function of the filter
state; it returns the `gboolean` and the filter state it leaves behind. -/
abbrev SetupFn (Spec Sub : Type) :=
  GstAudioFilter Spec Sub → Bool × GstAudioFilter Spec Sub

/-- Functions of the GStreamer core used by `gst_audio_filter_set_caps`. -/
structure Host (Caps Spec : Type) where
  /-- `gst_caps_is_equal (caps1, caps2)` -/
  gst_caps_is_equal : Caps → Caps → Bool
  /-- `gst_ring_buffer_parse_caps (&spec, caps)`: the `gboolean` result and the
  spec as the call leaves it (it may have been written to also on failure). -/
  gst_ring_buffer_parse_caps : Spec → Caps → Bool × Spec

/-- Calls made by `gst_audio_filter_set_caps`, in the order they are made. -/
inductive Event (Caps Spec : Type) where
  | parse_caps (caps : Caps)
  | setup (format : Spec)
deriving DecidableEq, Repr

/-- What a run of `gst_audio_filter_set_caps` leaves behind.  `ret = none` means
the `g_assert` at the top of the function failed and the program was aborted. -/
structure Outcome (Caps Spec Sub : Type) where
  ret : Option Bool
  filter : GstAudioFilter Spec Sub
  events : List (Event Caps Spec)
deriving DecidableEq, Repr

/-- `gst_audio_filter_set_caps (btrans, incaps, outcaps)`; `setup` is the slot
`klass->setup` of the class of the filter (`none` is a NULL slot). -/
def gst_audio_filter_set_caps {Caps Spec Sub : Type} (host : Host Caps Spec)
    (setup : Option (SetupFn Spec Sub)) (filter : GstAudioFilter Spec Sub)
    (incaps outcaps : Caps) : Outcome Caps Spec Sub :=
  -- g_assert (gst_caps_is_equal (incaps, outcaps));
  if host.gst_caps_is_equal incaps outcaps = false then
    { ret := none, filter := filter, events := [] }
  else
    -- if (!gst_ring_buffer_parse_caps (&filter->format, incaps)) return FALSE;
    let parsed := host.gst_ring_buffer_parse_caps filter.format incaps
    let filter1 : GstAudioFilter Spec Sub := { filter with format := parsed.2 }
    if parsed.1 = false then
      { ret := some false, filter := filter1, events := [Event.parse_caps incaps] }
    else
      -- if (klass->setup) ret = klass->setup (filter, &filter->format);
      match setup with
      | none =>
        { ret := some true, filter := filter1, events := [Event.parse_caps incaps] }
      | some f =>
        { ret := some (f filter1).1, filter := (f filter1).2,
          events := [Event.parse_caps incaps, Event.setup filter1.format] }

/-- `GstPadDirection` -/
inductive GstPadDirection where
  | GST_PAD_UNKNOWN | GST_PAD_SRC | GST_PAD_SINK
deriving DecidableEq, Repr

/-- `GstPadPresence` -/
inductive GstPadPresence where
  | GST_PAD_ALWAYS | GST_PAD_SOMETIMES | GST_PAD_REQUEST
deriving DecidableEq, Repr

/-- The arguments `gst_pad_template_new` was given: name template, direction,
presence and the caps object it takes ownership of. -/
structure GstPadTemplate where
  name_template : String
  direction : GstPadDirection
  presence : GstPadPresence
  caps : CapsPtr
deriving DecidableEq, Repr

/-- `gst_pad_template_new (name_template, direction, presence, caps)` -/
def gst_pad_template_new (name_template : String) (direction : GstPadDirection)
    (presence : GstPadPresence) (caps : CapsPtr) : GstPadTemplate :=
  { name_template := name_template, direction := direction, presence := presence,
    caps := caps }

/-- Functions of the core used by `gst_audio_filter_class_add_pad_templates`. -/
structure ClassHost (Klass : Type) where
  /-- `GST_IS_AUDIO_FILTER_CLASS (klass)` -/
  is_audio_filter_class : Klass → Bool
  /-- `gst_element_class_add_pad_template (element_class, templ)` -/
  gst_element_class_add_pad_template : Klass → GstPadTemplate → Klass

/-- The memory `gst_audio_filter_class_add_pad_templates` works on: the heap of
caps objects (the object at address `p` is `caps[p]`) and the class. -/
structure ClassWorld (Caps Klass : Type) where
  caps : List Caps
  klass : Klass
deriving DecidableEq, Repr

/-- `gst_caps_copy (caps)`: a new caps object with the contents of `caps`; the
new object and its address. -/
def gst_caps_copy {Caps : Type} (heap : List Caps) (content : Caps) : List Caps × CapsPtr :=
  (heap ++ [content], heap.length)

/-- `gst_audio_filter_class_add_pad_templates (klass, allowed_caps)`;
`allowed_caps = none` is the NULL pointer, and an address outside the heap is a
pointer for which `GST_IS_CAPS` fails. -/
def gst_audio_filter_class_add_pad_templates {Caps Klass : Type} (host : ClassHost Klass)
    (w : ClassWorld Caps Klass) (allowed_caps : Option CapsPtr) : ClassWorld Caps Klass :=
  -- g_return_if_fail (GST_IS_AUDIO_FILTER_CLASS (klass));
  if host.is_audio_filter_class w.klass = false then w
  else
    match allowed_caps with
    -- g_return_if_fail (allowed_caps != NULL);
    | none => w
    | some p =>
      match w.caps[p]? with
      -- g_return_if_fail (GST_IS_CAPS (allowed_caps));
      | none => w
      | some content =>
        let c1 := gst_caps_copy w.caps content
        let k1 := host.gst_element_class_add_pad_template w.klass
          (gst_pad_template_new "src" GstPadDirection.GST_PAD_SRC
            GstPadPresence.GST_PAD_ALWAYS c1.2)
        let c2 := gst_caps_copy c1.1 content
        let k2 := host.gst_element_class_add_pad_template k1
          (gst_pad_template_new "sink" GstPadDirection.GST_PAD_SINK
            GstPadPresence.GST_PAD_ALWAYS c2.2)
        { caps := c2.1, klass := k2 }

/-- A core for the examples: caps are numbers, equal caps are equal numbers, and
parsing succeeds on even numbers, storing the number as the spec. -/
def exampleHost : Host Nat Nat where
  gst_caps_is_equal := fun a b => a == b
  gst_ring_buffer_parse_caps := fun _ c => (c % 2 == 0, c)

/-- A class for the examples: the element class is the list of its pad
templates, and adding a template appends it. -/
def exampleClassHost : ClassHost (List GstPadTemplate) where
  is_audio_filter_class := fun _ => true
  gst_element_class_add_pad_template := fun k t => k ++ [t]

/-- A setup function for the examples: accepts specs below 100 and counts its
calls in the instance data. -/
def exampleSetup : SetupFn Nat Nat :=
  fun f => (decide (f.format < 100), { f with sub := f.sub + 1 })

end AudioFilter

namespace GLSyncMeta

/-! ## gstglsyncmeta.c

Pointers are natural numbers.  `data` and `egl_data` are `gpointer`s holding a
sync handle of the driver, `0` being NULL.  Metas and buffers live in lists and
their address is their index.  Every call into the GL or EGL driver is written
to a log, with the context it was issued in and the value the driver returned.
-/

/-- `GL_SYNC_GPU_COMMANDS_COMPLETE` -/
def GL_SYNC_GPU_COMMANDS_COMPLETE : Nat := 0x9117
/-- `GL_SYNC_FLUSH_COMMANDS_BIT` -/
def GL_SYNC_FLUSH_COMMANDS_BIT : Nat := 0x00000001
/-- `GL_TIMEOUT_EXPIRED` -/
def GL_TIMEOUT_EXPIRED : Nat := 0x911B
/-- `GL_TIMEOUT_IGNORED` -/
def GL_TIMEOUT_IGNORED : Nat := 0xFFFFFFFFFFFFFFFF
/-- `EGL_NO_DISPLAY` -/
def EGL_NO_DISPLAY : Nat := 0
/-- `EGL_NO_SYNC_KHR` -/
def EGL_NO_SYNC_KHR : Nat := 0
/-- `EGL_SYNC_FENCE_KHR` -/
def EGL_SYNC_FENCE_KHR : Nat := 0x30F9
/-- `EGL_SYNC_FLUSH_COMMANDS_BIT_KHR` -/
def EGL_SYNC_FLUSH_COMMANDS_BIT_KHR : Nat := 0x0001
/-- `EGL_TIMEOUT_EXPIRED_KHR` -/
def EGL_TIMEOUT_EXPIRED_KHR : Nat := 0x30F5
/-- The timeout `1000000000` (1 s) passed to the client waits. -/
def ONE_SECOND : Nat := 1000000000

/-- A function that can sit in one of the eight slots of type
`void (*) (GstGLSyncMeta *, GstGLContext *)`: one of the four static defaults of
this file, or a function of the application. -/
inductive SyncFn where
  | default_set_sync_gl
  | default_wait_gl
  | default_wait_cpu_gl
  | default_free_gl
  | user (id : Nat)
deriving DecidableEq, Repr

/-- A function that can sit in the `copy` slot. -/
inductive CopyFn where
  | default_copy
  | user (id : Nat)
deriving DecidableEq, Repr

/-- `struct _GstGLSyncMeta`.  `is_egl` and `egl_data` exist in builds with
`GST_GL_HAVE_IONDMA` only; no other build touches them. -/
structure GstGLSyncMeta where
  context : Nat
  data : Nat
  set_sync : Option SyncFn
  set_sync_gl : Option SyncFn
  wait : Option SyncFn
  wait_gl : Option SyncFn
  wait_cpu : Option SyncFn
  wait_cpu_gl : Option SyncFn
  copy : Option CopyFn
  free : Option SyncFn
  free_gl : Option SyncFn
  is_egl : Bool
  egl_data : Nat
deriving DecidableEq, Repr

/-- What the file reads of a `GstBuffer`: whether it is writable, the sync metas
attached to it (most recent first), and for each of its memories whether
`gst_is_gl_memory_dma` holds. -/
structure GstBuffer where
  writable : Bool
  metas : List Nat
  memories_dma : List Bool
deriving DecidableEq, Repr

/-- A call into the driver or the object system, as logged. -/
inductive Call where
  | FenceSync (ctx condition flags result : Nat)
  | DeleteSync (ctx sync : Nat)
  | WaitSync (ctx sync flags timeout : Nat)
  | ClientWaitSync (ctx sync flags timeout result : Nat)
  | Flush (ctx : Nat)
  | Finish (ctx : Nat)
  | eglCreateSyncKHR (ctx dpy type result : Nat)
  | eglClientWaitSyncKHR (ctx dpy sync flags timeout result : Nat)
  | eglDestroySyncKHR (ctx dpy sync : Nat)
  | object_ref (obj : Nat)
deriving DecidableEq, Repr

/-- The memory the file works on. -/
structure World where
  metas : List GstGLSyncMeta
  buffers : List GstBuffer
  log : List Call
deriving DecidableEq, Repr

/-- The entries of `context->gl_vtable` that the file tests before calling.
`DeleteSync`, `Flush` and `Finish` are called without a test. -/
structure GstGLFuncs where
  FenceSync : Bool
  WaitSync : Bool
  ClientWaitSync : Bool
deriving DecidableEq, Repr

/-- The build, the contexts, the driver and the application.  What the driver
returns may depend on everything that was called before. -/
structure Env where
  /-- `GST_GL_HAVE_IONDMA` -/
  have_iondma : Bool
  /-- `GST_IS_GL_CONTEXT (context)` -/
  is_gl_context : Nat → Bool
  /-- `context->gl_vtable` -/
  gl_vtable : Nat → GstGLFuncs
  /-- `gst_gl_context_is_shared (context)` -/
  is_shared : Nat → Bool
  /-- the handle of the EGL display of `context->display`, `EGL_NO_DISPLAY` when
  the context has no display -/
  egl_display : Nat → Nat
  /-- value returned by `gl->FenceSync` -/
  fence_result : List Call → Nat
  /-- value returned by `gl->ClientWaitSync` -/
  client_wait_result : List Call → Nat
  /-- value returned by `eglCreateSyncKHR` -/
  egl_create_result : List Call → Nat
  /-- value returned by `eglClientWaitSyncKHR` -/
  egl_client_wait_result : List Call → Nat
  /-- value that `_eglClientWaitSyncKHR` yields on its `return;` without a value -/
  egl_no_value : Nat
  /-- the functions of the application, by slot signature -/
  user_sync : Nat → Nat → Nat → World → World
  user_copy : Nat → Nat → Nat → Nat → Nat → World → World

/-- Why a run stopped without returning. -/
inductive Stop where
  /-- a `g_assert` failed -/
  | assertion
  /-- the loop did not finish within the given number of iterations -/
  | fuel
  /-- a call through a NULL function pointer -/
  | null_call
deriving DecidableEq, Repr

deriving instance DecidableEq for Except

/-- `_gst_gl_sync_meta_init`: the meta as the init function leaves it. -/
def _gst_gl_sync_meta_init : GstGLSyncMeta :=
  { context := 0, data := 0, set_sync := none, set_sync_gl := none, wait := none,
    wait_gl := none, wait_cpu := none, wait_cpu_gl := none, copy := none,
    free := none, free_gl := none, is_egl := false, egl_data := 0 }

/-- Read through a meta pointer. -/
def World.meta (w : World) (p : Nat) : GstGLSyncMeta :=
  w.metas.getD p _gst_gl_sync_meta_init

/-- Write through a meta pointer. -/
def World.modifyMeta (w : World) (p : Nat) (f : GstGLSyncMeta → GstGLSyncMeta) : World :=
  { w with metas := w.metas.modify f p }

/-- Append a call to the log. -/
def World.emit (w : World) (c : Call) : World :=
  { w with log := w.log ++ [c] }

/-- `_is_dma_memory (buf)` -/
def _is_dma_memory (w : World) (buf : Nat) : Bool :=
  match w.buffers[buf]? with
  | none => false
  | some b =>
    match b.memories_dma with
    | [] => false
    | d :: _ => d

/-- `_eglCreateSyncKHR (context)`: the sync object and the world. -/
def _eglCreateSyncKHR (env : Env) (ctx : Nat) (w : World) : Nat × World :=
  let dpy := env.egl_display ctx
  if dpy = EGL_NO_DISPLAY then (EGL_NO_SYNC_KHR, w)
  else
    let sync := env.egl_create_result w.log
    (sync, w.emit (Call.eglCreateSyncKHR ctx dpy EGL_SYNC_FENCE_KHR sync))

/-- `_eglClientWaitSyncKHR (context, sync)` -/
def _eglClientWaitSyncKHR (env : Env) (ctx sync : Nat) (w : World) : Nat × World :=
  let dpy := env.egl_display ctx
  if dpy = EGL_NO_DISPLAY then (env.egl_no_value, w)
  else
    let res := env.egl_client_wait_result w.log
    (res, w.emit (Call.eglClientWaitSyncKHR ctx dpy sync
      EGL_SYNC_FLUSH_COMMANDS_BIT_KHR ONE_SECOND res))

/-- `_eglDestroySyncKHR (context, sync)`; the `EGLBoolean` is never used. -/
def _eglDestroySyncKHR (env : Env) (ctx sync : Nat) (w : World) : World :=
  let dpy := env.egl_display ctx
  if dpy = EGL_NO_DISPLAY then w
  else w.emit (Call.eglDestroySyncKHR ctx dpy sync)

/-- The loop `do egl_res = _eglClientWaitSyncKHR (..); while (egl_res ==
EGL_TIMEOUT_EXPIRED_KHR);` with at most `fuel` iterations. -/
def eglWaitLoop (env : Env) (ctx sync : Nat) : Nat → World → Except Stop World
  | 0, _ => Except.error Stop.fuel
  | fuel + 1, w =>
    let r := _eglClientWaitSyncKHR env ctx sync w
    if r.1 = EGL_TIMEOUT_EXPIRED_KHR then eglWaitLoop env ctx sync fuel r.2
    else Except.ok r.2

/-- `_wait_cpu_egl (sync_meta, context)` -/
def _wait_cpu_egl (env : Env) (fuel : Nat) (m ctx : Nat) (w : World) : Except Stop World :=
  if (w.meta m).egl_data = EGL_NO_SYNC_KHR then Except.ok w
  else eglWaitLoop env ctx (w.meta m).egl_data fuel w

/-- First block of `_default_set_sync_gl`: `if (gl->FenceSync) { if
(sync_meta->data) gl->DeleteSync (..); sync_meta->data = gl->FenceSync (..); }` -/
def set_sync_gl_fence (env : Env) (m ctx : Nat) (w : World) : World :=
  if (env.gl_vtable ctx).FenceSync then
    let w0 :=
      if (w.meta m).data ≠ 0 then w.emit (Call.DeleteSync ctx (w.meta m).data) else w
    let s := env.fence_result w0.log
    (w0.emit (Call.FenceSync ctx GL_SYNC_GPU_COMMANDS_COMPLETE 0 s)).modifyMeta m
      (fun sm => { sm with data := s })
  else w

/-- Second block of `_default_set_sync_gl`: `if (gst_gl_context_is_shared
(context)) gl->Flush ();` -/
def set_sync_gl_flush (env : Env) (ctx : Nat) (w : World) : World :=
  if env.is_shared ctx then w.emit (Call.Flush ctx) else w

/-- Third block of `_default_set_sync_gl`, compiled with `GST_GL_HAVE_IONDMA`:
`if (sync_meta->is_egl) { if (sync_meta->egl_data) _eglDestroySyncKHR (..);
sync_meta->egl_data = _eglCreateSyncKHR (context); }` -/
def set_sync_gl_egl (env : Env) (m ctx : Nat) (w : World) : World :=
  if env.have_iondma && (w.meta m).is_egl then
    let w3 :=
      if (w.meta m).egl_data ≠ 0 then _eglDestroySyncKHR env ctx (w.meta m).egl_data w
      else w
    let r := _eglCreateSyncKHR env ctx w3
    r.2.modifyMeta m (fun sm => { sm with egl_data := r.1 })
  else w

/-- `_default_set_sync_gl (sync_meta, context)`: its three blocks in turn. -/
def _default_set_sync_gl (env : Env) (m ctx : Nat) (w : World) : World :=
  set_sync_gl_egl env m ctx (set_sync_gl_flush env ctx (set_sync_gl_fence env m ctx w))

/-- `_default_wait_gl (sync_meta, context)` -/
def _default_wait_gl (env : Env) (m ctx : Nat) (w : World) : World :=
  let gl := env.gl_vtable ctx
  if (w.meta m).data ≠ 0 && gl.WaitSync then
    w.emit (Call.WaitSync ctx (w.meta m).data 0 GL_TIMEOUT_IGNORED)
  else w

/-- The loop `do res = gl->ClientWaitSync (..); while (res == GL_TIMEOUT_EXPIRED);`
with at most `fuel` iterations. -/
def clientWaitLoop (env : Env) (ctx sync : Nat) : Nat → World → Except Stop World
  | 0, _ => Except.error Stop.fuel
  | fuel + 1, w =>
    let res := env.client_wait_result w.log
    let w1 := w.emit (Call.ClientWaitSync ctx sync GL_SYNC_FLUSH_COMMANDS_BIT ONE_SECOND res)
    if res = GL_TIMEOUT_EXPIRED then clientWaitLoop env ctx sync fuel w1
    else Except.ok w1

/-- `_default_wait_cpu_gl (sync_meta, context)` -/
def _default_wait_cpu_gl (env : Env) (fuel : Nat) (m ctx : Nat) (w : World) :
    Except Stop World :=
  let gl := env.gl_vtable ctx
  if env.have_iondma && (w.meta m).egl_data ≠ 0 then
    eglWaitLoop env ctx (w.meta m).egl_data fuel w
  else if (w.meta m).data ≠ 0 && gl.ClientWaitSync then
    clientWaitLoop env ctx (w.meta m).data fuel w
  else Except.ok (w.emit (Call.Finish ctx))

/-- `_default_free_gl (sync_meta, context)` -/
def _default_free_gl (env : Env) (m ctx : Nat) (w : World) : World :=
  let w1 :=
    if (w.meta m).data ≠ 0 then
      (w.emit (Call.DeleteSync ctx (w.meta m).data)).modifyMeta m
        (fun sm => { sm with data := 0 })
    else w
  if env.have_iondma && (w1.meta m).egl_data ≠ 0 then
    (_eglDestroySyncKHR env ctx (w1.meta m).egl_data w1).modifyMeta m
      (fun sm => { sm with egl_data := 0 })
  else w1

/-- A call `fn (sync_meta, context)` through one of the eight slots. -/
def callSyncFn (env : Env) (fuel : Nat) (fn : SyncFn) (m ctx : Nat) (w : World) :
    Except Stop World :=
  match fn with
  | SyncFn.default_set_sync_gl => Except.ok (_default_set_sync_gl env m ctx w)
  | SyncFn.default_wait_gl => Except.ok (_default_wait_gl env m ctx w)
  | SyncFn.default_wait_cpu_gl => _default_wait_cpu_gl env fuel m ctx w
  | SyncFn.default_free_gl => Except.ok (_default_free_gl env m ctx w)
  | SyncFn.user id => Except.ok (env.user_sync id m ctx w)

/-- `gst_buffer_add_meta (buffer, GST_GL_SYNC_META_INFO, NULL)` of the core: on a
writable buffer a new meta is allocated, initialised by the registered init
function `_gst_gl_sync_meta_init` and attached; otherwise the result is NULL. -/
def gst_buffer_add_meta (buffer : Nat) (w : World) : Option Nat × World :=
  match w.buffers[buffer]? with
  | none => (none, w)
  | some b =>
    if b.writable then
      (some w.metas.length,
        { w with metas := w.metas ++ [_gst_gl_sync_meta_init],
                 buffers := w.buffers.set buffer { b with metas := w.metas.length :: b.metas } })
    else (none, w)

/-- `gst_buffer_add_gl_sync_meta_full (context, buffer, data)` -/
def gst_buffer_add_gl_sync_meta_full (env : Env) (context buffer data : Nat) (w : World) :
    Option Nat × World :=
  -- g_return_val_if_fail (GST_IS_GL_CONTEXT (context), NULL);
  if env.is_gl_context context = false then (none, w)
  else
    match gst_buffer_add_meta buffer w with
    | (none, w1) => (none, w1)
    | (some p, w1) =>
      let w2 := (w1.emit (Call.object_ref context)).modifyMeta p
        (fun sm => { sm with context := context, data := data })
      let w3 :=
        if env.have_iondma then
          w2.modifyMeta p (fun sm => { sm with is_egl := _is_dma_memory w2 buffer })
        else w2
      (some p, w3)

/-- `gst_buffer_add_gl_sync_meta (context, buffer)` -/
def gst_buffer_add_gl_sync_meta (env : Env) (context buffer : Nat) (w : World) :
    Option Nat × World :=
  match gst_buffer_add_gl_sync_meta_full env context buffer 0 w with
  | (none, w1) => (none, w1)
  | (some p, w1) =>
    (some p, w1.modifyMeta p (fun sm =>
      { sm with set_sync_gl := some SyncFn.default_set_sync_gl,
                wait_gl := some SyncFn.default_wait_gl,
                wait_cpu_gl := some SyncFn.default_wait_cpu_gl,
                copy := some CopyFn.default_copy,
                free_gl := some SyncFn.default_free_gl }))

/-- `_set_sync_point (context, sync_meta)` -/
def _set_sync_point (env : Env) (fuel : Nat) (ctx m : Nat) (w : World) : Except Stop World :=
  match (w.meta m).set_sync_gl with
  | none => Except.error Stop.assertion
  | some fn => callSyncFn env fuel fn m ctx w

/-- `gst_gl_context_thread_add (context, func, data)` of the GL library: `func
(context, data)` is run on the GL thread of the context and the caller waits for
it to finish. -/
def gst_gl_context_thread_add (func : Nat → Nat → World → Except Stop World)
    (context data : Nat) (w : World) : Except Stop World :=
  func context data w

/-- `gst_gl_sync_meta_set_sync_point (sync_meta, context)` -/
def gst_gl_sync_meta_set_sync_point (env : Env) (fuel : Nat) (m ctx : Nat) (w : World) :
    Except Stop World :=
  match (w.meta m).set_sync with
  | some fn => callSyncFn env fuel fn m ctx w
  | none => gst_gl_context_thread_add (_set_sync_point env fuel) ctx m w

/-- `_wait (context, sync_meta)` -/
def _wait (env : Env) (fuel : Nat) (ctx m : Nat) (w : World) : Except Stop World :=
  match (w.meta m).wait_gl with
  | none => Except.error Stop.assertion
  | some fn => callSyncFn env fuel fn m ctx w

/-- `gst_gl_sync_meta_wait (sync_meta, context)` -/
def gst_gl_sync_meta_wait (env : Env) (fuel : Nat) (m ctx : Nat) (w : World) :
    Except Stop World :=
  match (w.meta m).wait with
  | some fn => callSyncFn env fuel fn m ctx w
  | none => gst_gl_context_thread_add (_wait env fuel) ctx m w

/-- `_wait_cpu (context, sync_meta)` -/
def _wait_cpu (env : Env) (fuel : Nat) (ctx m : Nat) (w : World) : Except Stop World :=
  match (w.meta m).wait_cpu_gl with
  | none => Except.error Stop.assertion
  | some fn => callSyncFn env fuel fn m ctx w

/-- `gst_gl_sync_meta_wait_cpu (sync_meta, context)` -/
def gst_gl_sync_meta_wait_cpu (env : Env) (fuel : Nat) (m ctx : Nat) (w : World) :
    Except Stop World :=
  match (w.meta m).wait_cpu with
  | some fn => callSyncFn env fuel fn m ctx w
  | none =>
    if env.have_iondma && (w.meta m).is_egl && (w.meta m).egl_data ≠ 0 then
      _wait_cpu_egl env fuel m ctx w
    else gst_gl_context_thread_add (_wait_cpu env fuel) ctx m w

/-- `_default_copy (src, sbuffer, dest, dbuffer)` -/
def _default_copy (env : Env) (fuel : Nat) (src _sbuffer dest _dbuffer : Nat) (w : World) :
    Except Stop World :=
  let w1 :=
    if env.have_iondma then
      w.modifyMeta dest (fun dm => { dm with is_egl := (w.meta src).is_egl })
    else w
  gst_gl_sync_meta_set_sync_point env fuel src (w1.meta src).context w1

/-- A call `fn (src, sbuffer, dest, dbuffer)` through the `copy` slot. -/
def callCopyFn (env : Env) (fuel : Nat) (fn : CopyFn) (src sbuffer dest dbuffer : Nat)
    (w : World) : Except Stop World :=
  match fn with
  | CopyFn.default_copy => _default_copy env fuel src sbuffer dest dbuffer w
  | CopyFn.user id => Except.ok (env.user_copy id src sbuffer dest dbuffer w)

/-- The pair `(type, data)` handed to a meta transform function: the copy
transform with its `GstMetaTransformCopy`, or a transform of another type. -/
inductive GstMetaTransform where
  | copy (region : Bool) (offset size : Nat)
  | other (type : Nat)
deriving DecidableEq, Repr

/-- The nine assignments `dmeta->set_sync = smeta->set_sync; ..;
dmeta->free_gl = smeta->free_gl;` of `_gst_gl_sync_meta_transform`. -/
def copy_callbacks (smeta dmeta : Nat) (w1 : World) : World :=
  let w2 := w1.modifyMeta dmeta (fun dm => { dm with set_sync := (w1.meta smeta).set_sync })
  let w3 := w2.modifyMeta dmeta (fun dm => { dm with set_sync_gl := (w2.meta smeta).set_sync_gl })
  let w4 := w3.modifyMeta dmeta (fun dm => { dm with wait := (w3.meta smeta).wait })
  let w5 := w4.modifyMeta dmeta (fun dm => { dm with wait_gl := (w4.meta smeta).wait_gl })
  let w6 := w5.modifyMeta dmeta (fun dm => { dm with wait_cpu := (w5.meta smeta).wait_cpu })
  let w7 := w6.modifyMeta dmeta (fun dm => { dm with wait_cpu_gl := (w6.meta smeta).wait_cpu_gl })
  let w8 := w7.modifyMeta dmeta (fun dm => { dm with copy := (w7.meta smeta).copy })
  let w9 := w8.modifyMeta dmeta (fun dm => { dm with free := (w8.meta smeta).free })
  w9.modifyMeta dmeta (fun dm => { dm with free_gl := (w9.meta smeta).free_gl })

/-- `_gst_gl_sync_meta_transform (dest, meta, buffer, type, data)` -/
def _gst_gl_sync_meta_transform (env : Env) (fuel : Nat) (dest smeta buffer : Nat)
    (t : GstMetaTransform) (w : World) : Except Stop (Bool × World) :=
  match t with
  | GstMetaTransform.copy region _ _ =>
    -- g_assert (smeta->copy != NULL);
    match (w.meta smeta).copy with
    | none => Except.error Stop.assertion
    | some _ =>
      if region = false then
        -- only copy if the complete data is copied as well
        match gst_buffer_add_gl_sync_meta_full env (w.meta smeta).context dest 0 w with
        | (none, w1) => Except.ok (false, w1)
        | (some dmeta, w1) =>
          let w10 := copy_callbacks smeta dmeta w1
          -- smeta->copy (smeta, buffer, dmeta, dest);
          match (w10.meta smeta).copy with
          | none => Except.error Stop.null_call
          | some cp =>
            match callCopyFn env fuel cp smeta buffer dmeta dest w10 with
            | Except.error e => Except.error e
            | Except.ok w11 => Except.ok (true, w11)
      else Except.ok (true, w)
  -- return FALSE, if transform type is not supported
  | GstMetaTransform.other _ => Except.ok (false, w)

end GLSyncMeta

namespace GLSyncMeta

/-- The state `gst_buffer_add_gl_sync_meta` leaves the nine slots in: the five
defaults set, the four overrides NULL. -/
def HasDefaultCallbacks (sm : GstGLSyncMeta) : Prop :=
  sm.set_sync = none ∧ sm.set_sync_gl = some SyncFn.default_set_sync_gl ∧
  sm.wait = none ∧ sm.wait_gl = some SyncFn.default_wait_gl ∧
  sm.wait_cpu = none ∧ sm.wait_cpu_gl = some SyncFn.default_wait_cpu_gl ∧
  sm.copy = some CopyFn.default_copy ∧
  sm.free = none ∧ sm.free_gl = some SyncFn.default_free_gl

instance (sm : GstGLSyncMeta) : Decidable (HasDefaultCallbacks sm) := by
  unfold HasDefaultCallbacks; infer_instance

/-- Whether a logged call creates or deletes a GL sync object. -/
def Call.isFenceOrDelete : Call → Bool
  | Call.FenceSync _ _ _ _ => true
  | Call.DeleteSync _ _ => true
  | _ => false

/-- Whether a logged call is a `WaitSync`. -/
def Call.isWaitSync : Call → Bool
  | Call.WaitSync _ _ _ _ => true
  | _ => false

/-- Whether a logged call is a `Finish`. -/
def Call.isFinish : Call → Bool
  | Call.Finish _ => true
  | _ => false

/-- The log of `k` client waits on `sync` in `ctx` that all timed out. -/
def expiredWaits (ctx sync k : Nat) : List Call :=
  List.replicate k
    (Call.ClientWaitSync ctx sync GL_SYNC_FLUSH_COMMANDS_BIT ONE_SECOND GL_TIMEOUT_EXPIRED)

/-- The world the client wait loop returns after `k` waits that timed out and one
that did not. -/
def afterWaits (env : Env) (ctx sync k : Nat) (w : World) : World :=
  { w with log := w.log ++ expiredWaits ctx sync k ++
      [Call.ClientWaitSync ctx sync GL_SYNC_FLUSH_COMMANDS_BIT ONE_SECOND
        (env.client_wait_result (w.log ++ expiredWaits ctx sync k))] }

/-- An environment for the examples: a build without ION/DMA support, every
pointer but NULL is a GL context, the sync functions are all there, no context
is shared; the driver numbers its fences by the length of the log, and a client
wait times out until the log holds three calls. -/
def exampleEnv : Env where
  have_iondma := false
  is_gl_context := fun c => c != 0
  gl_vtable := fun _ => { FenceSync := true, WaitSync := true, ClientWaitSync := true }
  is_shared := fun _ => false
  egl_display := fun _ => 0
  fence_result := fun log => 100 + log.length
  client_wait_result := fun log => if log.length < 3 then GL_TIMEOUT_EXPIRED else 0x911A
  egl_create_result := fun _ => 0
  egl_client_wait_result := fun _ => 0
  egl_no_value := 0
  user_sync := fun _ _ _ w => w
  user_copy := fun _ _ _ _ _ w => w

/-- A world for the examples: no metas, one writable buffer without memories. -/
def exampleWorld : World :=
  { metas := [], buffers := [{ writable := true, metas := [], memories_dma := [] }], log := [] }

/-- A meta for the examples: the callbacks of `gst_buffer_add_gl_sync_meta`, the
context 7, and the fence 5 in `data`. -/
def exampleMeta : GstGLSyncMeta :=
  { context := 7, data := 5,
    set_sync := none, set_sync_gl := some SyncFn.default_set_sync_gl,
    wait := none, wait_gl := some SyncFn.default_wait_gl,
    wait_cpu := none, wait_cpu_gl := some SyncFn.default_wait_cpu_gl,
    copy := some CopyFn.default_copy,
    free := none, free_gl := some SyncFn.default_free_gl,
    is_egl := false, egl_data := 0 }

/-- A world for the examples: the example meta at address 0, attached to buffer
0; buffer 1 is writable and has no metas. -/
def exampleMetaWorld : World :=
  { metas := [exampleMeta],
    buffers := [{ writable := true, metas := [0], memories_dma := [] },
                { writable := true, metas := [], memories_dma := [] }],
    log := [] }

end GLSyncMeta

namespace GLDownload

/-! ## gstgldownloadelement.c

A `GstCaps` object is a reference counted list of structures, each with its
caps features.  Caps objects live in a heap, the address of an object is its
index, and an object whose reference count has dropped to 0 is freed.  The
functions of the GStreamer core on caps follow their documentation: functions
that write to a caps object need it writable (reference count 1), and
`gst_caps_make_writable` copies an object that is shared.  What the core decides
by looking into field values is left to the `Host` record.
-/

/-- `GST_CAPS_FEATURE_MEMORY_GL_MEMORY` -/
def GST_CAPS_FEATURE_MEMORY_GL_MEMORY : String := "memory:GLMemory"
/-- `GST_CAPS_FEATURE_MEMORY_DMABUF` -/
def GST_CAPS_FEATURE_MEMORY_DMABUF : String := "memory:DMABuf"
/-- `GST_CAPS_FEATURE_MEMORY_SYSTEM_MEMORY` -/
def GST_CAPS_FEATURE_MEMORY_SYSTEM_MEMORY : String := "memory:SystemMemory"

/-- `GstPadDirection` -/
inductive GstPadDirection where
  | GST_PAD_UNKNOWN | GST_PAD_SRC | GST_PAD_SINK
deriving DecidableEq, Repr

/-- A `GstStructure`: its name and its fields, each a name and a serialised
value.  Field names are unique within a structure. -/
structure GstStructure where
  name : String
  fields : List (String × String)
deriving DecidableEq, Repr

/-- A `GstCapsFeatures`: the `is_any` flag and the feature names. -/
structure GstCapsFeatures where
  is_any : Bool
  array : List String
deriving DecidableEq, Repr

/-- One entry of a caps object: a structure and its features (`none` is the NULL
pointer, which stands for system memory). -/
abbrev Entry := GstStructure × Option GstCapsFeatures

/-- The contents of a `GstCaps`: the flag `GST_CAPS_FLAG_ANY` and the entries. -/
structure GstCaps where
  any : Bool
  structs : List Entry
deriving DecidableEq, Repr

/-- A caps object on the heap. -/
structure CapsObj where
  refcount : Nat
  caps : GstCaps
deriving DecidableEq, Repr

/-- The heap of caps objects. -/
abbrev Heap := List CapsObj

/-- What the core decides by comparing field values. -/
structure Host where
  /-- `gst_structure_is_subset (subset, superset)` -/
  gst_structure_is_subset : GstStructure → GstStructure → Bool
  /-- `gst_structure_intersect (struct1, struct2)`, `none` when they do not
  intersect -/
  gst_structure_intersect : GstStructure → GstStructure → Option GstStructure
  /-- `gst_caps_features_is_equal (features1, features2)` -/
  gst_caps_features_is_equal : GstCapsFeatures → GstCapsFeatures → Bool

/-- `GST_CAPS_FEATURES_MEMORY_SYSTEM_MEMORY` -/
def GST_CAPS_FEATURES_MEMORY_SYSTEM_MEMORY : GstCapsFeatures :=
  { is_any := false, array := [GST_CAPS_FEATURE_MEMORY_SYSTEM_MEMORY] }

/-- The features the core compares with: NULL counts as system memory. -/
def features_or_sysmem (f : Option GstCapsFeatures) : GstCapsFeatures :=
  f.getD GST_CAPS_FEATURES_MEMORY_SYSTEM_MEMORY

/-- `gst_caps_features_from_string (features)` for a single feature name. -/
def gst_caps_features_from_string (features : String) : GstCapsFeatures :=
  if features = "ANY" then { is_any := true, array := [] }
  else { is_any := false, array := [features] }

/-- `gst_caps_features_copy_conditional (features)`: NULL for system memory. -/
def gst_caps_features_copy_conditional (host : Host) (f : GstCapsFeatures) :
    Option GstCapsFeatures :=
  if f.is_any || !host.gst_caps_features_is_equal f GST_CAPS_FEATURES_MEMORY_SYSTEM_MEMORY
  then some f else none

/-- `gst_structure_remove_field (structure, fieldname)` on a mutable structure. -/
def gst_structure_remove_field (s : GstStructure) (fieldname : String) : GstStructure :=
  { s with fields := s.fields.filter (fun f => f.1 != fieldname) }

/-- Whether `gst_caps_merge_structure_full` finds the entry expressed already:
some entry of the caps has equal features and a structure it is a subset of. -/
def expressed (host : Host) (structs : List Entry) (e : Entry) : Bool :=
  structs.any (fun e1 =>
    host.gst_caps_features_is_equal (features_or_sysmem e.2) (features_or_sysmem e1.2) &&
    host.gst_structure_is_subset e.1 e1.1)

/-- `gst_caps_merge_structure_full (caps, structure, features)` on the entries:
the entry is appended unless it is expressed already. -/
def merge_structure_full (host : Host) (structs : List Entry) (e : Entry) : List Entry :=
  if expressed host structs e then structs else structs ++ [e]

/-- The loop of `gst_caps_merge`: the entries of `caps2` are merged into `caps1`
one by one, from the first to the last. -/
def merge_structs (host : Host) (s1 s2 : List Entry) : List Entry :=
  s2.foldl (merge_structure_full host) s1

/-- The contents `gst_caps_merge (caps1, caps2)` returns. -/
def caps_merge (host : Host) (c1 c2 : GstCaps) : GstCaps :=
  if c1.any then c1
  else if c2.any then c2
  else { c1 with structs := merge_structs host c1.structs c2.structs }

/-- `CAPS_IS_EMPTY (caps)` -/
def CAPS_IS_EMPTY (c : GstCaps) : Bool := !c.any && c.structs.isEmpty

/-- Inner loop of `gst_caps_intersect_first`: the intersections of one entry of
`caps1` with the entries of `caps2` that have equal features, in the order of
`caps2`. -/
def intersect_row (host : Host) (e1 : Entry) (s2 : List Entry) : List Entry :=
  s2.filterMap (fun e2 =>
    if host.gst_caps_features_is_equal (features_or_sysmem e1.2) (features_or_sysmem e2.2) then
      match host.gst_structure_intersect e1.1 e2.1 with
      | none => none
      | some istruct =>
        if (features_or_sysmem e1.2).is_any then
          some (istruct, gst_caps_features_copy_conditional host (features_or_sysmem e2.2))
        else
          some (istruct, gst_caps_features_copy_conditional host (features_or_sysmem e1.2))
    else none)

/-- The intersections `gst_caps_intersect_first` walks through: for each entry of
`caps1` in turn, its row. -/
def intersect_candidates (host : Host) (s1 s2 : List Entry) : List Entry :=
  s1.flatMap (fun e1 => intersect_row host e1 s2)

/-- The entries of the caps the double loop of `gst_caps_intersect_first` builds:
every candidate is merged into the initially empty `dest`. -/
def intersect_structs (host : Host) (s1 s2 : List Entry) : List Entry :=
  (intersect_candidates host s1 s2).foldl (merge_structure_full host) []

/-- The contents of the object at an address. -/
def Heap.caps (h : Heap) (p : Nat) : GstCaps :=
  (h.getD p { refcount := 0, caps := { any := false, structs := [] } }).caps

/-- The reference count of the object at an address. -/
def Heap.refcount (h : Heap) (p : Nat) : Nat :=
  (h.getD p { refcount := 0, caps := { any := false, structs := [] } }).refcount

/-- Replace the entries of the object at an address. -/
def Heap.setStructs (h : Heap) (p : Nat) (f : List Entry → List Entry) : Heap :=
  h.modify (fun o => { o with caps := { o.caps with structs := f o.caps.structs } }) p

/-- `gst_caps_ref (caps)` -/
def gst_caps_ref (h : Heap) (p : Nat) : Heap :=
  h.modify (fun o => { o with refcount := o.refcount + 1 }) p

/-- `gst_caps_unref (caps)` -/
def gst_caps_unref (h : Heap) (p : Nat) : Heap :=
  h.modify (fun o => { o with refcount := o.refcount - 1 }) p

/-- A new caps object with the given contents and one reference. -/
def gst_caps_new (h : Heap) (c : GstCaps) : Heap × Nat :=
  (h ++ [{ refcount := 1, caps := c }], h.length)

/-- `gst_caps_copy (caps)` -/
def gst_caps_copy (h : Heap) (p : Nat) : Heap × Nat :=
  gst_caps_new h (h.caps p)

/-- `gst_caps_make_writable (caps)`: the object itself when the caller holds the
only reference, else a copy, the reference to the original being dropped. -/
def gst_caps_make_writable (h : Heap) (p : Nat) : Heap × Nat :=
  if h.refcount p = 1 then (h, p)
  else
    let r := gst_caps_copy h p
    (gst_caps_unref r.1 p, r.2)

/-- `gst_caps_get_size (caps)` -/
def gst_caps_get_size (h : Heap) (p : Nat) : Nat :=
  (h.caps p).structs.length

/-- `gst_caps_set_features (caps, index, features)`; it returns without effect
on caps that are not writable, and there is nothing to set at an index past the
last entry. -/
def gst_caps_set_features (h : Heap) (p index : Nat) (features : GstCapsFeatures) : Heap :=
  if h.refcount p = 1 then
    h.setStructs p (fun s => s.modify (fun e => (e.1, some features)) index)
  else h

/-- `gst_structure_remove_field (gst_caps_get_structure (caps, index), field)`;
the structure is mutable when its caps are writable. -/
def remove_field_at (h : Heap) (p index : Nat) (field : String) : Heap :=
  if h.refcount p = 1 then
    h.setStructs p (fun s => s.modify (fun e => (gst_structure_remove_field e.1 field, e.2)) index)
  else h

/-- `gst_caps_merge (caps1, caps2)`: it takes over both references.  When one
of the two is ANY that one is returned and the other released.  Otherwise the
entries of `caps2` are merged into `caps1`, which is made writable when the
first entry is appended, and `caps2` is released. -/
def gst_caps_merge (host : Host) (h : Heap) (caps1 caps2 : Nat) : Heap × Nat :=
  if (h.caps caps1).any then (gst_caps_unref h caps2, caps1)
  else if (h.caps caps2).any then (gst_caps_unref h caps1, caps2)
  else
    let merged := merge_structs host (h.caps caps1).structs (h.caps caps2).structs
    if merged = (h.caps caps1).structs then (gst_caps_unref h caps2, caps1)
    else
      let r := gst_caps_make_writable h caps1
      (gst_caps_unref (r.1.setStructs r.2 (fun _ => merged)) caps2, r.2)

/-- `gst_caps_intersect_full (caps1, caps2, GST_CAPS_INTERSECT_FIRST)`: a new
reference to one of the two when they are the same object or the other is ANY,
else a new object; the empty caps `GST_CAPS_NONE` are a new object as well. -/
def gst_caps_intersect_first (host : Host) (h : Heap) (caps1 caps2 : Nat) : Heap × Nat :=
  if caps1 = caps2 then (gst_caps_ref h caps1, caps1)
  else if CAPS_IS_EMPTY (h.caps caps1) || CAPS_IS_EMPTY (h.caps caps2) then
    gst_caps_new h { any := false, structs := [] }
  else if (h.caps caps1).any then (gst_caps_ref h caps2, caps2)
  else if (h.caps caps2).any then (gst_caps_ref h caps1, caps1)
  else
    gst_caps_new h
      { any := false,
        structs := intersect_structs host (h.caps caps1).structs (h.caps caps2).structs }

/-- `_set_caps_features (caps, feature_name)` -/
def _set_caps_features (h : Heap) (caps : Nat) (feature_name : String) : Heap × Nat :=
  let tmp := gst_caps_copy h caps
  let n := gst_caps_get_size tmp.1 tmp.2
  ((List.range n).foldl
    (fun acc i => gst_caps_set_features acc tmp.2 i (gst_caps_features_from_string feature_name))
    tmp.1, tmp.2)

/-- `_remove_field (caps, field)` -/
def _remove_field (h : Heap) (caps : Nat) (field : String) : Heap :=
  let n := gst_caps_get_size h caps
  (List.range n).foldl (fun acc i => remove_field_at acc caps i field) h

/-- The caps `gst_gl_download_element_transform_caps` has in `tmp` when it
reaches `if (filter)`.  `have_dmabuf` is `GST_GL_HAVE_PLATFORM_EGL &&
GST_GL_HAVE_DMABUF`. -/
def transform_caps_unfiltered (host : Host) (have_dmabuf : Bool) (h : Heap)
    (direction : GstPadDirection) (caps : Nat) : Heap × Nat :=
  if direction = GstPadDirection.GST_PAD_SRC then
    let tmp := _set_caps_features h caps GST_CAPS_FEATURE_MEMORY_GL_MEMORY
    gst_caps_merge host (gst_caps_ref tmp.1 caps) caps tmp.2
  else
    let h0 := gst_caps_ref h caps
    let t1 :=
      if have_dmabuf then
        let newcaps := _set_caps_features h0 caps GST_CAPS_FEATURE_MEMORY_DMABUF
        gst_caps_merge host (_remove_field newcaps.1 newcaps.2 "texture-target") caps newcaps.2
      else (h0, caps)
    let newcaps := _set_caps_features t1.1 caps GST_CAPS_FEATURE_MEMORY_SYSTEM_MEMORY
    gst_caps_merge host (_remove_field newcaps.1 newcaps.2 "texture-target") t1.2 newcaps.2

/-- `gst_gl_download_element_transform_caps (bt, direction, caps, filter)`;
`filter = none` is the NULL pointer. -/
def gst_gl_download_element_transform_caps (host : Host) (have_dmabuf : Bool) (h : Heap)
    (direction : GstPadDirection) (caps : Nat) (filter : Option Nat) : Heap × Nat :=
  let tmp := transform_caps_unfiltered host have_dmabuf h direction caps
  match filter with
  | some f =>
    let result := gst_caps_intersect_first host tmp.1 f tmp.2
    (gst_caps_unref result.1 tmp.2, result.2)
  | none => tmp

/-- The copy of caps contents that `_set_caps_features` makes: every entry gets
the named feature. -/
def withFeature (c : GstCaps) (feature_name : String) : GstCaps :=
  { c with structs :=
      c.structs.map (fun e => (e.1, some (gst_caps_features_from_string feature_name))) }

/-- The caps contents after `_remove_field`: every structure has lost the
field. -/
def withoutField (c : GstCaps) (field : String) : GstCaps :=
  { c with structs := c.structs.map (fun e => (gst_structure_remove_field e.1 field, e.2)) }

/-- The contents `gst_caps_intersect_full (caps1, caps2,
GST_CAPS_INTERSECT_FIRST)` returns; `same` says that the two are one object. -/
def caps_intersect_first (host : Host) (same : Bool) (c1 c2 : GstCaps) : GstCaps :=
  if same then c1
  else if CAPS_IS_EMPTY c1 || CAPS_IS_EMPTY c2 then { any := false, structs := [] }
  else if c1.any then c2
  else if c2.any then c1
  else { any := false, structs := intersect_structs host c1.structs c2.structs }

/-- The DMABuf variant of caps contents that the sink direction merges in. -/
def dmabufVariant (c : GstCaps) : GstCaps :=
  withoutField (withFeature c GST_CAPS_FEATURE_MEMORY_DMABUF) "texture-target"

/-- The system memory variant of caps contents that the sink direction merges
in. -/
def sysmemVariant (c : GstCaps) : GstCaps :=
  withoutField (withFeature c GST_CAPS_FEATURE_MEMORY_SYSTEM_MEMORY) "texture-target"

/-- The entry `e` is what `gst_caps_intersect_first` makes of the entry `e1` of
`caps1` and the entry `e2` of `caps2`: the two have equal features, NULL counting
as system memory; the structure of `e` is the intersection of the two
structures; the features of `e` are those of `e1`, or those of `e2` when the
features of `e1` are ANY, and they are stored as NULL when they are not ANY and
equal system memory. -/
def IntersectionOf (host : Host) (e1 e2 e : Entry) : Prop :=
  host.gst_caps_features_is_equal (e1.2.getD GST_CAPS_FEATURES_MEMORY_SYSTEM_MEMORY)
    (e2.2.getD GST_CAPS_FEATURES_MEMORY_SYSTEM_MEMORY) = true ∧
  host.gst_structure_intersect e1.1 e2.1 = some e.1 ∧
  ((e1.2.getD GST_CAPS_FEATURES_MEMORY_SYSTEM_MEMORY).is_any = true →
    e.2 = if (e2.2.getD GST_CAPS_FEATURES_MEMORY_SYSTEM_MEMORY).is_any = true ∨
        host.gst_caps_features_is_equal (e2.2.getD GST_CAPS_FEATURES_MEMORY_SYSTEM_MEMORY)
          GST_CAPS_FEATURES_MEMORY_SYSTEM_MEMORY = false
      then some (e2.2.getD GST_CAPS_FEATURES_MEMORY_SYSTEM_MEMORY) else none) ∧
  ((e1.2.getD GST_CAPS_FEATURES_MEMORY_SYSTEM_MEMORY).is_any = false →
    e.2 = if (e1.2.getD GST_CAPS_FEATURES_MEMORY_SYSTEM_MEMORY).is_any = true ∨
        host.gst_caps_features_is_equal (e1.2.getD GST_CAPS_FEATURES_MEMORY_SYSTEM_MEMORY)
          GST_CAPS_FEATURES_MEMORY_SYSTEM_MEMORY = false
      then some (e1.2.getD GST_CAPS_FEATURES_MEMORY_SYSTEM_MEMORY) else none)

/-- What holds of the heap `hX` and the caps `t` being built, all through
`gst_gl_download_element_transform_caps` on the input caps `c` of the heap `h`:
the input object has its contents `C` and at least the `rc` references it came
with, one more when it is `t` itself; `t` is the input or a new object; every
other object of `h` is as it was. -/
def Keeps (h : Heap) (c rc : Nat) (C : GstCaps) (hX : Heap) (t : Nat) : Prop :=
  h.length ≤ hX.length ∧ t < hX.length ∧ hX.caps c = C ∧ rc ≤ hX.refcount c ∧
  (t = c → rc + 1 ≤ hX.refcount c) ∧
  (∀ q, q < h.length → q ≠ c → hX[q]? = h[q]?) ∧
  (t = c ∨ h.length ≤ t)

/-- A core for the examples: a structure is a subset of another when the names
are equal and every field of the other is a field of it; two structures
intersect when the names are equal and no field has two values, in the union of
their fields; features are equal when their names are. -/
def exampleHost : Host where
  gst_structure_is_subset := fun a b =>
    a.name == b.name && b.fields.all (fun f => a.fields.contains f)
  gst_structure_intersect := fun a b =>
    if a.name == b.name &&
        a.fields.all (fun f => b.fields.all (fun g => f.1 != g.1 || f.2 == g.2)) then
      some { name := a.name,
             fields := a.fields ++ b.fields.filter (fun g => !a.fields.contains g) }
    else none
  gst_caps_features_is_equal := fun a b => a.is_any == b.is_any && a.array == b.array

/-- Caps for the examples: `video/x-raw(memory:GLMemory), format=RGBA,
texture-target=2D`. -/
def exampleCaps : GstCaps :=
  { any := false,
    structs := [({ name := "video/x-raw",
                   fields := [("format", "RGBA"), ("texture-target", "2D")] },
                 some { is_any := false, array := [GST_CAPS_FEATURE_MEMORY_GL_MEMORY] })] }

/-- A heap for the examples: the example caps at address 0, held once, and the
filter caps `video/x-raw, format=RGBA` at address 1. -/
def exampleHeap : Heap :=
  [{ refcount := 1, caps := exampleCaps },
   { refcount := 1,
     caps := { any := false,
               structs := [({ name := "video/x-raw", fields := [("format", "RGBA")] }, none)] } }]

end GLDownload

namespace GLDownload

/-! ## gstgldownloadelement.c: the element and its buffers

A GL memory is known by its address; what the file reads of it (its context,
its maximal size, what kind of memory it is) is answered by the `Env` record,
as is everything else the GStreamer libraries and the EGL driver decide.  The
dmabuf export information cached on a memory (`qdata`) is state of the world.
Reading a field of a memory through a NULL pointer stops the run with a fault.
A local array is kept as the sequence of the entries written to it.
-/

/-- The dmabuf `GstMemory` that `gst_dmabuf_allocator_alloc (allocator, fd,
size)` makes. -/
structure DmabufMemory where
  allocator : Nat
  fd : Int
  size : Nat
deriving DecidableEq, Repr

/-- `struct DmabufInfo` -/
structure DmabufInfo where
  dmabuf : DmabufMemory
  stride : Int
  offset : Nat
deriving DecidableEq, Repr

/-- What the file reads of a `GstVideoInfo`.  `offset` and `stride` are arrays
of `GST_VIDEO_MAX_PLANES` entries. -/
structure GstVideoInfo where
  format : Nat
  width : Nat
  height : Nat
  n_planes : Nat
  offset : Nat → Nat
  stride : Nat → Int

/-- The arguments of `gst_buffer_add_video_meta_full`, the two arrays as the
caller has filled them. -/
structure GstVideoMeta where
  format : Nat
  width : Nat
  height : Nat
  n_planes : Nat
  offset : List Nat
  stride : List Int
deriving DecidableEq, Repr

/-- The buffer `_try_export_dmabuf` makes: its memories in order and the video
meta added to it. -/
structure DmabufBuffer where
  memories : List DmabufMemory
  video_meta : Option GstVideoMeta
deriving DecidableEq, Repr

/-- An input buffer: its address and the addresses of its memories, in order. -/
structure GstBuffer where
  addr : Nat
  memories : List Nat
deriving DecidableEq, Repr

/-- The fields of `GstGLDownloadElement` that every build has. -/
structure GstGLDownloadElement where
  do_pbo_transfers : Bool
  dmabuf_allocator : Option Nat
  add_videometa : Bool
deriving DecidableEq, Repr

/-- The fields of `GstGLDownloadElement` that only the `GST_GL_HAVE_IONDMA` export
path uses, `export_info` and `src_info` by what the export reads of them. -/
structure ExportState where
  glExportTexImageDMA : Option Nat
  export_context : Option Nat
  export_pool : Option Nat
  converter : Option Nat
  glconverter : Option Nat
  /-- `GST_VIDEO_INFO_FORMAT (&dl->export_info)` -/
  export_format : Nat
  /-- `dl->export_info.width` -/
  export_width : Nat
  /-- `dl->export_info.height` -/
  export_height : Nat
  /-- `dl->export_info.stride[0]` -/
  export_stride0 : Int
  /-- `dl->src_info.size` -/
  src_size : Nat
deriving DecidableEq, Repr

/-- The fields of `struct ExportParams` that `_export_gl` passes on. -/
structure ExportParams where
  tex : Nat
  fd : Int
  fourcc : Nat
  width : Nat
  height : Nat
  stride : Int
deriving DecidableEq, Repr

/-- A call to the libraries, as logged: the releases of references, the
transfers, and the calls of the export path on its converters and buffers.
Calls that only read are not logged, nor are the calls on the buffer that
`_try_export_dmabuf` builds. -/
inductive Call where
  | object_unref (obj : Nat)
  | object_ref (obj : Nat)
  | pbo_download_transfer (mem : Nat)
  | copy_metadata (inbuf : Nat)
  | element_warning
  | caps_features_remove (feature : String)
  | update_src_caps (accepted : Bool)
  | caps_unref
  /-- `gst_caps_replace (&src_caps, NULL)` -/
  | caps_replace
  | buffer_unref (buf : Nat)
  | gl_color_convert_perform (glconverter inbuf : Nat)
  | buffer_copy_into (dest src : Nat)
  /-- `_export_gl` run on the thread of a context -/
  | export_gl (context : Option Nat) (params : ExportParams)
  | buffer_add_video_meta (buf : Nat)
  /-- `export_meta->stride[0] = dl->export_info.stride[0]` -/
  | set_meta_stride (buf : Nat) (stride : Int)
  | video_converter_frame (converter export_buf src_buf : Nat)
deriving DecidableEq, Repr

/-- The state the element works on. -/
structure World where
  dl : GstGLDownloadElement
  exp : ExportState
  qdata : List (Nat × DmabufInfo)
  log : List Call
deriving DecidableEq, Repr

/-- The build, the constants of the video library, and what the libraries and
the driver answer. -/
structure Env where
  /-- `GST_GL_HAVE_PLATFORM_EGL && GST_GL_HAVE_DMABUF` -/
  have_dmabuf : Bool
  /-- `GST_GL_HAVE_IONDMA` -/
  have_iondma : Bool
  /-- `GST_GL_HAVE_PHYMEM` -/
  have_phymem : Bool
  /-- the number of bits of a `gsize` -/
  gsize_bits : Nat
  /-- `GST_VIDEO_FORMAT_RGBA` -/
  GST_VIDEO_FORMAT_RGBA : Nat
  /-- `GST_VIDEO_FORMAT_BGRA` -/
  GST_VIDEO_FORMAT_BGRA : Nat
  /-- `GST_VIDEO_FORMAT_RGB` -/
  GST_VIDEO_FORMAT_RGB : Nat
  /-- `GST_VIDEO_FORMAT_BGR` -/
  GST_VIDEO_FORMAT_BGR : Nat
  /-- `DRM_FORMAT_ABGR8888` -/
  DRM_FORMAT_ABGR8888 : Nat
  /-- `DRM_FORMAT_BGR888` -/
  DRM_FORMAT_BGR888 : Nat
  /-- `gst_video_info_from_caps (&info, caps)`, `none` when it returns FALSE -/
  gst_video_info_from_caps : GstCaps → Option GstVideoInfo
  /-- `gst_caps_get_features (caps, index)`, `none` for NULL -/
  gst_caps_get_features : GstCaps → Nat → Option GstCapsFeatures
  /-- `gst_caps_features_contains (features, feature)` -/
  gst_caps_features_contains : GstCapsFeatures → String → Bool
  /-- the address of the object `gst_dmabuf_allocator_new ()` returns -/
  gst_dmabuf_allocator_new : List Call → Nat
  /-- `GST_GL_BASE_MEMORY_CAST (mem)->context` -/
  mem_context : Nat → Nat
  /-- the `maxsize` that `gst_memory_get_sizes (mem, NULL, &maxsize)` stores -/
  mem_maxsize : Nat → Nat
  /-- `gst_is_gl_memory_pbo (mem)` -/
  gst_is_gl_memory_pbo : Nat → Bool
  /-- `gst_is_gl_memory_dma (mem)`; `mem` is NULL for a buffer without memories -/
  gst_is_gl_memory_dma : Option Nat → Bool
  /-- `gst_is_gl_physical_memory (mem)`; `mem` is NULL for a buffer without
  memories -/
  gst_is_gl_physical_memory : Option Nat → Bool
  /-- `gst_gl_context_get_gl_platform (context) == GST_GL_PLATFORM_EGL` -/
  platform_is_egl : Nat → Bool
  /-- `gst_egl_image_from_texture (context, glmem, NULL)`, `none` for NULL -/
  gst_egl_image_from_texture : Nat → Nat → Option Nat
  /-- `gst_egl_image_export_dmabuf (image, &fd, &stride, &offset)`: the three
  values stored when it returns TRUE -/
  gst_egl_image_export_dmabuf : Nat → Option (Int × Int × Nat)
  /-- the video info of the current caps of the src pad, as
  `gst_video_info_from_caps` leaves it in `out_info` -/
  src_video_info : GstVideoInfo
  /-- `gst_gl_context_can_share (context, other_context)` -/
  gst_gl_context_can_share : Nat → Option Nat → Bool
  /-- `gst_is_gl_memory_egl (mem)` -/
  gst_is_gl_memory_egl : Nat → Bool
  /-- the address of the object `gst_gl_color_convert_new (context)` returns -/
  gst_gl_color_convert_new : Option Nat → Nat
  /-- `gst_gl_color_convert_set_caps (convert, sink_caps, sink_caps)` -/
  gst_gl_color_convert_set_caps : Nat → Bool
  /-- `gst_gl_color_convert_perform (convert, inbuf)`, `none` for NULL -/
  gst_gl_color_convert_perform : Nat → GstBuffer → Option GstBuffer
  /-- the buffer `gst_buffer_pool_acquire_buffer (pool, &buffer, NULL)` stores,
  `none` when it does not return `GST_FLOW_OK` -/
  gst_buffer_pool_acquire_buffer : Option Nat → Option GstBuffer
  /-- `gst_gl_memory_get_texture_id (gl_mem)` -/
  gst_gl_memory_get_texture_id : Option Nat → Nat
  /-- `gst_dmabuf_memory_get_fd (mem)` -/
  gst_dmabuf_memory_get_fd : Option Nat → Int
  /-- what the driver function behind `dl->glExportTexImageDMA` returns -/
  glExportTexImageDMA : Nat → ExportParams → Bool
  /-- `gst_buffer_get_video_meta (buffer) != NULL` -/
  gst_buffer_get_video_meta : Nat → Bool
  /-- the address of the buffer `gst_buffer_new_allocate (NULL, size, NULL)`
  returns, `none` for NULL -/
  gst_buffer_new_allocate : Nat → Option Nat
  /-- `gst_video_frame_map (&frame, &info, buffer, flags)` -/
  gst_video_frame_map : Nat → Bool
  /-- `gst_gl_memory_dma_buffer_to_gstbuffer (context, &info, inbuf)` -/
  gst_gl_memory_dma_buffer_to_gstbuffer : GstBuffer → Option Nat
  /-- `gst_gl_phymem_buffer_to_gstbuffer (context, &info, inbuf)` -/
  gst_gl_phymem_buffer_to_gstbuffer : GstBuffer → Option Nat
  /-- the slot `copy_metadata` of the base transform class: its result and the
  buffer with the metadata copied onto it -/
  copy_metadata : Option (GstBuffer → DmabufBuffer → Bool × DmabufBuffer)
  /-- `gst_base_transform_update_src_caps (bt, src_caps)` -/
  gst_base_transform_update_src_caps : List Call → Bool

/-- Append a call to the log. -/
def World.emit (w : World) (c : Call) : World :=
  { w with log := w.log ++ [c] }

/-- `gst_gl_download_element_set_caps (bt, in_caps, out_caps)` -/
def gst_gl_download_element_set_caps (env : Env) (w : World) (out_caps : GstCaps) :
    Bool × World :=
  match env.gst_video_info_from_caps out_caps with
  | none => (false, w)
  | some _ =>
    let features := env.gst_caps_get_features out_caps 0
    let w1 : World := { w with dl := { w.dl with do_pbo_transfers := false } }
    let w2 : World :=
      match w1.dl.dmabuf_allocator with
      | some a =>
        { (w1.emit (Call.object_unref a)) with dl := { w1.dl with dmabuf_allocator := none } }
      | none => w1
    match features with
    | none => (true, { w2 with dl := { w2.dl with do_pbo_transfers := true } })
    | some f =>
      if env.gst_caps_features_contains f GST_CAPS_FEATURE_MEMORY_GL_MEMORY then
        -- do nothing with the buffer
        (true, w2)
      else if env.have_dmabuf &&
          env.gst_caps_features_contains f GST_CAPS_FEATURE_MEMORY_DMABUF then
        (true, { w2 with dl := { w2.dl with
          dmabuf_allocator := some (env.gst_dmabuf_allocator_new w2.log) } })
      else if env.gst_caps_features_contains f GST_CAPS_FEATURE_MEMORY_SYSTEM_MEMORY then
        (true, { w2 with dl := { w2.dl with do_pbo_transfers := true } })
      else (true, w2)

/-- An environment for the examples: an EGL+DMABuf build with 64 bit sizes; caps
parse when they have exactly one entry; the features of an entry are what is
stored; every context is an EGL context; memory `m` is a PBO memory when `m` is
even and an EGL memory when it is odd, has maximal size `100 * m`, and exports
with file descriptor `m`, stride `64` and offset `m`, except memory `9`, which
does not export.  On the ION/DMA path a new colour converter does not take the
caps, and the export pool has no buffer. -/
def exampleEnv : Env where
  have_dmabuf := true
  have_iondma := false
  have_phymem := false
  gsize_bits := 64
  GST_VIDEO_FORMAT_RGBA := 11
  GST_VIDEO_FORMAT_BGRA := 12
  GST_VIDEO_FORMAT_RGB := 15
  GST_VIDEO_FORMAT_BGR := 16
  DRM_FORMAT_ABGR8888 := 875708993
  DRM_FORMAT_BGR888 := 875710274
  gst_video_info_from_caps := fun c =>
    if c.structs.length = 1 then
      some { format := 11, width := 4, height := 4, n_planes := 1,
             offset := fun _ => 0, stride := fun _ => 16 }
    else none
  gst_caps_get_features := fun c i => (c.structs[i]?).bind (fun e => e.2)
  gst_caps_features_contains := fun f s => f.is_any || f.array.contains s
  gst_dmabuf_allocator_new := fun log => 1000 + log.length
  mem_context := fun _ => 7
  mem_maxsize := fun m => 100 * m
  gst_is_gl_memory_pbo := fun m => m % 2 == 0
  gst_is_gl_memory_dma := fun _ => false
  gst_is_gl_physical_memory := fun _ => false
  platform_is_egl := fun _ => true
  gst_egl_image_from_texture := fun _ m => if m = 9 then none else some m
  gst_egl_image_export_dmabuf := fun image => some (Int.ofNat image, 64, image)
  src_video_info :=
    { format := 11, width := 4, height := 4, n_planes := 2,
      offset := fun i => if i = 0 then 1 else 102, stride := fun _ => 64 }
  gst_gl_context_can_share := fun _ _ => true
  gst_is_gl_memory_egl := fun m => m % 2 == 1
  gst_gl_color_convert_new := fun _ => 300
  gst_gl_color_convert_set_caps := fun _ => false
  gst_gl_color_convert_perform := fun _ _ => none
  gst_buffer_pool_acquire_buffer := fun _ => none
  gst_gl_memory_get_texture_id := fun _ => 0
  gst_dmabuf_memory_get_fd := fun _ => 0
  glExportTexImageDMA := fun _ _ => false
  gst_buffer_get_video_meta := fun _ => false
  gst_buffer_new_allocate := fun _ => none
  gst_video_frame_map := fun _ => false
  gst_gl_memory_dma_buffer_to_gstbuffer := fun _ => none
  gst_gl_phymem_buffer_to_gstbuffer := fun _ => none
  copy_metadata := none
  gst_base_transform_update_src_caps := fun _ => true

/-- A world for the examples: the element as `g_object_new` leaves it, nothing
cached, nothing logged. -/
def exampleWorld : World :=
  { dl := { do_pbo_transfers := false, dmabuf_allocator := none, add_videometa := false },
    exp := { glExportTexImageDMA := none, export_context := none, export_pool := none,
             converter := none, glconverter := none, export_format := 0, export_width := 0,
             export_height := 0, export_stride0 := 0, src_size := 0 },
    qdata := [], log := [] }

end GLDownload

/-! # Theorems -/

namespace AudioFilter

/-- C1 (counterexample).  Input caps `1` fail to parse, the output caps `3`
differ from them: the `g_assert` aborts the program, so `set_caps` does not
return FALSE. -/
theorem set_caps_parse_failure_aborts :
    (exampleHost.gst_ring_buffer_parse_caps 0 1).1 = false ∧
    (gst_audio_filter_set_caps exampleHost (some exampleSetup) ⟨0, 0⟩ 1 3).ret = none ∧
    (gst_audio_filter_set_caps exampleHost (some exampleSetup) ⟨0, 0⟩ 1 3).ret ≠ some false := by
  decide

/-- C1 (amended).  For every filter and every input caps that
`gst_ring_buffer_parse_caps` fails to parse, the setup function of the subclass
is not called and `set_caps` does not return TRUE; when the output caps equal the
input caps, as the function asserts, `set_caps` returns FALSE after the one
parsing call. -/
theorem set_caps_parse_failure {Caps Spec Sub : Type} (host : Host Caps Spec)
    (setup : Option (SetupFn Spec Sub)) (filter : GstAudioFilter Spec Sub)
    (incaps outcaps : Caps)
    (hparse : (host.gst_ring_buffer_parse_caps filter.format incaps).1 = false) :
    (∀ fmt, Event.setup fmt ∉ (gst_audio_filter_set_caps host setup filter incaps outcaps).events) ∧
    (gst_audio_filter_set_caps host setup filter incaps outcaps).ret ≠ some true ∧
    (host.gst_caps_is_equal incaps outcaps = true →
      (gst_audio_filter_set_caps host setup filter incaps outcaps).ret = some false ∧
      (gst_audio_filter_set_caps host setup filter incaps outcaps).events
        = [Event.parse_caps incaps]) := by
  unfold gst_audio_filter_set_caps
  by_cases heq : host.gst_caps_is_equal incaps outcaps = false
  · simp [heq]
  · simp [heq, hparse]

/-- C1 (witness): caps `1` do not parse, input and output caps are equal. -/
theorem set_caps_parse_failure_witness :
    (exampleHost.gst_ring_buffer_parse_caps 0 1).1 = false ∧
    exampleHost.gst_caps_is_equal 1 1 = true ∧
    (gst_audio_filter_set_caps exampleHost (some exampleSetup) ⟨0, 0⟩ 1 1).ret = some false :=
  ⟨by decide, by decide,
    ((set_caps_parse_failure exampleHost (some exampleSetup) ⟨0, 0⟩ 1 1 (by decide)).2.2
      (by decide)).1⟩

/-- C2 (counterexample).  Input caps `2` parse, the class defines a setup
function, the output caps `4` differ from the input caps: the `g_assert` aborts
the program, setup is never called and nothing is returned. -/
theorem set_caps_parse_success_aborts :
    (exampleHost.gst_ring_buffer_parse_caps 0 2).1 = true ∧
    (gst_audio_filter_set_caps exampleHost (some exampleSetup) ⟨0, 0⟩ 2 4).ret = none ∧
    (gst_audio_filter_set_caps exampleHost (some exampleSetup) ⟨0, 0⟩ 2 4).events = [] ∧
    (gst_audio_filter_set_caps exampleHost (none : Option (SetupFn Nat Nat)) ⟨0, 0⟩ 2 4).ret
      ≠ some true := by
  decide

/-- C2 (amended).  For every input caps that parse and that the output caps are
equal to (the function asserts it): when the class defines a setup function it is
called exactly once, after the parsing call, on the filter holding the parsed
format, `set_caps` returns what setup returned and the filter is as setup left
it; when the class defines no setup function, `set_caps` returns TRUE and the
filter holds the parsed format. -/
theorem set_caps_parse_success {Caps Spec Sub : Type} (host : Host Caps Spec)
    (setup : Option (SetupFn Spec Sub)) (filter : GstAudioFilter Spec Sub)
    (incaps outcaps : Caps)
    (heq : host.gst_caps_is_equal incaps outcaps = true)
    (hparse : (host.gst_ring_buffer_parse_caps filter.format incaps).1 = true) :
    (∀ f, setup = some f →
      gst_audio_filter_set_caps host setup filter incaps outcaps =
        { ret := some (f { filter with
              format := (host.gst_ring_buffer_parse_caps filter.format incaps).2 }).1,
          filter := (f { filter with
              format := (host.gst_ring_buffer_parse_caps filter.format incaps).2 }).2,
          events := [Event.parse_caps incaps,
            Event.setup (host.gst_ring_buffer_parse_caps filter.format incaps).2] }) ∧
    (setup = none →
      gst_audio_filter_set_caps host setup filter incaps outcaps =
        { ret := some true,
          filter := { filter with
              format := (host.gst_ring_buffer_parse_caps filter.format incaps).2 },
          events := [Event.parse_caps incaps] }) := by
  unfold gst_audio_filter_set_caps
  constructor
  · intro f hf
    subst hf
    simp [heq, hparse]
  · intro hf
    subst hf
    simp [heq, hparse]

/-- C2 (witness): caps `2` parse to the spec `2`, which the example setup
accepts. -/
theorem set_caps_parse_success_witness :
    exampleHost.gst_caps_is_equal 2 2 = true ∧
    (exampleHost.gst_ring_buffer_parse_caps 0 2).1 = true ∧
    gst_audio_filter_set_caps exampleHost (some exampleSetup) ⟨0, 0⟩ 2 2 =
      { ret := some true, filter := ⟨2, 1⟩,
        events := [Event.parse_caps 2, Event.setup 2] } :=
  ⟨by decide, by decide,
    ((set_caps_parse_success exampleHost (some exampleSetup) ⟨0, 0⟩ 2 2 (by decide)
      (by decide)).1 exampleSetup rfl).trans (by decide)⟩

/-- C3.  For every audio filter class and every caps object `allowed_caps`, two
pad templates are added to the element class, first `("src", GST_PAD_SRC,
GST_PAD_ALWAYS)` and then `("sink", GST_PAD_SINK, GST_PAD_ALWAYS)`, each with a
new caps object of its own whose contents are those of `allowed_caps`; the
objects that existed before, `allowed_caps` among them, are as they were.  With
`allowed_caps` NULL nothing is added and nothing changes. -/
theorem class_add_pad_templates_spec {Caps Klass : Type} (host : ClassHost Klass)
    (w : ClassWorld Caps Klass) :
    (∀ p content, host.is_audio_filter_class w.klass = true → w.caps[p]? = some content →
      (gst_audio_filter_class_add_pad_templates host w (some p)).klass =
        host.gst_element_class_add_pad_template
          (host.gst_element_class_add_pad_template w.klass
            { name_template := "src", direction := GstPadDirection.GST_PAD_SRC,
              presence := GstPadPresence.GST_PAD_ALWAYS, caps := w.caps.length })
          { name_template := "sink", direction := GstPadDirection.GST_PAD_SINK,
            presence := GstPadPresence.GST_PAD_ALWAYS, caps := w.caps.length + 1 } ∧
      (gst_audio_filter_class_add_pad_templates host w (some p)).caps =
        w.caps ++ [content, content] ∧
      (gst_audio_filter_class_add_pad_templates host w (some p)).caps[w.caps.length]?
        = some content ∧
      (gst_audio_filter_class_add_pad_templates host w (some p)).caps[w.caps.length + 1]?
        = some content ∧
      (gst_audio_filter_class_add_pad_templates host w (some p)).caps[p]? = some content ∧
      p ≠ w.caps.length ∧ p ≠ w.caps.length + 1 ∧
      (∀ q, q < w.caps.length →
        (gst_audio_filter_class_add_pad_templates host w (some p)).caps[q]? = w.caps[q]?)) ∧
    gst_audio_filter_class_add_pad_templates host w none = w := by
  constructor
  · intro p content hk hp
    have hlt : p < w.caps.length := by
      rcases List.getElem?_eq_some_iff.mp hp with ⟨h, _⟩
      exact h
    have hcaps : (gst_audio_filter_class_add_pad_templates host w (some p)).caps =
        w.caps ++ [content, content] := by
      simp [gst_audio_filter_class_add_pad_templates, hk, hp, gst_caps_copy]
    refine ⟨?_, hcaps, ?_, ?_, ?_, Nat.ne_of_lt hlt,
      Nat.ne_of_lt (Nat.lt_succ_of_lt hlt), ?_⟩
    · simp [gst_audio_filter_class_add_pad_templates, hk, hp, gst_caps_copy,
        gst_pad_template_new]
    · rw [hcaps, List.getElem?_append_right (Nat.le_refl _)]; simp
    · rw [hcaps, List.getElem?_append_right (Nat.le_succ _)]; simp
    · rw [hcaps, List.getElem?_append_left hlt]; exact hp
    · intro q hq
      rw [hcaps, List.getElem?_append_left hq]
  · unfold gst_audio_filter_class_add_pad_templates
    split <;> rfl

/-- C3 (witness): a class without templates and one caps object at address 0. -/
theorem class_add_pad_templates_spec_witness :
    (gst_audio_filter_class_add_pad_templates exampleClassHost
        { caps := [7], klass := [] } (some 0)).klass =
      [{ name_template := "src", direction := GstPadDirection.GST_PAD_SRC,
         presence := GstPadPresence.GST_PAD_ALWAYS, caps := 1 },
       { name_template := "sink", direction := GstPadDirection.GST_PAD_SINK,
         presence := GstPadPresence.GST_PAD_ALWAYS, caps := 2 }] ∧
    (gst_audio_filter_class_add_pad_templates exampleClassHost
        { caps := [7], klass := [] } (some 0)).caps = [7, 7, 7] :=
  ⟨((class_add_pad_templates_spec exampleClassHost
      { caps := [7], klass := ([] : List GstPadTemplate) }).1 0 7 rfl rfl).1,
   ((class_add_pad_templates_spec exampleClassHost
      { caps := [7], klass := ([] : List GstPadTemplate) }).1 0 7 rfl rfl).2.1⟩

end AudioFilter

namespace GLSyncMeta

/-! ### Reading and writing through meta pointers -/

theorem meta_emit (w : World) (c : Call) (p : Nat) : (w.emit c).meta p = w.meta p := rfl

theorem log_emit (w : World) (c : Call) : (w.emit c).log = w.log ++ [c] := rfl

theorem metas_emit (w : World) (c : Call) : (w.emit c).metas = w.metas := rfl

theorem buffers_emit (w : World) (c : Call) : (w.emit c).buffers = w.buffers := rfl

theorem log_modifyMeta (w : World) (p : Nat) (f : GstGLSyncMeta → GstGLSyncMeta) :
    (w.modifyMeta p f).log = w.log := rfl

theorem buffers_modifyMeta (w : World) (p : Nat) (f : GstGLSyncMeta → GstGLSyncMeta) :
    (w.modifyMeta p f).buffers = w.buffers := rfl

theorem length_modifyMeta (w : World) (p : Nat) (f : GstGLSyncMeta → GstGLSyncMeta) :
    (w.modifyMeta p f).metas.length = w.metas.length := by
  simp [World.modifyMeta]

theorem meta_modifyMeta_ne (w : World) {p q : Nat} (f : GstGLSyncMeta → GstGLSyncMeta)
    (h : p ≠ q) : (w.modifyMeta p f).meta q = w.meta q := by
  simp [World.meta, World.modifyMeta, List.getD_eq_getElem?_getD, List.getElem?_modify_ne _ _ h]

theorem meta_modifyMeta_eq (w : World) {p : Nat} (f : GstGLSyncMeta → GstGLSyncMeta)
    (h : p < w.metas.length) : (w.modifyMeta p f).meta p = f (w.meta p) := by
  simp [World.meta, World.modifyMeta, List.getD_eq_getElem?_getD, List.getElem?_eq_getElem h]

theorem meta_modifyMeta_field {α : Type} (w : World) (p q : Nat)
    (f : GstGLSyncMeta → GstGLSyncMeta) (g : GstGLSyncMeta → α) (hf : ∀ sm, g (f sm) = g sm) :
    g ((w.modifyMeta p f).meta q) = g (w.meta q) := by
  by_cases h : p = q
  · subst h
    simp only [World.meta, World.modifyMeta, List.getD_eq_getElem?_getD, List.getElem?_modify_eq]
    cases w.metas[p]? <;> simp [hf]
  · rw [meta_modifyMeta_ne w f h]

theorem modify_length_append {α : Type} (f : α → α) (l : List α) (a : α) :
    List.modify f l.length (l ++ [a]) = l ++ [f a] := by
  induction l with
  | nil => rfl
  | cons x xs ih => simp [ih]

theorem is_dma_memory_congr (w w1 : World) (buf : Nat)
    (h : (w1.buffers[buf]?).map GstBuffer.memories_dma = (w.buffers[buf]?).map GstBuffer.memories_dma) :
    _is_dma_memory w1 buf = _is_dma_memory w buf := by
  unfold _is_dma_memory
  cases h1 : w1.buffers[buf]? <;> cases h2 : w.buffers[buf]? <;> simp [h1, h2] at h ⊢
  rw [h]

/-- What `gst_buffer_add_meta` does on a writable buffer. -/
theorem add_meta_writable (w : World) (buffer : Nat) (b : GstBuffer)
    (hb : w.buffers[buffer]? = some b) (hw : b.writable = true) :
    gst_buffer_add_meta buffer w =
      (some w.metas.length,
        { w with metas := w.metas ++ [_gst_gl_sync_meta_init],
                 buffers := w.buffers.set buffer { b with metas := w.metas.length :: b.metas } }) := by
  simp [gst_buffer_add_meta, hb, hw]

/-- When `gst_buffer_add_meta` fails it leaves the world alone. -/
theorem add_meta_none (w : World) (buffer : Nat)
    (h : (gst_buffer_add_meta buffer w).1 = none) : gst_buffer_add_meta buffer w = (none, w) := by
  unfold gst_buffer_add_meta at h ⊢
  cases hb : w.buffers[buffer]? with
  | none => simp
  | some b =>
    by_cases hw : b.writable = true
    · simp [hb, hw] at h
    · simp [hw]

/-- When `gst_buffer_add_meta` succeeds, the buffer was there and writable. -/
theorem add_meta_some (w : World) (buffer : Nat)
    (h : (gst_buffer_add_meta buffer w).1 ≠ none) :
    ∃ b, w.buffers[buffer]? = some b ∧ b.writable = true := by
  unfold gst_buffer_add_meta at h
  cases hb : w.buffers[buffer]? with
  | none => simp [hb] at h
  | some b =>
    by_cases hw : b.writable = true
    · exact ⟨b, rfl, hw⟩
    · simp [hb, hw] at h

/-- What `gst_buffer_add_gl_sync_meta_full` does when it succeeds. -/
theorem add_full_writable (env : Env) (context buffer data : Nat) (w : World) (b : GstBuffer)
    (hc : env.is_gl_context context = true)
    (hb : w.buffers[buffer]? = some b) (hw : b.writable = true) :
    ∃ w1, gst_buffer_add_gl_sync_meta_full env context buffer data w = (some w.metas.length, w1) ∧
      w1.metas = w.metas ++ [{ _gst_gl_sync_meta_init with
          context := context, data := data,
          is_egl := env.have_iondma && _is_dma_memory w buffer }] ∧
      w1.buffers = w.buffers.set buffer { b with metas := w.metas.length :: b.metas } ∧
      w1.log = w.log ++ [Call.object_ref context] := by
  have hlt : buffer < w.buffers.length := (List.getElem?_eq_some_iff.mp hb).1
  have hdma : ∀ (ms : List GstGLSyncMeta) (l : List Call), _is_dma_memory
      { metas := ms,
        buffers := w.buffers.set buffer { b with metas := w.metas.length :: b.metas },
        log := l } buffer = _is_dma_memory w buffer := by
    intro ms l
    apply is_dma_memory_congr
    simp [hb, List.getElem?_set_self hlt]
  unfold gst_buffer_add_gl_sync_meta_full
  rw [add_meta_writable w buffer b hb hw]
  cases hi : env.have_iondma
  · refine ⟨_, by simp [hc, hi]; rfl, ?_, ?_, ?_⟩
    · simp [World.modifyMeta, World.emit, _gst_gl_sync_meta_init, modify_length_append]
    · simp [World.modifyMeta, World.emit]
    · simp [World.modifyMeta, World.emit]
  · refine ⟨_, by simp [hc, hi]; rfl, ?_, ?_, ?_⟩
    · simp [World.modifyMeta, World.emit, _gst_gl_sync_meta_init, modify_length_append, hdma]
    · simp [World.modifyMeta, World.emit]
    · simp [World.modifyMeta, World.emit]

end GLSyncMeta

namespace GLSyncMeta

/-- C4.  For every GL context and every buffer on which `gst_buffer_add_meta`
succeeds, `gst_buffer_add_gl_sync_meta` returns the address of a new meta, which
is the one attached to the buffer; the meta holds the given context, its `data`
is NULL, `set_sync_gl`, `wait_gl`, `wait_cpu_gl`, `copy` and `free_gl` are the
five defaults and `set_sync`, `wait`, `wait_cpu` and `free` are NULL; the metas
that existed before are as they were.  When the context is not a GL context, or
when `gst_buffer_add_meta` fails, the result is NULL and nothing changes. -/
theorem add_gl_sync_meta_spec (env : Env) (context buffer : Nat) (w : World) :
    (env.is_gl_context context = true → (gst_buffer_add_meta buffer w).1 ≠ none →
      ∃ b w1, w.buffers[buffer]? = some b ∧
        gst_buffer_add_gl_sync_meta env context buffer w = (some w.metas.length, w1) ∧
        w1.buffers[buffer]? = some { b with metas := w.metas.length :: b.metas } ∧
        w1.metas = w.metas ++
          [{ context := context, data := 0,
             set_sync := none, set_sync_gl := some SyncFn.default_set_sync_gl,
             wait := none, wait_gl := some SyncFn.default_wait_gl,
             wait_cpu := none, wait_cpu_gl := some SyncFn.default_wait_cpu_gl,
             copy := some CopyFn.default_copy,
             free := none, free_gl := some SyncFn.default_free_gl,
             is_egl := env.have_iondma && _is_dma_memory w buffer, egl_data := 0 }] ∧
        (w1.meta w.metas.length).context = context ∧
        (w1.meta w.metas.length).data = 0 ∧
        HasDefaultCallbacks (w1.meta w.metas.length)) ∧
    (env.is_gl_context context = false →
      gst_buffer_add_gl_sync_meta env context buffer w = (none, w)) ∧
    ((gst_buffer_add_meta buffer w).1 = none →
      gst_buffer_add_gl_sync_meta env context buffer w = (none, w)) := by
  refine ⟨?_, ?_, ?_⟩
  · intro hc hadd
    obtain ⟨b, hb, hw⟩ := add_meta_some w buffer hadd
    obtain ⟨w1, hfull, hmetas, hbufs, -⟩ := add_full_writable env context buffer 0 w b hc hb hw
    have hlt : buffer < w.buffers.length := (List.getElem?_eq_some_iff.mp hb).1
    have hfinal : (w1.modifyMeta w.metas.length (fun sm =>
        { sm with set_sync_gl := some SyncFn.default_set_sync_gl,
                  wait_gl := some SyncFn.default_wait_gl,
                  wait_cpu_gl := some SyncFn.default_wait_cpu_gl,
                  copy := some CopyFn.default_copy,
                  free_gl := some SyncFn.default_free_gl })).metas = w.metas ++
          [{ context := context, data := 0,
             set_sync := none, set_sync_gl := some SyncFn.default_set_sync_gl,
             wait := none, wait_gl := some SyncFn.default_wait_gl,
             wait_cpu := none, wait_cpu_gl := some SyncFn.default_wait_cpu_gl,
             copy := some CopyFn.default_copy,
             free := none, free_gl := some SyncFn.default_free_gl,
             is_egl := env.have_iondma && _is_dma_memory w buffer, egl_data := 0 }] := by
      simp [World.modifyMeta, hmetas, modify_length_append, _gst_gl_sync_meta_init]
    refine ⟨b, _, hb, by simp [gst_buffer_add_gl_sync_meta, hfull], ?_, hfinal, ?_, ?_, ?_⟩
    · simp [buffers_modifyMeta, hbufs, List.getElem?_set_self hlt]
    · simp [World.meta, hfinal, List.getD_eq_getElem?_getD]
    · simp [World.meta, hfinal, List.getD_eq_getElem?_getD]
    · simp [World.meta, hfinal, List.getD_eq_getElem?_getD, HasDefaultCallbacks]
  · intro hc
    simp [gst_buffer_add_gl_sync_meta, gst_buffer_add_gl_sync_meta_full, hc]
  · intro hadd
    have h := add_meta_none w buffer hadd
    unfold gst_buffer_add_gl_sync_meta gst_buffer_add_gl_sync_meta_full
    by_cases hc : env.is_gl_context context = false
    · simp [hc]
    · simp [hc, h]

/-- C4 (witness): adding to the writable buffer of the example world in the GL
context 7. -/
theorem add_gl_sync_meta_spec_witness :
    exampleEnv.is_gl_context 7 = true ∧ (gst_buffer_add_meta 0 exampleWorld).1 ≠ none ∧
    (gst_buffer_add_gl_sync_meta exampleEnv 7 0 exampleWorld).1 = some 0 ∧
    ((gst_buffer_add_gl_sync_meta exampleEnv 7 0 exampleWorld).2.meta 0).context = 7 ∧
    ((gst_buffer_add_gl_sync_meta exampleEnv 7 0 exampleWorld).2.meta 0).data = 0 ∧
    HasDefaultCallbacks ((gst_buffer_add_gl_sync_meta exampleEnv 7 0 exampleWorld).2.meta 0) := by
  obtain ⟨b, w1, -, h2, -, -, h5, h6, h7⟩ :=
    (add_gl_sync_meta_spec exampleEnv 7 0 exampleWorld).1 (by decide) (by decide)
  rw [h2]
  exact ⟨by decide, by decide, rfl, h5, h6, h7⟩

end GLSyncMeta

namespace GLSyncMeta

/-! ### `_default_set_sync_gl`, block by block -/

/-- The `DeleteSync` call the fence block starts with when a fence is held. -/
theorem fence_block_on (env : Env) (m ctx : Nat) (w : World)
    (hf : (env.gl_vtable ctx).FenceSync = true) (hm : m < w.metas.length) :
    (set_sync_gl_fence env m ctx w).log =
      w.log ++ (if (w.meta m).data ≠ 0 then [Call.DeleteSync ctx (w.meta m).data] else []) ++
        [Call.FenceSync ctx GL_SYNC_GPU_COMMANDS_COMPLETE 0
          (env.fence_result (w.log ++
            (if (w.meta m).data ≠ 0 then [Call.DeleteSync ctx (w.meta m).data] else [])))] ∧
    ((set_sync_gl_fence env m ctx w).meta m).data =
      env.fence_result (w.log ++
        (if (w.meta m).data ≠ 0 then [Call.DeleteSync ctx (w.meta m).data] else [])) ∧
    (set_sync_gl_fence env m ctx w).metas.length = w.metas.length := by
  unfold set_sync_gl_fence
  by_cases hd : (w.meta m).data = 0
  · simp [hf, hd, log_modifyMeta, log_emit, length_modifyMeta, metas_emit]
    rw [meta_modifyMeta_eq _ _ (by simpa [metas_emit] using hm)]
  · simp [hf, hd, log_modifyMeta, log_emit, length_modifyMeta, metas_emit]
    rw [meta_modifyMeta_eq _ _ (by simpa [metas_emit] using hm)]

theorem fence_block_off (env : Env) (m ctx : Nat) (w : World)
    (hf : (env.gl_vtable ctx).FenceSync = false) : set_sync_gl_fence env m ctx w = w := by
  simp [set_sync_gl_fence, hf]

theorem flush_block (env : Env) (m ctx : Nat) (w : World) :
    (set_sync_gl_flush env ctx w).log =
      w.log ++ (if env.is_shared ctx then [Call.Flush ctx] else []) ∧
    (set_sync_gl_flush env ctx w).meta m = w.meta m ∧
    (set_sync_gl_flush env ctx w).metas.length = w.metas.length := by
  unfold set_sync_gl_flush
  by_cases hs : env.is_shared ctx = true
  · simp [hs, log_emit, meta_emit, metas_emit]
  · simp [hs]

theorem egl_destroy_log (env : Env) (ctx sync : Nat) (w : World) :
    (∃ rest, (_eglDestroySyncKHR env ctx sync w).log = w.log ++ rest ∧
      ∀ c ∈ rest, Call.isFenceOrDelete c = false) ∧
    (_eglDestroySyncKHR env ctx sync w).metas = w.metas := by
  unfold _eglDestroySyncKHR
  by_cases hd : env.egl_display ctx = EGL_NO_DISPLAY
  · simp [hd]
  · simp only [hd, if_false]
    exact ⟨⟨[_], log_emit _ _, by simp [Call.isFenceOrDelete]⟩, rfl⟩

theorem egl_create_log (env : Env) (ctx : Nat) (w : World) :
    (∃ rest, (_eglCreateSyncKHR env ctx w).2.log = w.log ++ rest ∧
      ∀ c ∈ rest, Call.isFenceOrDelete c = false) ∧
    (_eglCreateSyncKHR env ctx w).2.metas = w.metas := by
  unfold _eglCreateSyncKHR
  by_cases hd : env.egl_display ctx = EGL_NO_DISPLAY
  · simp [hd]
  · simp only [hd, if_false]
    exact ⟨⟨[_], log_emit _ _, by simp [Call.isFenceOrDelete]⟩, rfl⟩

theorem egl_block (env : Env) (m ctx : Nat) (w : World) :
    (∃ rest, (set_sync_gl_egl env m ctx w).log = w.log ++ rest ∧
      ∀ c ∈ rest, Call.isFenceOrDelete c = false) ∧
    ((set_sync_gl_egl env m ctx w).meta m).data = (w.meta m).data := by
  unfold set_sync_gl_egl
  by_cases he : (env.have_iondma && (w.meta m).is_egl) = true
  · rw [if_pos he]
    simp only []
    generalize hw3 : (if (w.meta m).egl_data ≠ 0 then
        _eglDestroySyncKHR env ctx (w.meta m).egl_data w else w) = w3
    have h3 : (∃ rest, w3.log = w.log ++ rest ∧ ∀ c ∈ rest, Call.isFenceOrDelete c = false) ∧
        w3.metas = w.metas := by
      rw [← hw3]
      split
      · exact egl_destroy_log env ctx _ w
      · exact ⟨⟨[], by simp, by simp⟩, rfl⟩
    obtain ⟨⟨r3, hr3, hn3⟩, hm3⟩ := h3
    obtain ⟨⟨r4, hr4, hn4⟩, hm4⟩ := egl_create_log env ctx w3
    refine ⟨⟨r3 ++ r4, ?_, ?_⟩, ?_⟩
    · rw [log_modifyMeta, hr4, hr3, List.append_assoc]
    · intro c hc
      rcases List.mem_append.mp hc with h | h
      · exact hn3 c h
      · exact hn4 c h
    · have h := meta_modifyMeta_field (_eglCreateSyncKHR env ctx w3).2 m m
        (fun sm => { sm with egl_data := (_eglCreateSyncKHR env ctx w3).1 })
        GstGLSyncMeta.data (fun _ => rfl)
      rw [h]
      simp [World.meta, hm4, hm3]
  · rw [if_neg he]
    exact ⟨⟨[], by simp, by simp⟩, rfl⟩

/-- With the default callbacks, setting a sync point runs `_default_set_sync_gl`. -/
theorem set_sync_point_default (env : Env) (fuel m ctx : Nat) (w : World)
    (hd : HasDefaultCallbacks (w.meta m)) :
    gst_gl_sync_meta_set_sync_point env fuel m ctx w =
      Except.ok (_default_set_sync_gl env m ctx w) := by
  obtain ⟨h1, h2, -⟩ := hd
  simp [gst_gl_sync_meta_set_sync_point, gst_gl_context_thread_add, _set_sync_point, h1, h2,
    callSyncFn]

/-- C5.  For every meta with the callbacks `gst_buffer_add_gl_sync_meta` sets and
every context, `gst_gl_sync_meta_set_sync_point` returns.  When the function
table of the context provides `FenceSync`: the calls it logs are, in this order,
one `DeleteSync` of the fence held in `meta.data` if there was one, one
`FenceSync (GL_SYNC_GPU_COMMANDS_COMPLETE, 0)`, and then calls that neither
create nor delete a fence; `meta.data` is the value that `FenceSync` call
returned.  When `FenceSync` is not provided `meta.data` is unchanged. -/
theorem set_sync_point_spec (env : Env) (fuel m ctx : Nat) (w : World)
    (hm : m < w.metas.length) (hd : HasDefaultCallbacks (w.meta m)) :
    ∃ w1, gst_gl_sync_meta_set_sync_point env fuel m ctx w = Except.ok w1 ∧
      ((env.gl_vtable ctx).FenceSync = true →
        ∃ rest, w1.log =
          w.log ++ (if (w.meta m).data ≠ 0 then [Call.DeleteSync ctx (w.meta m).data] else []) ++
            [Call.FenceSync ctx GL_SYNC_GPU_COMMANDS_COMPLETE 0 (w1.meta m).data] ++ rest ∧
          (∀ c ∈ rest, Call.isFenceOrDelete c = false) ∧
          (w1.meta m).data = env.fence_result (w.log ++
            (if (w.meta m).data ≠ 0 then [Call.DeleteSync ctx (w.meta m).data] else []))) ∧
      ((env.gl_vtable ctx).FenceSync = false → (w1.meta m).data = (w.meta m).data) := by
  refine ⟨_, set_sync_point_default env fuel m ctx w hd, ?_, ?_⟩
  · intro hf
    obtain ⟨hlog1, hdata1, hlen1⟩ := fence_block_on env m ctx w hf hm
    obtain ⟨hlog2, hmeta2, -⟩ := flush_block env m ctx (set_sync_gl_fence env m ctx w)
    obtain ⟨⟨r3, hlog3, hn3⟩, hdata3⟩ :=
      egl_block env m ctx (set_sync_gl_flush env ctx (set_sync_gl_fence env m ctx w))
    have hdata : ((_default_set_sync_gl env m ctx w).meta m).data = env.fence_result (w.log ++
        (if (w.meta m).data ≠ 0 then [Call.DeleteSync ctx (w.meta m).data] else [])) := by
      unfold _default_set_sync_gl
      rw [hdata3, hmeta2, hdata1]
    refine ⟨(if env.is_shared ctx then [Call.Flush ctx] else []) ++ r3, ?_, ?_, hdata⟩
    · rw [hdata]
      unfold _default_set_sync_gl
      rw [hlog3, hlog2, hlog1]
      simp [List.append_assoc]
    · intro c hc
      rcases List.mem_append.mp hc with h | h
      · split at h
        · simp at h; subst h; rfl
        · simp at h
      · exact hn3 c h
  · intro hf
    unfold _default_set_sync_gl
    rw [(egl_block env m ctx _).2, (flush_block env m ctx _).2.1, fence_block_off env m ctx w hf]

end GLSyncMeta

namespace GLSyncMeta

/-- C5 (witness): the example meta holds fence 5; setting a sync point in context
7 deletes it and stores the new fence 101. -/
theorem set_sync_point_spec_witness :
    0 < exampleMetaWorld.metas.length ∧ HasDefaultCallbacks (exampleMetaWorld.meta 0) ∧
    (gst_gl_sync_meta_set_sync_point exampleEnv 0 0 7 exampleMetaWorld).isOk = true ∧
    gst_gl_sync_meta_set_sync_point exampleEnv 0 0 7 exampleMetaWorld =
      Except.ok { exampleMetaWorld with
        metas := [{ exampleMeta with data := 101 }],
        log := [Call.DeleteSync 7 5, Call.FenceSync 7 GL_SYNC_GPU_COMMANDS_COMPLETE 0 101] } := by
  obtain ⟨w1, h, -⟩ :=
    set_sync_point_spec exampleEnv 0 0 7 exampleMetaWorld (by decide) (by decide)
  refine ⟨by decide, by decide, ?_, by decide⟩
  rw [h]; rfl

/-- C6 (counterexample).  The meta that `gst_buffer_add_gl_sync_meta` has just
created holds no sync object (`data` is NULL): `gst_gl_sync_meta_wait` returns
with the world as it was, its log has no `WaitSync`. -/
theorem wait_on_fresh_meta_issues_no_wait_sync :
    (gst_buffer_add_gl_sync_meta exampleEnv 7 0 exampleWorld).1 = some 0 ∧
    (exampleEnv.gl_vtable 7).WaitSync = true ∧
    gst_gl_sync_meta_wait exampleEnv 1 0 7
        (gst_buffer_add_gl_sync_meta exampleEnv 7 0 exampleWorld).2 =
      Except.ok (gst_buffer_add_gl_sync_meta exampleEnv 7 0 exampleWorld).2 ∧
    (gst_buffer_add_gl_sync_meta exampleEnv 7 0 exampleWorld).2.log.filter Call.isWaitSync
      = [] := by
  decide

/-- C6 (amended).  For every meta with the callbacks `gst_buffer_add_gl_sync_meta`
sets and every context, `gst_gl_sync_meta_wait` returns and leaves every meta
and every buffer unchanged; when `meta.data` is not NULL and the function table
of the context provides `WaitSync`, it issues exactly one call, `WaitSync
(meta.data, 0, GL_TIMEOUT_IGNORED)` in that context; otherwise it issues no
call. -/
theorem wait_spec (env : Env) (fuel m ctx : Nat) (w : World)
    (hd : HasDefaultCallbacks (w.meta m)) :
    ∃ w1, gst_gl_sync_meta_wait env fuel m ctx w = Except.ok w1 ∧
      w1.metas = w.metas ∧ w1.buffers = w.buffers ∧
      ((w.meta m).data ≠ 0 ∧ (env.gl_vtable ctx).WaitSync = true →
        w1.log = w.log ++ [Call.WaitSync ctx (w.meta m).data 0 GL_TIMEOUT_IGNORED]) ∧
      (¬ ((w.meta m).data ≠ 0 ∧ (env.gl_vtable ctx).WaitSync = true) → w1.log = w.log) := by
  obtain ⟨-, -, h3, h4, -⟩ := hd
  refine ⟨_default_wait_gl env m ctx w, ?_, ?_⟩
  · simp [gst_gl_sync_meta_wait, gst_gl_context_thread_add, _wait, h3, h4, callSyncFn]
  · unfold _default_wait_gl
    by_cases hc : (w.meta m).data ≠ 0 ∧ (env.gl_vtable ctx).WaitSync = true
    · have hc2 := hc
      simp only [ne_eq] at hc2
      simp [hc2, World.emit]
    · have hc2 := hc
      simp only [ne_eq] at hc2
      simp [hc2]

/-- C6 (witness): the example meta holds fence 5, so one `WaitSync` on it is
issued in context 7. -/
theorem wait_spec_witness :
    HasDefaultCallbacks (exampleMetaWorld.meta 0) ∧
    (gst_gl_sync_meta_wait exampleEnv 0 0 7 exampleMetaWorld).isOk = true ∧
    gst_gl_sync_meta_wait exampleEnv 0 0 7 exampleMetaWorld =
      Except.ok { exampleMetaWorld with log := [Call.WaitSync 7 5 0 GL_TIMEOUT_IGNORED] } := by
  obtain ⟨w1, h, -⟩ := wait_spec exampleEnv 0 0 7 exampleMetaWorld (by decide)
  refine ⟨by decide, ?_, by decide⟩
  rw [h]; rfl

end GLSyncMeta

namespace GLSyncMeta

/-! ### The client wait loop -/

theorem expiredWaits_succ (ctx sync k : Nat) :
    expiredWaits ctx sync (k + 1) =
      Call.ClientWaitSync ctx sync GL_SYNC_FLUSH_COMMANDS_BIT ONE_SECOND GL_TIMEOUT_EXPIRED ::
        expiredWaits ctx sync k := rfl

theorem log_append_expiredWaits_succ (l : List Call) (ctx sync k : Nat) :
    l ++ expiredWaits ctx sync (k + 1) =
      (l ++ [Call.ClientWaitSync ctx sync GL_SYNC_FLUSH_COMMANDS_BIT ONE_SECOND
        GL_TIMEOUT_EXPIRED]) ++ expiredWaits ctx sync k := by
  rw [expiredWaits_succ]; simp

theorem afterWaits_succ (env : Env) (ctx sync k : Nat) (w : World) :
    afterWaits env ctx sync k (w.emit (Call.ClientWaitSync ctx sync GL_SYNC_FLUSH_COMMANDS_BIT
      ONE_SECOND GL_TIMEOUT_EXPIRED)) = afterWaits env ctx sync (k + 1) w := by
  simp [afterWaits, World.emit, expiredWaits_succ]

/-- The loop returns exactly when the driver stops timing out within the fuel. -/
theorem clientWaitLoop_total (env : Env) (ctx sync : Nat) :
    ∀ (k fuel : Nat) (w : World), k < fuel →
      (∀ j, j < k → env.client_wait_result (w.log ++ expiredWaits ctx sync j)
        = GL_TIMEOUT_EXPIRED) →
      env.client_wait_result (w.log ++ expiredWaits ctx sync k) ≠ GL_TIMEOUT_EXPIRED →
      clientWaitLoop env ctx sync fuel w = Except.ok (afterWaits env ctx sync k w) := by
  intro k
  induction k with
  | zero =>
    intro fuel w hk _ hlast
    obtain ⟨f, rfl⟩ : ∃ f, fuel = f + 1 := ⟨fuel - 1, by omega⟩
    have h0 : env.client_wait_result w.log ≠ GL_TIMEOUT_EXPIRED := by
      simpa [expiredWaits] using hlast
    simp [clientWaitLoop, h0, afterWaits, expiredWaits, World.emit]
  | succ k ih =>
    intro fuel w hk hexp hlast
    obtain ⟨f, rfl⟩ : ∃ f, fuel = f + 1 := ⟨fuel - 1, by omega⟩
    have h0 : env.client_wait_result w.log = GL_TIMEOUT_EXPIRED := by
      simpa [expiredWaits] using hexp 0 (Nat.succ_pos k)
    have hstep := ih f (w.emit (Call.ClientWaitSync ctx sync GL_SYNC_FLUSH_COMMANDS_BIT
        ONE_SECOND GL_TIMEOUT_EXPIRED)) (by omega)
      (by
        intro j hj
        rw [log_emit, ← log_append_expiredWaits_succ]
        exact hexp (j + 1) (by omega))
      (by
        rw [log_emit, ← log_append_expiredWaits_succ]
        exact hlast)
    rw [afterWaits_succ] at hstep
    rw [clientWaitLoop]
    simp only [h0, if_true]
    exact hstep

/-- While the driver keeps timing out the loop keeps waiting. -/
theorem clientWaitLoop_fuel (env : Env) (ctx sync : Nat) :
    ∀ (fuel : Nat) (w : World),
      (∀ j, j < fuel → env.client_wait_result (w.log ++ expiredWaits ctx sync j)
        = GL_TIMEOUT_EXPIRED) →
      clientWaitLoop env ctx sync fuel w = Except.error Stop.fuel := by
  intro fuel
  induction fuel with
  | zero => intro w _; rfl
  | succ f ih =>
    intro w hexp
    have h0 : env.client_wait_result w.log = GL_TIMEOUT_EXPIRED := by
      simpa [expiredWaits] using hexp 0 (Nat.succ_pos f)
    rw [clientWaitLoop]
    simp only [h0, if_true]
    apply ih
    intro j hj
    rw [log_emit, ← log_append_expiredWaits_succ]
    exact hexp (j + 1) (by omega)

/-- Whatever the loop does, it is one of the two above. -/
theorem clientWaitLoop_cases (env : Env) (ctx sync fuel : Nat) (w : World) :
    (∃ k, k < fuel ∧
      (∀ j, j < k → env.client_wait_result (w.log ++ expiredWaits ctx sync j)
        = GL_TIMEOUT_EXPIRED) ∧
      env.client_wait_result (w.log ++ expiredWaits ctx sync k) ≠ GL_TIMEOUT_EXPIRED ∧
      clientWaitLoop env ctx sync fuel w = Except.ok (afterWaits env ctx sync k w)) ∨
    ((∀ j, j < fuel → env.client_wait_result (w.log ++ expiredWaits ctx sync j)
        = GL_TIMEOUT_EXPIRED) ∧
      clientWaitLoop env ctx sync fuel w = Except.error Stop.fuel) := by
  by_cases h : ∃ k, k < fuel ∧
      env.client_wait_result (w.log ++ expiredWaits ctx sync k) ≠ GL_TIMEOUT_EXPIRED
  · left
    classical
    refine ⟨Nat.find h, (Nat.find_spec h).1, ?_, (Nat.find_spec h).2, ?_⟩
    · intro j hj
      by_contra hne
      exact Nat.find_min h hj ⟨lt_trans hj (Nat.find_spec h).1, hne⟩
    · apply clientWaitLoop_total env ctx sync _ fuel w (Nat.find_spec h).1 _ (Nat.find_spec h).2
      intro j hj
      by_contra hne
      exact Nat.find_min h hj ⟨lt_trans hj (Nat.find_spec h).1, hne⟩
  · right
    have hall : ∀ j, j < fuel → env.client_wait_result (w.log ++ expiredWaits ctx sync j)
        = GL_TIMEOUT_EXPIRED := by
      intro j hj
      by_contra hne
      exact h ⟨j, hj, hne⟩
    exact ⟨hall, clientWaitLoop_fuel env ctx sync fuel w hall⟩

/-- With the default callbacks and no EGL sync held, the CPU wait is the client
wait loop on `meta.data`, or one `Finish`. -/
theorem wait_cpu_default (env : Env) (fuel m ctx : Nat) (w : World)
    (hd : HasDefaultCallbacks (w.meta m))
    (hegl : env.have_iondma = true → (w.meta m).egl_data = 0) :
    gst_gl_sync_meta_wait_cpu env fuel m ctx w =
      if (w.meta m).data ≠ 0 ∧ (env.gl_vtable ctx).ClientWaitSync = true then
        clientWaitLoop env ctx (w.meta m).data fuel w
      else Except.ok (w.emit (Call.Finish ctx)) := by
  obtain ⟨-, -, -, -, h5, h6, -⟩ := hd
  have he : (env.have_iondma && decide ((w.meta m).egl_data ≠ 0)) = false := by
    cases hi : env.have_iondma
    · rfl
    · simp [hegl hi]
  have he2 : (env.have_iondma && (w.meta m).is_egl && decide ((w.meta m).egl_data ≠ 0)) = false := by
    cases hi : env.have_iondma
    · rfl
    · simp [hegl hi]
  unfold gst_gl_sync_meta_wait_cpu
  rw [h5]
  simp only [he2]
  simp only [gst_gl_context_thread_add, _wait_cpu, h6, callSyncFn, _default_wait_cpu_gl, he]
  simp

end GLSyncMeta

namespace GLSyncMeta

/-- C7.  For every meta with the default callbacks that holds no EGL sync and
every context: whenever `gst_gl_sync_meta_wait_cpu` returns, no meta has
changed, and either `meta.data` is not NULL and `ClientWaitSync` is available,
and the calls issued are `k` calls `ClientWaitSync (meta.data,
GL_SYNC_FLUSH_COMMANDS_BIT, 1 s)` that returned `GL_TIMEOUT_EXPIRED` followed by
one that returned another value, or else exactly one call was issued, `Finish`.
The call never stops on an assertion or a NULL slot; it returns at once in the
`Finish` case, it returns after `k + 1` calls when the driver times out `k`
times, and as long as the driver times out the wait is issued again. -/
theorem wait_cpu_spec (env : Env) (m ctx : Nat) (w : World)
    (hd : HasDefaultCallbacks (w.meta m))
    (hegl : env.have_iondma = true → (w.meta m).egl_data = 0) :
    (∀ fuel w1, gst_gl_sync_meta_wait_cpu env fuel m ctx w = Except.ok w1 →
      w1.metas = w.metas ∧
      ((w.meta m).data ≠ 0 ∧ (env.gl_vtable ctx).ClientWaitSync = true →
        ∃ k, k < fuel ∧
          w1.log = w.log ++ expiredWaits ctx (w.meta m).data k ++
            [Call.ClientWaitSync ctx (w.meta m).data GL_SYNC_FLUSH_COMMANDS_BIT ONE_SECOND
              (env.client_wait_result (w.log ++ expiredWaits ctx (w.meta m).data k))] ∧
          env.client_wait_result (w.log ++ expiredWaits ctx (w.meta m).data k)
            ≠ GL_TIMEOUT_EXPIRED) ∧
      (¬ ((w.meta m).data ≠ 0 ∧ (env.gl_vtable ctx).ClientWaitSync = true) →
        w1.log = w.log ++ [Call.Finish ctx])) ∧
    (∀ fuel, gst_gl_sync_meta_wait_cpu env fuel m ctx w ≠ Except.error Stop.assertion ∧
      gst_gl_sync_meta_wait_cpu env fuel m ctx w ≠ Except.error Stop.null_call) ∧
    (¬ ((w.meta m).data ≠ 0 ∧ (env.gl_vtable ctx).ClientWaitSync = true) →
      ∀ fuel, gst_gl_sync_meta_wait_cpu env fuel m ctx w = Except.ok (w.emit (Call.Finish ctx))) ∧
    ((w.meta m).data ≠ 0 ∧ (env.gl_vtable ctx).ClientWaitSync = true →
      (∀ k fuel, k < fuel →
        (∀ j, j < k → env.client_wait_result (w.log ++ expiredWaits ctx (w.meta m).data j)
          = GL_TIMEOUT_EXPIRED) →
        env.client_wait_result (w.log ++ expiredWaits ctx (w.meta m).data k)
          ≠ GL_TIMEOUT_EXPIRED →
        gst_gl_sync_meta_wait_cpu env fuel m ctx w =
          Except.ok (afterWaits env ctx (w.meta m).data k w)) ∧
      (∀ fuel,
        (∀ j, j < fuel → env.client_wait_result (w.log ++ expiredWaits ctx (w.meta m).data j)
          = GL_TIMEOUT_EXPIRED) →
        gst_gl_sync_meta_wait_cpu env fuel m ctx w = Except.error Stop.fuel)) := by
  have hdef := fun fuel => wait_cpu_default env fuel m ctx w hd hegl
  by_cases hc : (w.meta m).data ≠ 0 ∧ (env.gl_vtable ctx).ClientWaitSync = true
  · have hloop : ∀ fuel, gst_gl_sync_meta_wait_cpu env fuel m ctx w =
        clientWaitLoop env ctx (w.meta m).data fuel w := by
      intro fuel; rw [hdef fuel, if_pos hc]
    refine ⟨?_, ?_, fun h => absurd hc h, fun _ => ⟨?_, ?_⟩⟩
    · intro fuel w1 hret
      rw [hloop] at hret
      rcases clientWaitLoop_cases env ctx (w.meta m).data fuel w with
        ⟨k, hk, -, hlast, hok⟩ | ⟨-, herr⟩
      · rw [hok] at hret
        have hw1 : w1 = afterWaits env ctx (w.meta m).data k w := by
          injection hret with h; exact h.symm
        subst hw1
        exact ⟨rfl, fun _ => ⟨k, hk, rfl, hlast⟩, fun h => absurd hc h⟩
      · rw [herr] at hret; cases hret
    · intro fuel
      rw [hloop]
      rcases clientWaitLoop_cases env ctx (w.meta m).data fuel w with
        ⟨k, -, -, -, hok⟩ | ⟨-, herr⟩
      · rw [hok]; exact ⟨(by intro h; cases h), (by intro h; cases h)⟩
      · rw [herr]; exact ⟨(by intro h; cases h), (by intro h; cases h)⟩
    · intro k fuel hk hexp hlast
      rw [hloop]
      exact clientWaitLoop_total env ctx _ k fuel w hk hexp hlast
    · intro fuel hexp
      rw [hloop]
      exact clientWaitLoop_fuel env ctx _ fuel w hexp
  · have hfin : ∀ fuel, gst_gl_sync_meta_wait_cpu env fuel m ctx w =
        Except.ok (w.emit (Call.Finish ctx)) := by
      intro fuel; rw [hdef fuel, if_neg hc]
    refine ⟨?_, ?_, fun _ => hfin, fun h => absurd h hc⟩
    · intro fuel w1 hret
      rw [hfin] at hret
      have hw1 : w1 = w.emit (Call.Finish ctx) := by
        injection hret with h; exact h.symm
      subst hw1
      exact ⟨rfl, fun h => absurd h hc, fun _ => rfl⟩
    · intro fuel
      rw [hfin]; exact ⟨(by intro h; cases h), (by intro h; cases h)⟩

/-- C7 (witness): the example meta holds fence 5 and the example driver times out
three times; with fuel for four waits the call returns, the fourth wait having
returned `0x911A`. -/
theorem wait_cpu_spec_witness :
    HasDefaultCallbacks (exampleMetaWorld.meta 0) ∧
    (exampleEnv.have_iondma = true → (exampleMetaWorld.meta 0).egl_data = 0) ∧
    gst_gl_sync_meta_wait_cpu exampleEnv 4 0 7 exampleMetaWorld =
      Except.ok { exampleMetaWorld with
        log := [Call.ClientWaitSync 7 5 GL_SYNC_FLUSH_COMMANDS_BIT ONE_SECOND GL_TIMEOUT_EXPIRED,
                Call.ClientWaitSync 7 5 GL_SYNC_FLUSH_COMMANDS_BIT ONE_SECOND GL_TIMEOUT_EXPIRED,
                Call.ClientWaitSync 7 5 GL_SYNC_FLUSH_COMMANDS_BIT ONE_SECOND GL_TIMEOUT_EXPIRED,
                Call.ClientWaitSync 7 5 GL_SYNC_FLUSH_COMMANDS_BIT ONE_SECOND 0x911A] } ∧
    gst_gl_sync_meta_wait_cpu exampleEnv 3 0 7 exampleMetaWorld = Except.error Stop.fuel :=
  ⟨by decide, by decide,
    (((wait_cpu_spec exampleEnv 0 7 exampleMetaWorld (by decide) (by decide)).2.2.2
      (by decide)).1 3 4 (by decide) (by decide) (by decide)).trans (by decide),
    ((wait_cpu_spec exampleEnv 0 7 exampleMetaWorld (by decide) (by decide)).2.2.2
      (by decide)).2 3 (by decide)⟩

end GLSyncMeta

namespace GLSyncMeta

/-! ### The meta transform -/

/-- The nine assignments write the callbacks of the source meta into the meta
that was appended last, and touch nothing else. -/
theorem copy_callbacks_spec (smeta dmeta : Nat) (w1 : World) (ms : List GstGLSyncMeta)
    (d0 : GstGLSyncMeta) (hm : w1.metas = ms ++ [d0]) (hd : dmeta = ms.length)
    (hs : smeta < ms.length) :
    copy_callbacks smeta dmeta w1 =
      { w1 with metas := ms ++
          [{ d0 with
             set_sync := (w1.meta smeta).set_sync, set_sync_gl := (w1.meta smeta).set_sync_gl,
             wait := (w1.meta smeta).wait, wait_gl := (w1.meta smeta).wait_gl,
             wait_cpu := (w1.meta smeta).wait_cpu, wait_cpu_gl := (w1.meta smeta).wait_cpu_gl,
             copy := (w1.meta smeta).copy,
             free := (w1.meta smeta).free, free_gl := (w1.meta smeta).free_gl }] } := by
  have hne : dmeta ≠ smeta := by omega
  unfold copy_callbacks
  simp only [meta_modifyMeta_ne _ _ hne]
  simp [World.modifyMeta, hm, hd, modify_length_append]

theorem meta_of_append_left (w w1 : World) (x : GstGLSyncMeta) (p : Nat)
    (hm : w1.metas = w.metas ++ [x]) (hp : p < w.metas.length) : w1.meta p = w.meta p := by
  simp [World.meta, hm, List.getD_eq_getElem?_getD, List.getElem?_append_left hp]

theorem copy_some_lt (w : World) (p : Nat) (cp : CopyFn) (h : (w.meta p).copy = some cp) :
    p < w.metas.length := by
  by_contra hge
  have : w.metas[p]? = none := List.getElem?_eq_none (by omega)
  simp [World.meta, List.getD_eq_getElem?_getD, this, _gst_gl_sync_meta_init] at h

/-- C8 (counterexample).  A meta made by `gst_buffer_add_gl_sync_meta_full` has a
NULL `copy` slot.  A complete copy of it onto a writable buffer stops on the
`g_assert`: TRUE is not returned, FALSE is not returned. -/
theorem transform_of_meta_without_copy_aborts :
    (gst_buffer_add_gl_sync_meta_full exampleEnv 7 0 0 exampleMetaWorld).1 = some 1 ∧
    ((gst_buffer_add_gl_sync_meta_full exampleEnv 7 0 0 exampleMetaWorld).2.meta 1).copy = none ∧
    (gst_buffer_add_meta 1 (gst_buffer_add_gl_sync_meta_full exampleEnv 7 0 0
      exampleMetaWorld).2).1 ≠ none ∧
    _gst_gl_sync_meta_transform exampleEnv 1 1 1 0 (GstMetaTransform.copy false 0 0)
      (gst_buffer_add_gl_sync_meta_full exampleEnv 7 0 0 exampleMetaWorld).2 =
        Except.error Stop.assertion := by
  decide

/-- C8 (amended).  For every source meta whose `copy` slot is not NULL, as the
function asserts, and every copy transform whose region flag is false: when the
context of the source is a GL context and the destination buffer is writable,
the destination gains one new sync meta with the context of the source, `data`
NULL and the nine callbacks of the source; the `copy` callback of the source is
then called, once, with (source meta, source buffer, new meta, destination
buffer), and when it returns the transform returns TRUE.  When the meta cannot
be added the transform returns FALSE and nothing changes. -/
theorem transform_copy_spec (env : Env) (fuel dest smeta buffer offset size : Nat) (w : World)
    (cp : CopyFn) (hcopy : (w.meta smeta).copy = some cp) :
    (∀ b, env.is_gl_context (w.meta smeta).context = true → w.buffers[dest]? = some b →
      b.writable = true →
      _gst_gl_sync_meta_transform env fuel dest smeta buffer
          (GstMetaTransform.copy false offset size) w =
        (callCopyFn env fuel cp smeta buffer w.metas.length dest
          { metas := w.metas ++
              [{ context := (w.meta smeta).context, data := 0,
                 set_sync := (w.meta smeta).set_sync, set_sync_gl := (w.meta smeta).set_sync_gl,
                 wait := (w.meta smeta).wait, wait_gl := (w.meta smeta).wait_gl,
                 wait_cpu := (w.meta smeta).wait_cpu, wait_cpu_gl := (w.meta smeta).wait_cpu_gl,
                 copy := (w.meta smeta).copy,
                 free := (w.meta smeta).free, free_gl := (w.meta smeta).free_gl,
                 is_egl := env.have_iondma && _is_dma_memory w dest, egl_data := 0 }],
            buffers := w.buffers.set dest { b with metas := w.metas.length :: b.metas },
            log := w.log ++ [Call.object_ref (w.meta smeta).context] }).map
          (fun w2 => (true, w2))) ∧
    (env.is_gl_context (w.meta smeta).context = false ∨ (gst_buffer_add_meta dest w).1 = none →
      _gst_gl_sync_meta_transform env fuel dest smeta buffer
          (GstMetaTransform.copy false offset size) w = Except.ok (false, w)) := by
  have hs : smeta < w.metas.length := copy_some_lt w smeta cp hcopy
  constructor
  · intro b hc hb hw
    obtain ⟨w1, hfull, hmetas, hbufs, hlog⟩ :=
      add_full_writable env (w.meta smeta).context dest 0 w b hc hb hw
    have hsm : w1.meta smeta = w.meta smeta := meta_of_append_left w w1 _ smeta hmetas hs
    have hcc := copy_callbacks_spec smeta w.metas.length w1 w.metas _ hmetas rfl hs
    have hsm10 : (copy_callbacks smeta w.metas.length w1).meta smeta = w.meta smeta := by
      rw [hcc]
      simp [World.meta, List.getD_eq_getElem?_getD, List.getElem?_append_left hs]
    have hw10 : copy_callbacks smeta w.metas.length w1 =
        { metas := w.metas ++
              [{ context := (w.meta smeta).context, data := 0,
                 set_sync := (w.meta smeta).set_sync, set_sync_gl := (w.meta smeta).set_sync_gl,
                 wait := (w.meta smeta).wait, wait_gl := (w.meta smeta).wait_gl,
                 wait_cpu := (w.meta smeta).wait_cpu, wait_cpu_gl := (w.meta smeta).wait_cpu_gl,
                 copy := (w.meta smeta).copy,
                 free := (w.meta smeta).free, free_gl := (w.meta smeta).free_gl,
                 is_egl := env.have_iondma && _is_dma_memory w dest, egl_data := 0 }],
            buffers := w.buffers.set dest { b with metas := w.metas.length :: b.metas },
            log := w.log ++ [Call.object_ref (w.meta smeta).context] } := by
      rw [hcc, hsm, hbufs, hlog]
      simp [_gst_gl_sync_meta_init]
    have key : ∀ w10 : World, w10.meta smeta = w.meta smeta →
        (match (w10.meta smeta).copy with
          | none => (Except.error Stop.null_call : Except Stop (Bool × World))
          | some cp =>
            match callCopyFn env fuel cp smeta buffer w.metas.length dest w10 with
            | Except.error e => Except.error e
            | Except.ok w11 => Except.ok (true, w11)) =
        (callCopyFn env fuel cp smeta buffer w.metas.length dest w10).map
          (fun w2 => (true, w2)) := by
      intro w10 h
      rw [h, hcopy]
      dsimp only
      cases callCopyFn env fuel cp smeta buffer w.metas.length dest w10 <;> rfl
    unfold _gst_gl_sync_meta_transform
    simp only [hcopy, hfull, if_true]
    rw [key _ hsm10, hw10]
    simp only [hcopy]
  · intro h
    unfold _gst_gl_sync_meta_transform
    simp only [hcopy, if_true]
    have hnone : gst_buffer_add_gl_sync_meta_full env (w.meta smeta).context dest 0 w
        = (none, w) := by
      unfold gst_buffer_add_gl_sync_meta_full
      by_cases hc : env.is_gl_context (w.meta smeta).context = false
      · simp [hc]
      · rcases h with h | h
        · exact absurd h hc
        · simp [hc, add_meta_none w dest h]
    rw [hnone]

/-- C8 (witness): a complete copy of the example meta from buffer 0 to buffer
1.  The default copy callback then sets a sync point on the source. -/
theorem transform_copy_spec_witness :
    (exampleMetaWorld.meta 0).copy = some CopyFn.default_copy ∧
    exampleEnv.is_gl_context (exampleMetaWorld.meta 0).context = true ∧
    _gst_gl_sync_meta_transform exampleEnv 0 1 0 0 (GstMetaTransform.copy false 0 0)
        exampleMetaWorld =
      Except.ok (true,
        { metas := [{ exampleMeta with data := 102 }, { exampleMeta with data := 0 }],
          buffers := [{ writable := true, metas := [0], memories_dma := [] },
                      { writable := true, metas := [1], memories_dma := [] }],
          log := [Call.object_ref 7, Call.DeleteSync 7 5,
                  Call.FenceSync 7 GL_SYNC_GPU_COMMANDS_COMPLETE 0 102] }) :=
  ⟨by decide, by decide,
    ((transform_copy_spec exampleEnv 0 1 0 0 0 0 exampleMetaWorld CopyFn.default_copy
      (by decide)).1 { writable := true, metas := [], memories_dma := [] }
      (by decide) (by decide) (by decide)).trans (by decide)⟩

end GLSyncMeta

namespace GLDownload

/-! ### The heap of caps objects -/

theorem getElem?_foldl_modify {α : Type} (g : α → α) (l : List α) :
    ∀ k i, ((List.range k).foldl (fun s i => s.modify g i) l)[i]? =
      if i < k then (l[i]?).map g else l[i]? := by
  intro k
  induction k with
  | zero => intro i; simp
  | succ k ih =>
    intro i
    rw [List.range_succ, List.foldl_append]
    simp only [List.foldl_cons, List.foldl_nil]
    rw [List.getElem?_modify, ih]
    by_cases hik : i = k
    · subst hik
      simp
    · have hki : ¬ k = i := fun h => hik h.symm
      by_cases hlt : i < k
      · have hlt2 : i < k + 1 := by omega
        simp [hki, hlt, hlt2]
      · have hlt2 : ¬ i < k + 1 := by omega
        simp [hki, hlt, hlt2]

theorem foldl_modify_all {α : Type} (g : α → α) (l : List α) :
    (List.range l.length).foldl (fun s i => s.modify g i) l = l.map g := by
  apply List.ext_getElem?
  intro i
  rw [getElem?_foldl_modify, List.getElem?_map]
  by_cases hlt : i < l.length
  · simp [hlt]
  · have hnone : l[i]? = none := List.getElem?_eq_none (by omega)
    simp [hlt, hnone]

theorem refcount_setStructs (h : Heap) (p q : Nat) (f : List Entry → List Entry) :
    (h.setStructs p f).refcount q = h.refcount q := by
  by_cases hpq : p = q
  · subst hpq
    simp only [Heap.refcount, Heap.setStructs, List.getD_eq_getElem?_getD,
      List.getElem?_modify_eq]
    cases h[p]? <;> rfl
  · simp [Heap.refcount, Heap.setStructs, List.getD_eq_getElem?_getD,
      List.getElem?_modify_ne _ _ hpq]

theorem setStructs_setStructs (h : Heap) (p : Nat) (f g : List Entry → List Entry) :
    (h.setStructs p f).setStructs p g = h.setStructs p (fun s => g (f s)) := by
  simp only [Heap.setStructs, List.modify_modify_eq]
  rfl

theorem setStructs_id (h : Heap) (p : Nat) : h.setStructs p (fun s => s) = h := by
  have : (fun o : CapsObj => { o with caps := { o.caps with structs := o.caps.structs } })
      = id := by
    funext o; rfl
  simp only [Heap.setStructs, this, List.modify_id]

/-- A loop of writes to the entries of one writable caps object is one write. -/
theorem foldl_writes (g : Entry → Entry) (p : Nat) (step : Heap → Nat → Heap)
    (hstep : ∀ acc i, step acc i =
      if acc.refcount p = 1 then acc.setStructs p (fun s => s.modify g i) else acc)
    (is : List Nat) :
    ∀ h : Heap, h.refcount p = 1 →
      is.foldl step h = h.setStructs p (fun s => is.foldl (fun s i => s.modify g i) s) := by
  induction is with
  | nil => intro h _; simp [setStructs_id]
  | cons i is ih =>
    intro h hp
    simp only [List.foldl_cons]
    rw [hstep h i, if_pos hp, ih _ (by rw [refcount_setStructs]; exact hp),
      setStructs_setStructs]

theorem setStructs_last (h : Heap) (o : CapsObj) (f : List Entry → List Entry) :
    Heap.setStructs (h ++ [o]) h.length f =
      h ++ [{ o with caps := { o.caps with structs := f o.caps.structs } }] := by
  simp [Heap.setStructs, GLSyncMeta.modify_length_append]

theorem caps_last (h : Heap) (o : CapsObj) : Heap.caps (h ++ [o]) h.length = o.caps := by
  simp [Heap.caps, List.getD_eq_getElem?_getD]

theorem refcount_last (h : Heap) (o : CapsObj) :
    Heap.refcount (h ++ [o]) h.length = o.refcount := by
  simp [Heap.refcount, List.getD_eq_getElem?_getD]

theorem caps_of_getElem? (h h1 : Heap) (q : Nat) (hq : h1[q]? = h[q]?) :
    h1.caps q = h.caps q := by
  simp [Heap.caps, List.getD_eq_getElem?_getD, hq]

theorem refcount_of_getElem? (h h1 : Heap) (q : Nat) (hq : h1[q]? = h[q]?) :
    h1.refcount q = h.refcount q := by
  simp [Heap.refcount, List.getD_eq_getElem?_getD, hq]

/-- `_set_caps_features` appends one object to the heap: a copy of the caps in
which every entry has the named feature, with one reference. -/
theorem set_caps_features_eq (h : Heap) (caps : Nat) (feature_name : String) :
    _set_caps_features h caps feature_name =
      (h ++ [{ refcount := 1, caps := withFeature (h.caps caps) feature_name }], h.length) := by
  unfold _set_caps_features gst_caps_copy gst_caps_new
  simp only [gst_caps_get_size, caps_last]
  rw [foldl_writes (fun e => (e.1, some (gst_caps_features_from_string feature_name))) h.length
    (fun acc i => gst_caps_set_features acc h.length i
      (gst_caps_features_from_string feature_name))
    (fun acc i => rfl) _ _ (refcount_last h _), setStructs_last]
  simp [foldl_modify_all, withFeature]

/-- `_remove_field` on the object appended last, when it has one reference. -/
theorem remove_field_last (h : Heap) (c : GstCaps) (field : String) :
    _remove_field (h ++ [{ refcount := 1, caps := c }]) h.length field =
      h ++ [{ refcount := 1, caps := withoutField c field }] := by
  unfold _remove_field
  simp only [gst_caps_get_size, caps_last]
  rw [foldl_writes (fun e => (gst_structure_remove_field e.1 field, e.2)) h.length
    (fun acc i => remove_field_at acc h.length i field)
    (fun acc i => rfl) _ _ (refcount_last h _), setStructs_last]
  simp [foldl_modify_all, withoutField]

end GLDownload

namespace GLDownload

theorem getElem?_unref_ne (h : Heap) {p q : Nat} (hpq : p ≠ q) :
    (gst_caps_unref h p)[q]? = h[q]? := by
  simp [gst_caps_unref, List.getElem?_modify_ne _ _ hpq]

theorem getElem?_ref_ne (h : Heap) {p q : Nat} (hpq : p ≠ q) :
    (gst_caps_ref h p)[q]? = h[q]? := by
  simp [gst_caps_ref, List.getElem?_modify_ne _ _ hpq]

theorem getElem?_setStructs_ne (h : Heap) {p q : Nat} (f : List Entry → List Entry)
    (hpq : p ≠ q) : (h.setStructs p f)[q]? = h[q]? := by
  simp [Heap.setStructs, List.getElem?_modify_ne _ _ hpq]

theorem length_unref (h : Heap) (p : Nat) : (gst_caps_unref h p).length = h.length := by
  simp [gst_caps_unref]

theorem length_ref (h : Heap) (p : Nat) : (gst_caps_ref h p).length = h.length := by
  simp [gst_caps_ref]

theorem length_setStructs (h : Heap) (p : Nat) (f : List Entry → List Entry) :
    (h.setStructs p f).length = h.length := by
  simp [Heap.setStructs]

theorem caps_unref (h : Heap) (p q : Nat) : (gst_caps_unref h p).caps q = h.caps q := by
  by_cases hpq : p = q
  · subst hpq
    simp only [Heap.caps, gst_caps_unref, List.getD_eq_getElem?_getD, List.getElem?_modify_eq]
    cases h[p]? <;> rfl
  · exact caps_of_getElem? _ _ _ (getElem?_unref_ne h hpq)

theorem caps_ref (h : Heap) (p q : Nat) : (gst_caps_ref h p).caps q = h.caps q := by
  by_cases hpq : p = q
  · subst hpq
    simp only [Heap.caps, gst_caps_ref, List.getD_eq_getElem?_getD, List.getElem?_modify_eq]
    cases h[p]? <;> rfl
  · exact caps_of_getElem? _ _ _ (getElem?_ref_ne h hpq)

theorem refcount_unref_eq (h : Heap) (p : Nat) :
    (gst_caps_unref h p).refcount p = h.refcount p - 1 := by
  simp only [Heap.refcount, gst_caps_unref, List.getD_eq_getElem?_getD, List.getElem?_modify_eq]
  cases h[p]? <;> rfl

theorem refcount_unref_ne (h : Heap) {p q : Nat} (hpq : p ≠ q) :
    (gst_caps_unref h p).refcount q = h.refcount q :=
  refcount_of_getElem? _ _ _ (getElem?_unref_ne h hpq)

theorem refcount_ref_eq (h : Heap) {p : Nat} (hp : p < h.length) :
    (gst_caps_ref h p).refcount p = h.refcount p + 1 := by
  simp [Heap.refcount, gst_caps_ref, List.getD_eq_getElem?_getD, List.getElem?_eq_getElem hp]

theorem caps_setStructs_eq (h : Heap) {p : Nat} (f : List Entry → List Entry)
    (hp : p < h.length) :
    (h.setStructs p f).caps p = { h.caps p with structs := f (h.caps p).structs } := by
  simp [Heap.caps, Heap.setStructs, List.getD_eq_getElem?_getD, List.getElem?_eq_getElem hp]

theorem caps_setStructs_ne (h : Heap) {p q : Nat} (f : List Entry → List Entry)
    (hpq : p ≠ q) : (h.setStructs p f).caps q = h.caps q :=
  caps_of_getElem? _ _ _ (getElem?_setStructs_ne h f hpq)

theorem getElem?_append_old (h : Heap) (o : CapsObj) {q : Nat} (hq : q < h.length) :
    (h ++ [o])[q]? = h[q]? :=
  List.getElem?_append_left hq

theorem caps_append_old (h : Heap) (o : CapsObj) {q : Nat} (hq : q < h.length) :
    Heap.caps (h ++ [o]) q = h.caps q :=
  caps_of_getElem? _ _ _ (getElem?_append_old h o hq)

theorem refcount_append_old (h : Heap) (o : CapsObj) {q : Nat} (hq : q < h.length) :
    Heap.refcount (h ++ [o]) q = h.refcount q :=
  refcount_of_getElem? _ _ _ (getElem?_append_old h o hq)

/-- What `gst_caps_merge` does to the heap. -/
theorem merge_spec (host : Host) (h : Heap) (p1 p2 : Nat)
    (hp1 : p1 < h.length) (hp2 : p2 < h.length) (hne : p1 ≠ p2) :
    (gst_caps_merge host h p1 p2).1.caps (gst_caps_merge host h p1 p2).2 =
      caps_merge host (h.caps p1) (h.caps p2) ∧
    h.length ≤ (gst_caps_merge host h p1 p2).1.length ∧
    (gst_caps_merge host h p1 p2).2 < (gst_caps_merge host h p1 p2).1.length ∧
    (∀ q, q < h.length → q ≠ p1 → q ≠ p2 → (gst_caps_merge host h p1 p2).1[q]? = h[q]?) ∧
    (h.refcount p1 ≠ 1 → (gst_caps_merge host h p1 p2).1.caps p1 = h.caps p1) ∧
    h.refcount p1 - 1 ≤ (gst_caps_merge host h p1 p2).1.refcount p1 ∧
    ((gst_caps_merge host h p1 p2).2 = p1 →
      (gst_caps_merge host h p1 p2).1.refcount p1 = h.refcount p1) ∧
    ((gst_caps_merge host h p1 p2).2 = p1 ∨ (gst_caps_merge host h p1 p2).2 = p2 ∨
      (gst_caps_merge host h p1 p2).2 = h.length) := by
  unfold gst_caps_merge
  by_cases ha1 : (h.caps p1).any = true
  · rw [if_pos ha1]
    refine ⟨?_, ?_, ?_, ?_, ?_, ?_, ?_, ?_⟩
    · rw [caps_unref]; simp [caps_merge, ha1]
    · rw [length_unref]
    · rw [length_unref]; exact hp1
    · intro q _ _ hq2; exact getElem?_unref_ne h (Ne.symm hq2)
    · intro _; rw [caps_unref]
    · rw [refcount_unref_ne h (Ne.symm hne)]; omega
    · intro _; exact refcount_unref_ne h (Ne.symm hne)
    · exact Or.inl rfl
  · by_cases ha2 : (h.caps p2).any = true
    · rw [if_neg ha1, if_pos ha2]
      refine ⟨?_, ?_, ?_, ?_, ?_, ?_, ?_, ?_⟩
      · rw [caps_unref]; simp [caps_merge, ha1, ha2]
      · rw [length_unref]
      · rw [length_unref]; exact hp2
      · intro q _ hq1 _; exact getElem?_unref_ne h (Ne.symm hq1)
      · intro _; rw [caps_unref]
      · rw [refcount_unref_eq]
      · intro heq; exact absurd heq.symm hne
      · exact Or.inr (Or.inl rfl)
    · rw [if_neg ha1, if_neg ha2]
      simp only []
      have hcm : caps_merge host (h.caps p1) (h.caps p2) =
          { h.caps p1 with
            structs := merge_structs host (h.caps p1).structs (h.caps p2).structs } := by
        simp [caps_merge, ha1, ha2]
      by_cases hsame : merge_structs host (h.caps p1).structs (h.caps p2).structs
          = (h.caps p1).structs
      · rw [if_pos hsame]
        refine ⟨?_, ?_, ?_, ?_, ?_, ?_, ?_, ?_⟩
        · rw [caps_unref, hcm, hsame]
        · rw [length_unref]
        · rw [length_unref]; exact hp1
        · intro q _ _ hq2; exact getElem?_unref_ne h (Ne.symm hq2)
        · intro _; rw [caps_unref]
        · rw [refcount_unref_ne h (Ne.symm hne)]; omega
        · intro _; exact refcount_unref_ne h (Ne.symm hne)
        · exact Or.inl rfl
      · rw [if_neg hsame]
        unfold gst_caps_make_writable
        by_cases hw : h.refcount p1 = 1
        · rw [if_pos hw]
          refine ⟨?_, ?_, ?_, ?_, ?_, ?_, ?_, ?_⟩
          · rw [caps_unref, caps_setStructs_eq _ _ hp1, hcm]
          · rw [length_unref, length_setStructs]
          · rw [length_unref, length_setStructs]; exact hp1
          · intro q _ hq1 hq2
            rw [getElem?_unref_ne _ (Ne.symm hq2), getElem?_setStructs_ne _ _ (Ne.symm hq1)]
          · intro hcontra; exact absurd hw hcontra
          · rw [refcount_unref_ne _ (Ne.symm hne), refcount_setStructs, hw]; omega
          · intro _; rw [refcount_unref_ne _ (Ne.symm hne), refcount_setStructs, hw]
          · exact Or.inl rfl
        · rw [if_neg hw]
          simp only [gst_caps_copy, gst_caps_new]
          have hlen : (gst_caps_unref (h ++ [{ refcount := 1, caps := h.caps p1 }]) p1).length
              = h.length + 1 := by
            rw [length_unref]; simp
          have hnew1 : h.length ≠ p1 := by omega
          have hnew2 : h.length ≠ p2 := by omega
          refine ⟨?_, ?_, ?_, ?_, ?_, ?_, ?_, ?_⟩
          · rw [caps_unref, caps_setStructs_eq _ _ (by rw [hlen]; omega), caps_unref,
              caps_last, hcm]
          · rw [length_unref, length_setStructs, hlen]; omega
          · rw [length_unref, length_setStructs, hlen]; omega
          · intro q hq hq1 hq2
            have hqn : h.length ≠ q := by omega
            rw [getElem?_unref_ne _ (Ne.symm hq2), getElem?_setStructs_ne _ _ hqn,
              getElem?_unref_ne _ (Ne.symm hq1), getElem?_append_old _ _ hq]
          · intro _
            rw [caps_unref, caps_setStructs_ne _ _ hnew1, caps_unref, caps_append_old _ _ hp1]
          · rw [refcount_unref_ne _ (Ne.symm hne), refcount_setStructs, refcount_unref_eq,
              refcount_append_old _ _ hp1]
          · intro heq; exact absurd heq hnew1
          · exact Or.inr (Or.inr trivial)

end GLDownload

namespace GLDownload

/-! ### The input caps through `gst_gl_download_element_transform_caps` -/

theorem ref_append (h : Heap) (o : CapsObj) {c : Nat} (hc : c < h.length) :
    gst_caps_ref (h ++ [o]) c = gst_caps_ref h c ++ [o] := by
  apply List.ext_getElem?
  intro i
  unfold gst_caps_ref
  by_cases hi : i < h.length
  · rw [List.getElem?_modify, List.getElem?_append_left hi,
      List.getElem?_append_left (by simpa using hi), List.getElem?_modify]
  · have hci : c ≠ i := by omega
    rw [List.getElem?_modify_ne _ _ hci, List.getElem?_append_right (by omega),
      List.getElem?_append_right (by simp; omega)]
    simp

theorem keeps_init (h : Heap) (c : Nat) (hc : c < h.length) :
    Keeps h c (h.refcount c) (h.caps c) (gst_caps_ref h c) c := by
  refine ⟨?_, ?_, ?_, ?_, ?_, ?_, Or.inl rfl⟩
  · rw [length_ref]
  · rw [length_ref]; exact hc
  · rw [caps_ref]
  · rw [refcount_ref_eq h hc]; omega
  · intro _; rw [refcount_ref_eq h hc]
  · intro q _ hq; exact getElem?_ref_ne h (Ne.symm hq)

/-- Merging a new object, with contents `V` and one reference, into the caps
being built keeps the input caps and every other old object. -/
theorem keeps_step (host : Host) (h hX : Heap) (c t rc : Nat) (C V : GstCaps)
    (hrc : 1 ≤ rc) (hc : c < h.length) (K : Keeps h c rc C hX t) :
    Keeps h c rc C
      (gst_caps_merge host (hX ++ [{ refcount := 1, caps := V }]) t hX.length).1
      (gst_caps_merge host (hX ++ [{ refcount := 1, caps := V }]) t hX.length).2 ∧
    (gst_caps_merge host (hX ++ [{ refcount := 1, caps := V }]) t hX.length).1.caps
      (gst_caps_merge host (hX ++ [{ refcount := 1, caps := V }]) t hX.length).2 =
      caps_merge host (hX.caps t) V := by
  obtain ⟨k1, k2, k3, k4, k5, k6, k7⟩ := K
  have hlenY : (hX ++ [({ refcount := 1, caps := V } : CapsObj)]).length = hX.length + 1 := by
    simp
  have hcX : c < hX.length := by omega
  obtain ⟨m1, m2, m3, m4, m5, m6, m7, m8⟩ :=
    merge_spec host (hX ++ [{ refcount := 1, caps := V }]) t hX.length
      (by rw [hlenY]; omega) (by rw [hlenY]; omega) (by omega)
  rw [caps_append_old _ _ k2, caps_last] at m1
  rw [hlenY] at m2
  refine ⟨⟨by omega, m3, ?_, ?_, ?_, ?_, ?_⟩, m1⟩
  · by_cases htc : t = c
    · subst htc
      rw [m5 (by rw [refcount_append_old _ _ hcX]; have := k5 rfl; omega),
        caps_append_old _ _ hcX, k3]
    · rw [caps_of_getElem? _ _ _ (m4 c (by rw [hlenY]; omega) (Ne.symm htc) (by omega)),
        caps_append_old _ _ hcX, k3]
  · by_cases htc : t = c
    · subst htc
      rw [refcount_append_old _ _ hcX] at m6
      have := k5 rfl
      omega
    · rw [refcount_of_getElem? _ _ _ (m4 c (by rw [hlenY]; omega) (Ne.symm htc) (by omega)),
        refcount_append_old _ _ hcX]
      exact k4
  · intro hr
    rcases m8 with h8 | h8 | h8
    · have htc : t = c := h8.symm.trans hr
      subst htc
      rw [m7 h8, refcount_append_old _ _ hcX]
      exact k5 rfl
    · omega
    · rw [hlenY] at h8; omega
  · intro q hq hqc
    have hqt : q ≠ t := by
      rcases k7 with h7 | h7
      · rw [h7]; exact hqc
      · omega
    rw [m4 q (by rw [hlenY]; omega) hqt (by omega), getElem?_append_old _ _ (by omega)]
    exact k6 q hq hqc
  · rcases m8 with h8 | h8 | h8
    · rw [h8]; exact k7
    · right; omega
    · right; rw [hlenY] at h8; omega

/-- `gst_caps_merge` only appends to the entries of its first argument, when the
second is ANY only if the first is. -/
theorem merge_structs_append (host : Host) (s2 : List Entry) :
    ∀ s1 : List Entry, ∃ extra, merge_structs host s1 s2 = s1 ++ extra ∧
      List.Sublist extra s2 := by
  induction s2 with
  | nil => intro s1; exact ⟨[], by simp [merge_structs], List.Sublist.slnil⟩
  | cons e es ih =>
    intro s1
    have hcons : merge_structs host s1 (e :: es) =
        merge_structs host (merge_structure_full host s1 e) es := rfl
    rw [hcons]
    by_cases hex : expressed host s1 e = true
    · have hstep : merge_structure_full host s1 e = s1 := by
        simp [merge_structure_full, hex]
      rw [hstep]
      obtain ⟨extra, he, hs⟩ := ih s1
      exact ⟨extra, he, List.Sublist.cons e hs⟩
    · have hstep : merge_structure_full host s1 e = s1 ++ [e] := by
        simp [merge_structure_full, hex]
      rw [hstep]
      obtain ⟨extra, he, hs⟩ := ih (s1 ++ [e])
      refine ⟨e :: extra, ?_, List.Sublist.cons₂ e hs⟩
      rw [he]; simp

theorem caps_merge_append (host : Host) (c1 c2 : GstCaps) (hany : c2.any = c1.any) :
    (caps_merge host c1 c2).any = c1.any ∧
    ∃ extra, (caps_merge host c1 c2).structs = c1.structs ++ extra ∧
      List.Sublist extra c2.structs := by
  unfold caps_merge
  by_cases h1 : c1.any = true
  · rw [if_pos h1]
    exact ⟨rfl, [], by simp, List.nil_sublist _⟩
  · have h2 : ¬ c2.any = true := by rw [hany]; exact h1
    rw [if_neg h1, if_neg h2]
    obtain ⟨extra, he, hs⟩ := merge_structs_append host c2.structs c1.structs
    exact ⟨rfl, extra, he, hs⟩

end GLDownload

namespace GLDownload

theorem unfiltered_sink_eq (host : Host) (have_dmabuf : Bool) (h : Heap) (c : Nat) :
    transform_caps_unfiltered host have_dmabuf h GstPadDirection.GST_PAD_SINK c =
      gst_caps_merge host
        ((if have_dmabuf then
            gst_caps_merge host
              (gst_caps_ref h c ++ [{ refcount := 1, caps := dmabufVariant (h.caps c) }])
              c (gst_caps_ref h c).length
          else (gst_caps_ref h c, c)).1 ++
          [{ refcount := 1,
             caps := sysmemVariant
               ((if have_dmabuf then
                  gst_caps_merge host
                    (gst_caps_ref h c ++ [{ refcount := 1, caps := dmabufVariant (h.caps c) }])
                    c (gst_caps_ref h c).length
                else (gst_caps_ref h c, c)).1.caps c) }])
        (if have_dmabuf then
            gst_caps_merge host
              (gst_caps_ref h c ++ [{ refcount := 1, caps := dmabufVariant (h.caps c) }])
              c (gst_caps_ref h c).length
          else (gst_caps_ref h c, c)).2
        (if have_dmabuf then
            gst_caps_merge host
              (gst_caps_ref h c ++ [{ refcount := 1, caps := dmabufVariant (h.caps c) }])
              c (gst_caps_ref h c).length
          else (gst_caps_ref h c, c)).1.length := by
  unfold transform_caps_unfiltered
  cases have_dmabuf <;>
    simp [set_caps_features_eq, remove_field_last, dmabufVariant, sysmemVariant, caps_ref]

theorem unfiltered_src_eq (host : Host) (have_dmabuf : Bool) (h : Heap) (c : Nat)
    (hc : c < h.length) :
    transform_caps_unfiltered host have_dmabuf h GstPadDirection.GST_PAD_SRC c =
      gst_caps_merge host
        (gst_caps_ref h c ++
          [{ refcount := 1, caps := withFeature (h.caps c) GST_CAPS_FEATURE_MEMORY_GL_MEMORY }])
        c (gst_caps_ref h c).length := by
  unfold transform_caps_unfiltered
  simp [set_caps_features_eq, ref_append h _ hc, length_ref]

/-- The sink direction before filtering: the input caps are kept, and the caps
built are the input merged with its variants. -/
theorem unfiltered_sink (host : Host) (have_dmabuf : Bool) (h : Heap) (c : Nat)
    (hc : c < h.length) (hr : 1 ≤ h.refcount c) :
    Keeps h c (h.refcount c) (h.caps c)
      (transform_caps_unfiltered host have_dmabuf h GstPadDirection.GST_PAD_SINK c).1
      (transform_caps_unfiltered host have_dmabuf h GstPadDirection.GST_PAD_SINK c).2 ∧
    (transform_caps_unfiltered host have_dmabuf h GstPadDirection.GST_PAD_SINK c).1.caps
      (transform_caps_unfiltered host have_dmabuf h GstPadDirection.GST_PAD_SINK c).2 =
      if have_dmabuf then
        caps_merge host (caps_merge host (h.caps c) (dmabufVariant (h.caps c)))
          (sysmemVariant (h.caps c))
      else caps_merge host (h.caps c) (sysmemVariant (h.caps c)) := by
  rw [unfiltered_sink_eq]
  have K0 := keeps_init h c hc
  cases have_dmabuf with
  | false =>
    simp only [Bool.false_eq_true, if_false]
    have S := keeps_step host h (gst_caps_ref h c) c c (h.refcount c) (h.caps c)
      (sysmemVariant (h.caps c)) hr hc K0
    rw [caps_ref] at S ⊢
    exact S
  | true =>
    simp only [if_true]
    have S1 := keeps_step host h (gst_caps_ref h c) c c (h.refcount c) (h.caps c)
      (dmabufVariant (h.caps c)) hr hc K0
    rw [caps_ref] at S1
    obtain ⟨K1, hcontent1⟩ := S1
    have hC1 : (gst_caps_merge host
        (gst_caps_ref h c ++ [{ refcount := 1, caps := dmabufVariant (h.caps c) }])
        c (gst_caps_ref h c).length).1.caps c = h.caps c := K1.2.2.1
    rw [hC1]
    have S2 := keeps_step host h _ c _ (h.refcount c) (h.caps c)
      (sysmemVariant (h.caps c)) hr hc K1
    rw [hcontent1] at S2
    exact S2

/-- The src direction before filtering. -/
theorem unfiltered_src (host : Host) (have_dmabuf : Bool) (h : Heap) (c : Nat)
    (hc : c < h.length) (hr : 1 ≤ h.refcount c) :
    Keeps h c (h.refcount c) (h.caps c)
      (transform_caps_unfiltered host have_dmabuf h GstPadDirection.GST_PAD_SRC c).1
      (transform_caps_unfiltered host have_dmabuf h GstPadDirection.GST_PAD_SRC c).2 ∧
    (transform_caps_unfiltered host have_dmabuf h GstPadDirection.GST_PAD_SRC c).1.caps
      (transform_caps_unfiltered host have_dmabuf h GstPadDirection.GST_PAD_SRC c).2 =
      caps_merge host (h.caps c) (withFeature (h.caps c) GST_CAPS_FEATURE_MEMORY_GL_MEMORY) := by
  rw [unfiltered_src_eq host have_dmabuf h c hc]
  have S := keeps_step host h (gst_caps_ref h c) c c (h.refcount c) (h.caps c)
    (withFeature (h.caps c) GST_CAPS_FEATURE_MEMORY_GL_MEMORY) hr hc (keeps_init h c hc)
  rw [caps_ref] at S
  exact S

end GLDownload

namespace GLDownload

theorem withFeature_structs (c : GstCaps) (feature_name : String) (hne : feature_name ≠ "ANY") :
    (withFeature c feature_name).structs =
      c.structs.map (fun e => (e.1, some { is_any := false, array := [feature_name] })) := by
  simp [withFeature, gst_caps_features_from_string, hne]

theorem variant_structs (c : GstCaps) (feature_name : String) (hne : feature_name ≠ "ANY") :
    (withoutField (withFeature c feature_name) "texture-target").structs =
      c.structs.map (fun e =>
        (({ name := e.1.name,
            fields := e.1.fields.filter (fun f => f.1 != "texture-target") } : GstStructure),
          some ({ is_any := false, array := [feature_name] } : GstCapsFeatures))) := by
  simp [withoutField, withFeature, gst_caps_features_from_string, hne,
    gst_structure_remove_field]

theorem variant_any (c : GstCaps) (feature_name field : String) :
    (withoutField (withFeature c feature_name) field).any = c.any := rfl

/-- C9.  Sink direction, no filter.  For every input caps `C` (a live object of
the heap) the caps returned have the contents of `gst_caps_merge` applied to `C`
and, in EGL+DMABuf builds, the DMABuf variant of `C`, and then to the system
memory variant of `C`.  The entries of `C` come first, in their order.  A
variant has one entry for each entry of `C`, with the same structure name, the
features replaced by the one memory feature, and of the fields all but
`texture-target`, in their order.  The input object keeps its contents and its
references, and every other object of the heap is untouched. -/
theorem transform_caps_sink_spec (host : Host) (have_dmabuf : Bool) (h : Heap) (c : Nat)
    (hc : c < h.length) (hr : 1 ≤ h.refcount c) :
    (gst_gl_download_element_transform_caps host have_dmabuf h
        GstPadDirection.GST_PAD_SINK c none).1.caps
      (gst_gl_download_element_transform_caps host have_dmabuf h
        GstPadDirection.GST_PAD_SINK c none).2 =
      (if have_dmabuf then
        caps_merge host (caps_merge host (h.caps c) (dmabufVariant (h.caps c)))
          (sysmemVariant (h.caps c))
      else caps_merge host (h.caps c) (sysmemVariant (h.caps c))) ∧
    (∃ extra, ((gst_gl_download_element_transform_caps host have_dmabuf h
        GstPadDirection.GST_PAD_SINK c none).1.caps
      (gst_gl_download_element_transform_caps host have_dmabuf h
        GstPadDirection.GST_PAD_SINK c none).2).structs = (h.caps c).structs ++ extra) ∧
    (dmabufVariant (h.caps c)).structs =
      (h.caps c).structs.map (fun e =>
        (({ name := e.1.name,
            fields := e.1.fields.filter (fun f => f.1 != "texture-target") } : GstStructure),
          some ({ is_any := false, array := ["memory:DMABuf"] } : GstCapsFeatures))) ∧
    (sysmemVariant (h.caps c)).structs =
      (h.caps c).structs.map (fun e =>
        (({ name := e.1.name,
            fields := e.1.fields.filter (fun f => f.1 != "texture-target") } : GstStructure),
          some ({ is_any := false, array := ["memory:SystemMemory"] } : GstCapsFeatures))) ∧
    (dmabufVariant (h.caps c)).structs.length = (h.caps c).structs.length ∧
    (sysmemVariant (h.caps c)).structs.length = (h.caps c).structs.length ∧
    (gst_gl_download_element_transform_caps host have_dmabuf h
        GstPadDirection.GST_PAD_SINK c none).1.caps c = h.caps c ∧
    h.refcount c ≤ (gst_gl_download_element_transform_caps host have_dmabuf h
        GstPadDirection.GST_PAD_SINK c none).1.refcount c ∧
    (∀ q, q < h.length → q ≠ c →
      (gst_gl_download_element_transform_caps host have_dmabuf h
        GstPadDirection.GST_PAD_SINK c none).1[q]? = h[q]?) := by
  have hres : gst_gl_download_element_transform_caps host have_dmabuf h
      GstPadDirection.GST_PAD_SINK c none =
      transform_caps_unfiltered host have_dmabuf h GstPadDirection.GST_PAD_SINK c := rfl
  rw [hres]
  obtain ⟨⟨-, -, k3, k4, -, k6, -⟩, hcontent⟩ := unfiltered_sink host have_dmabuf h c hc hr
  have hdm : (dmabufVariant (h.caps c)).structs = _ :=
    variant_structs (h.caps c) GST_CAPS_FEATURE_MEMORY_DMABUF (by decide)
  have hsm : (sysmemVariant (h.caps c)).structs = _ :=
    variant_structs (h.caps c) GST_CAPS_FEATURE_MEMORY_SYSTEM_MEMORY (by decide)
  refine ⟨hcontent, ?_, hdm, hsm, ?_, ?_, k3, k4, k6⟩
  · rw [hcontent]
    obtain ⟨-, e2, he2, -⟩ := caps_merge_append host (h.caps c) (sysmemVariant (h.caps c)) rfl
    obtain ⟨ha1, e1, he1, -⟩ := caps_merge_append host (h.caps c) (dmabufVariant (h.caps c)) rfl
    obtain ⟨-, e3, he3, -⟩ := caps_merge_append host
      (caps_merge host (h.caps c) (dmabufVariant (h.caps c))) (sysmemVariant (h.caps c))
      (by rw [ha1]; rfl)
    cases have_dmabuf with
    | false => exact ⟨e2, he2⟩
    | true =>
      refine ⟨e1 ++ e3, ?_⟩
      simp only [if_true]
      rw [he3, he1, List.append_assoc]
  · rw [hdm]; simp
  · rw [hsm]; simp

/-- C9 (witness): the example caps, a GLMemory structure with a texture target,
in an EGL+DMABuf build; the caps returned are the new object at address 3. -/
theorem transform_caps_sink_spec_witness :
    0 < exampleHeap.length ∧ 1 ≤ exampleHeap.refcount 0 ∧
    (gst_gl_download_element_transform_caps exampleHost true exampleHeap
        GstPadDirection.GST_PAD_SINK 0 none).2 = 3 ∧
    (gst_gl_download_element_transform_caps exampleHost true exampleHeap
        GstPadDirection.GST_PAD_SINK 0 none).1.caps
      (gst_gl_download_element_transform_caps exampleHost true exampleHeap
        GstPadDirection.GST_PAD_SINK 0 none).2 =
      { any := false,
        structs :=
          [({ name := "video/x-raw", fields := [("format", "RGBA"), ("texture-target", "2D")] },
            some { is_any := false, array := ["memory:GLMemory"] }),
           ({ name := "video/x-raw", fields := [("format", "RGBA")] },
            some { is_any := false, array := ["memory:DMABuf"] }),
           ({ name := "video/x-raw", fields := [("format", "RGBA")] },
            some { is_any := false, array := ["memory:SystemMemory"] })] } ∧
    (gst_gl_download_element_transform_caps exampleHost true exampleHeap
        GstPadDirection.GST_PAD_SINK 0 none).1.caps 0 = exampleCaps :=
  ⟨by decide, by decide, by decide,
    ((transform_caps_sink_spec exampleHost true exampleHeap 0 (by decide) (by decide)).1).trans
      (by decide),
    (transform_caps_sink_spec exampleHost true exampleHeap 0 (by decide) (by decide)).2.2.2.2.2.2.1⟩

end GLDownload

namespace GLDownload

/-! ### Filtering -/

/-- The contents of the caps `gst_caps_intersect_full (.., GST_CAPS_INTERSECT_FIRST)`
returns. -/
theorem intersect_first_content (host : Host) (h : Heap) (p1 p2 : Nat) :
    (gst_caps_intersect_first host h p1 p2).1.caps (gst_caps_intersect_first host h p1 p2).2 =
      caps_intersect_first host (decide (p1 = p2)) (h.caps p1) (h.caps p2) := by
  unfold gst_caps_intersect_first caps_intersect_first
  by_cases hsame : p1 = p2
  · simp [hsame, caps_ref]
  · rw [if_neg hsame]
    simp only [hsame, decide_False, Bool.false_eq_true, if_false]
    by_cases hempty : (CAPS_IS_EMPTY (h.caps p1) || CAPS_IS_EMPTY (h.caps p2)) = true
    · rw [if_pos hempty, if_pos hempty]
      exact caps_last h _
    · rw [if_neg hempty, if_neg hempty]
      by_cases ha1 : (h.caps p1).any = true
      · rw [if_pos ha1, if_pos ha1]; exact caps_ref h p2 p2
      · rw [if_neg ha1, if_neg ha1]
        by_cases ha2 : (h.caps p2).any = true
        · rw [if_pos ha2, if_pos ha2]; exact caps_ref h p1 p1
        · rw [if_neg ha2, if_neg ha2]
          exact caps_last h _

/-- The caps built by the double loop are a selection of the candidates, in
their order. -/
theorem intersect_structs_sublist (host : Host) (s1 s2 : List Entry) :
    List.Sublist (intersect_structs host s1 s2) (intersect_candidates host s1 s2) := by
  obtain ⟨extra, he, hs⟩ := merge_structs_append host (intersect_candidates host s1 s2) []
  have : intersect_structs host s1 s2 = extra := by
    unfold intersect_structs
    unfold merge_structs at he
    rw [he]; simp
  rw [this]
  exact hs

/-- Every candidate is the intersection of a structure of `caps1` with one of
`caps2` that has equal features. -/
theorem candidates_origin (host : Host) (s1 s2 : List Entry) (e : Entry)
    (he : e ∈ intersect_candidates host s1 s2) :
    ∃ e1, e1 ∈ s1 ∧ ∃ e2, e2 ∈ s2 ∧
      host.gst_caps_features_is_equal (features_or_sysmem e1.2) (features_or_sysmem e2.2) = true ∧
      host.gst_structure_intersect e1.1 e2.1 = some e.1 := by
  unfold intersect_candidates at he
  rw [List.mem_flatMap] at he
  obtain ⟨e1, he1, hrow⟩ := he
  unfold intersect_row at hrow
  rw [List.mem_filterMap] at hrow
  obtain ⟨e2, he2, hsome⟩ := hrow
  refine ⟨e1, he1, e2, he2, ?_⟩
  by_cases hfe : host.gst_caps_features_is_equal (features_or_sysmem e1.2)
      (features_or_sysmem e2.2) = true
  · rw [if_pos hfe] at hsome
    refine ⟨hfe, ?_⟩
    cases hi : host.gst_structure_intersect e1.1 e2.1 with
    | none => rw [hi] at hsome; simp at hsome
    | some istruct =>
      rw [hi] at hsome
      by_cases hany : (features_or_sysmem e1.2).is_any = true
      · simp [hany] at hsome; rw [← hsome]
      · simp [hany] at hsome; rw [← hsome]
  · rw [if_neg hfe] at hsome; simp at hsome

theorem unfiltered_unknown (host : Host) (have_dmabuf : Bool) (h : Heap) (c : Nat) :
    transform_caps_unfiltered host have_dmabuf h GstPadDirection.GST_PAD_UNKNOWN c =
      transform_caps_unfiltered host have_dmabuf h GstPadDirection.GST_PAD_SINK c := by
  unfold transform_caps_unfiltered
  simp

/-- Before filtering, in every direction, the input caps and all other old
objects are kept. -/
theorem unfiltered_keeps (host : Host) (have_dmabuf : Bool) (h : Heap)
    (direction : GstPadDirection) (c : Nat) (hc : c < h.length) (hr : 1 ≤ h.refcount c) :
    Keeps h c (h.refcount c) (h.caps c)
      (transform_caps_unfiltered host have_dmabuf h direction c).1
      (transform_caps_unfiltered host have_dmabuf h direction c).2 := by
  cases direction with
  | GST_PAD_UNKNOWN =>
    rw [unfiltered_unknown]; exact (unfiltered_sink host have_dmabuf h c hc hr).1
  | GST_PAD_SRC => exact (unfiltered_src host have_dmabuf h c hc hr).1
  | GST_PAD_SINK => exact (unfiltered_sink host have_dmabuf h c hc hr).1

/-- What `gst_caps_features_copy_conditional` returns. -/
theorem copy_conditional_eq (host : Host) (f : GstCapsFeatures) :
    gst_caps_features_copy_conditional host f =
      if f.is_any = true ∨
          host.gst_caps_features_is_equal f GST_CAPS_FEATURES_MEMORY_SYSTEM_MEMORY = false
      then some f else none := by
  unfold gst_caps_features_copy_conditional
  cases f.is_any <;>
    cases host.gst_caps_features_is_equal f GST_CAPS_FEATURES_MEMORY_SYSTEM_MEMORY <;> simp

/-- One step of the inner loop of `gst_caps_intersect_first`: the entry of
`caps2` adds an intersection when the features are equal and the structures
intersect, and nothing otherwise. -/
theorem intersect_row_cons (host : Host) (e1 e2 : Entry) (rest : List Entry) :
    ((host.gst_caps_features_is_equal (e1.2.getD GST_CAPS_FEATURES_MEMORY_SYSTEM_MEMORY)
        (e2.2.getD GST_CAPS_FEATURES_MEMORY_SYSTEM_MEMORY) = true ∧
      host.gst_structure_intersect e1.1 e2.1 ≠ none) →
      ∃ e, IntersectionOf host e1 e2 e ∧
        intersect_row host e1 (e2 :: rest) = e :: intersect_row host e1 rest) ∧
    (¬ (host.gst_caps_features_is_equal (e1.2.getD GST_CAPS_FEATURES_MEMORY_SYSTEM_MEMORY)
        (e2.2.getD GST_CAPS_FEATURES_MEMORY_SYSTEM_MEMORY) = true ∧
      host.gst_structure_intersect e1.1 e2.1 ≠ none) →
      intersect_row host e1 (e2 :: rest) = intersect_row host e1 rest) := by
  unfold intersect_row
  rw [List.filterMap_cons]
  by_cases hfe : host.gst_caps_features_is_equal (features_or_sysmem e1.2)
      (features_or_sysmem e2.2) = true
  · have hfe1 : host.gst_caps_features_is_equal
        (e1.2.getD GST_CAPS_FEATURES_MEMORY_SYSTEM_MEMORY)
        (e2.2.getD GST_CAPS_FEATURES_MEMORY_SYSTEM_MEMORY) = true := hfe
    rw [if_pos hfe]
    cases hi : host.gst_structure_intersect e1.1 e2.1 with
    | none =>
      constructor
      · rintro ⟨-, hne⟩
        exact absurd rfl hne
      · intro _
        rfl
    | some istruct =>
      constructor
      · intro _
        by_cases hany : (features_or_sysmem e1.2).is_any = true
        · have hany1 : (e1.2.getD GST_CAPS_FEATURES_MEMORY_SYSTEM_MEMORY).is_any = true := hany
          refine ⟨(istruct, gst_caps_features_copy_conditional host (features_or_sysmem e2.2)),
            ⟨hfe1, hi, ?_, ?_⟩, ?_⟩
          · intro _
            exact copy_conditional_eq host _
          · intro hno
            rw [hany1] at hno
            cases hno
          · simp [hany]
        · have hany1 : ¬ (e1.2.getD GST_CAPS_FEATURES_MEMORY_SYSTEM_MEMORY).is_any = true := hany
          refine ⟨(istruct, gst_caps_features_copy_conditional host (features_or_sysmem e1.2)),
            ⟨hfe1, hi, ?_, ?_⟩, ?_⟩
          · intro hyes
            exact absurd hyes hany1
          · intro _
            exact copy_conditional_eq host _
          · simp [hany]
      · intro hno
        exact absurd ⟨hfe1, by simp⟩ hno
  · rw [if_neg hfe]
    constructor
    · rintro ⟨hyes, -⟩
      exact absurd hyes hfe
    · intro _
      rfl

theorem forall₂_app {α β : Type} {R : α → β → Prop} {a : List α} {b : List β}
    {c : List α} {d : List β} (h1 : List.Forall₂ R a b) (h2 : List.Forall₂ R c d) :
    List.Forall₂ R (a ++ c) (b ++ d) := by
  induction h1 with
  | nil => simpa using h2
  | cons hab _ ih => exact List.Forall₂.cons hab ih

theorem forall₂_map_left {α β γ : Type} {R : α → β → Prop} (f : γ → α) {js : List γ}
    {es : List β} (h : List.Forall₂ (fun j e => R (f j) e) js es) :
    List.Forall₂ R (js.map f) es := by
  induction h with
  | nil => exact List.Forall₂.nil
  | cons hab _ ih => exact List.Forall₂.cons hab ih

theorem forall₂_mono {α β : Type} {R S : α → β → Prop} {a : List α} {b : List β}
    (hRS : ∀ x y, R x y → S x y) (h : List.Forall₂ R a b) : List.Forall₂ S a b := by
  induction h with
  | nil => exact List.Forall₂.nil
  | cons hab _ ih => exact List.Forall₂.cons (hRS _ _ hab) ih

/-- A selection of a list that is related, entry by entry, to a list of indices
is related to a selection of the indices. -/
theorem forall₂_of_sublist {α β : Type} {R : α → β → Prop} {ix : List α} {cs : List β}
    (h : List.Forall₂ R ix cs) :
    ∀ {rs : List β}, List.Sublist rs cs →
      ∃ ix1, List.Sublist ix1 ix ∧ List.Forall₂ R ix1 rs := by
  induction h with
  | nil =>
    intro rs hs
    have hnil : rs = [] := List.sublist_nil.mp hs
    subst hnil
    exact ⟨[], List.Sublist.slnil, List.Forall₂.nil⟩
  | cons hab _ ih =>
    intro rs hs
    cases hs with
    | cons _ hs1 =>
      obtain ⟨ix1, s1, f1⟩ := ih hs1
      exact ⟨ix1, List.Sublist.cons _ s1, f1⟩
    | cons₂ _ hs1 =>
      obtain ⟨ix1, s1, f1⟩ := ih hs1
      exact ⟨_ :: ix1, List.Sublist.cons₂ _ s1, List.Forall₂.cons hab f1⟩

/-- The intersections of one entry of `caps1`, with the indices in `caps2` they
come from: the indices increase. -/
theorem intersect_row_ix (host : Host) (e1 : Entry) :
    ∀ (suf pre : List Entry), ∃ js : List Nat,
      List.Pairwise (fun a b => a < b) js ∧ (∀ j, j ∈ js → pre.length ≤ j) ∧
      List.Forall₂ (fun j e => ∃ e2, (pre ++ suf)[j]? = some e2 ∧ IntersectionOf host e1 e2 e)
        js (intersect_row host e1 suf) := by
  intro suf
  induction suf with
  | nil =>
    intro pre
    exact ⟨[], List.Pairwise.nil, by simp, by simp [intersect_row]⟩
  | cons e2 rest ih =>
    intro pre
    obtain ⟨js, hp, hge, hf⟩ := ih (pre ++ [e2])
    have happ : pre ++ [e2] ++ rest = pre ++ e2 :: rest := by simp
    rw [happ] at hf
    have hlen : (pre ++ [e2]).length = pre.length + 1 := by simp
    by_cases hyes : host.gst_caps_features_is_equal
        (e1.2.getD GST_CAPS_FEATURES_MEMORY_SYSTEM_MEMORY)
        (e2.2.getD GST_CAPS_FEATURES_MEMORY_SYSTEM_MEMORY) = true ∧
        host.gst_structure_intersect e1.1 e2.1 ≠ none
    · obtain ⟨e, he, hrow⟩ := (intersect_row_cons host e1 e2 rest).1 hyes
      rw [hrow]
      refine ⟨pre.length :: js, ?_, ?_, ?_⟩
      · refine List.Pairwise.cons ?_ hp
        intro j hj
        have := hge j hj
        omega
      · intro j hj
        rcases List.mem_cons.mp hj with h | h
        · omega
        · have := hge j h
          omega
      · refine List.Forall₂.cons ⟨e2, ?_, he⟩ hf
        rw [List.getElem?_append_right (Nat.le_refl _)]
        simp
    · rw [(intersect_row_cons host e1 e2 rest).2 hyes]
      refine ⟨js, hp, ?_, hf⟩
      intro j hj
      have := hge j hj
      omega

/-- The intersections `gst_caps_intersect_first` walks through, with the pairs
of indices they come from, the index in `caps1` first: the pairs increase in the
order of the double loop. -/
theorem intersect_candidates_ix (host : Host) (s2 : List Entry) :
    ∀ (suf pre : List Entry), ∃ ix : List (Nat × Nat),
      List.Pairwise (fun a b => a.1 < b.1 ∨ (a.1 = b.1 ∧ a.2 < b.2)) ix ∧
      (∀ p, p ∈ ix → pre.length ≤ p.1) ∧
      List.Forall₂ (fun p e => ∃ e1 e2, (pre ++ suf)[p.1]? = some e1 ∧ s2[p.2]? = some e2 ∧
          IntersectionOf host e1 e2 e)
        ix (intersect_candidates host suf s2) := by
  intro suf
  induction suf with
  | nil =>
    intro pre
    exact ⟨[], List.Pairwise.nil, by simp, by simp [intersect_candidates]⟩
  | cons e1 rest ih =>
    intro pre
    obtain ⟨ix, hp, hge, hf⟩ := ih (pre ++ [e1])
    have happ : pre ++ [e1] ++ rest = pre ++ e1 :: rest := by simp
    rw [happ] at hf
    have hlen : (pre ++ [e1]).length = pre.length + 1 := by simp
    obtain ⟨js, hjp, -, hjf⟩ := intersect_row_ix host e1 s2 []
    have hcons : intersect_candidates host (e1 :: rest) s2 =
        intersect_row host e1 s2 ++ intersect_candidates host rest s2 := by
      simp [intersect_candidates]
    rw [hcons]
    refine ⟨js.map (fun j => (pre.length, j)) ++ ix, ?_, ?_, ?_⟩
    · rw [List.pairwise_append]
      refine ⟨?_, hp, ?_⟩
      · rw [List.pairwise_map]
        exact hjp.imp (fun hab => Or.inr ⟨rfl, hab⟩)
      · intro a ha b hb
        obtain ⟨j, -, rfl⟩ := List.mem_map.mp ha
        have := hge b hb
        exact Or.inl (by simp only []; omega)
    · intro p hp1
      rcases List.mem_append.mp hp1 with h | h
      · obtain ⟨j, -, rfl⟩ := List.mem_map.mp h
        exact Nat.le_refl _
      · have := hge p h
        omega
    · refine forall₂_app (forall₂_map_left (fun j => (pre.length, j)) ?_) hf
      refine forall₂_mono ?_ hjf
      rintro j e ⟨e2, h2, he⟩
      refine ⟨e1, e2, ?_, by simpa using h2, he⟩
      show (pre ++ e1 :: rest)[pre.length]? = some e1
      rw [List.getElem?_append_right (Nat.le_refl _)]
      simp

/-- An entry of `caps1` and an entry of `caps2` with equal features and
intersecting structures give an intersection among the ones walked through. -/
theorem intersect_candidates_mem (host : Host) (s1 s2 : List Entry) (e1 e2 : Entry)
    (h1 : e1 ∈ s1) (h2 : e2 ∈ s2)
    (hfe : host.gst_caps_features_is_equal (e1.2.getD GST_CAPS_FEATURES_MEMORY_SYSTEM_MEMORY)
      (e2.2.getD GST_CAPS_FEATURES_MEMORY_SYSTEM_MEMORY) = true)
    (hi : host.gst_structure_intersect e1.1 e2.1 ≠ none) :
    ∃ e, e ∈ intersect_candidates host s1 s2 ∧ IntersectionOf host e1 e2 e := by
  have hrow : ∀ l : List Entry, e2 ∈ l →
      ∃ e, e ∈ intersect_row host e1 l ∧ IntersectionOf host e1 e2 e := by
    intro l
    induction l with
    | nil => intro h; cases h
    | cons x xs ih =>
      intro hmem
      rcases List.mem_cons.mp hmem with h | h
      · subst h
        obtain ⟨e, he, hrow⟩ := (intersect_row_cons host e1 e2 xs).1 ⟨hfe, hi⟩
        exact ⟨e, by rw [hrow]; exact List.mem_cons_self _ _, he⟩
      · obtain ⟨e, he, hie⟩ := ih h
        refine ⟨e, ?_, hie⟩
        by_cases hyes : host.gst_caps_features_is_equal
            (e1.2.getD GST_CAPS_FEATURES_MEMORY_SYSTEM_MEMORY)
            (x.2.getD GST_CAPS_FEATURES_MEMORY_SYSTEM_MEMORY) = true ∧
            host.gst_structure_intersect e1.1 x.1 ≠ none
        · obtain ⟨e0, -, hrow⟩ := (intersect_row_cons host e1 x xs).1 hyes
          rw [hrow]
          exact List.mem_cons_of_mem _ he
        · rw [(intersect_row_cons host e1 x xs).2 hyes]
          exact he
  obtain ⟨e, he, hie⟩ := hrow s2 h2
  refine ⟨e, ?_, hie⟩
  unfold intersect_candidates
  rw [List.mem_flatMap]
  exact ⟨e1, h1, he⟩

/-- Merging intersections into `dest` one by one loses none: each is in the
result or is expressed by an entry of the result. -/
theorem merge_fold_covers (host : Host) :
    ∀ (cs acc : List Entry) (c : Entry), c ∈ cs →
      ∃ r, r ∈ cs.foldl (merge_structure_full host) acc ∧
        (r = c ∨
          (host.gst_caps_features_is_equal (c.2.getD GST_CAPS_FEATURES_MEMORY_SYSTEM_MEMORY)
              (r.2.getD GST_CAPS_FEATURES_MEMORY_SYSTEM_MEMORY) = true ∧
            host.gst_structure_is_subset c.1 r.1 = true)) := by
  intro cs
  induction cs with
  | nil => intro acc c h; cases h
  | cons c0 rest ih =>
    intro acc c hc
    have hkeep : ∀ r, r ∈ merge_structure_full host acc c0 →
        r ∈ (c0 :: rest).foldl (merge_structure_full host) acc := by
      intro r hr
      obtain ⟨extra, he, -⟩ := merge_structs_append host rest (merge_structure_full host acc c0)
      have hfold : (c0 :: rest).foldl (merge_structure_full host) acc =
          merge_structs host (merge_structure_full host acc c0) rest := rfl
      rw [hfold, he]
      exact List.mem_append_left _ hr
    rcases List.mem_cons.mp hc with h | h
    · subst h
      by_cases hex : expressed host acc c = true
      · have hstep : merge_structure_full host acc c = acc := by
          simp [merge_structure_full, hex]
        unfold expressed at hex
        rw [List.any_eq_true] at hex
        obtain ⟨r, hr, hcond⟩ := hex
        rw [Bool.and_eq_true] at hcond
        exact ⟨r, hkeep r (by rw [hstep]; exact hr), Or.inr ⟨hcond.1, hcond.2⟩⟩
      · have hstep : merge_structure_full host acc c = acc ++ [c] := by
          simp [merge_structure_full, hex]
        exact ⟨c, hkeep c (by rw [hstep]; simp), Or.inl rfl⟩
    · exact ih (merge_structure_full host acc c0) c h

/-- The caps that the double loop of `gst_caps_intersect_first` builds from the
entries `s1` of `caps1` and `s2` of `caps2`.  Every entry is the intersection of
an entry of `caps1` with an entry of `caps2`, and the pairs of indices the
entries come from increase in the order of the double loop, the index in
`caps1` first.  And every two entries with equal features and intersecting
structures have their intersection in the caps, or expressed by an entry of the
caps. -/
theorem intersect_structs_spec (host : Host) (s1 s2 : List Entry) :
    (∃ ix : List (Nat × Nat),
      List.Pairwise (fun a b => a.1 < b.1 ∨ (a.1 = b.1 ∧ a.2 < b.2)) ix ∧
      List.Forall₂ (fun p e => ∃ e1 e2, s1[p.1]? = some e1 ∧ s2[p.2]? = some e2 ∧
          IntersectionOf host e1 e2 e)
        ix (intersect_structs host s1 s2)) ∧
    (∀ e1 e2, e1 ∈ s1 → e2 ∈ s2 →
      host.gst_caps_features_is_equal (e1.2.getD GST_CAPS_FEATURES_MEMORY_SYSTEM_MEMORY)
        (e2.2.getD GST_CAPS_FEATURES_MEMORY_SYSTEM_MEMORY) = true →
      host.gst_structure_intersect e1.1 e2.1 ≠ none →
      ∃ c r, IntersectionOf host e1 e2 c ∧ r ∈ intersect_structs host s1 s2 ∧
        (r = c ∨
          (host.gst_caps_features_is_equal (c.2.getD GST_CAPS_FEATURES_MEMORY_SYSTEM_MEMORY)
              (r.2.getD GST_CAPS_FEATURES_MEMORY_SYSTEM_MEMORY) = true ∧
            host.gst_structure_is_subset c.1 r.1 = true))) := by
  constructor
  · obtain ⟨ix, hp, -, hf⟩ := intersect_candidates_ix host s2 s1 []
    simp only [List.nil_append] at hf
    obtain ⟨ix1, hs, hf1⟩ := forall₂_of_sublist hf (intersect_structs_sublist host s1 s2)
    exact ⟨ix1, hp.sublist hs, hf1⟩
  · intro e1 e2 h1 h2 hfe hi
    obtain ⟨c, hc, hic⟩ := intersect_candidates_mem host s1 s2 e1 e2 h1 h2 hfe hi
    obtain ⟨r, hr, hcov⟩ := merge_fold_covers host (intersect_candidates host s1 s2) [] c hc
    exact ⟨c, r, hic, hr, hcov⟩

/-- What `gst_caps_intersect_full (.., GST_CAPS_INTERSECT_FIRST)` returns for two
objects that are not the same: the second when the first is ANY, the first when
only the second is ANY, and else what the double loop builds. -/
theorem caps_intersect_first_cases (host : Host) (c1 c2 : GstCaps) :
    (c1.any = true → caps_intersect_first host false c1 c2 = c2) ∧
    (c1.any = false → c2.any = true → caps_intersect_first host false c1 c2 = c1) ∧
    (c1.any = false → c2.any = false →
      caps_intersect_first host false c1 c2 =
        { any := false, structs := intersect_structs host c1.structs c2.structs }) := by
  obtain ⟨a1, l1⟩ := c1
  obtain ⟨a2, l2⟩ := c2
  have hrow : ∀ (e1 : Entry), intersect_row host e1 [] = [] := fun _ => rfl
  have hright : ∀ l : List Entry, intersect_structs host l [] = [] := by
    intro l
    have : intersect_candidates host l [] = [] := by
      induction l with
      | nil => rfl
      | cons x xs ih =>
        have hc : intersect_candidates host (x :: xs) [] =
            intersect_row host x [] ++ intersect_candidates host xs [] := by
          simp [intersect_candidates]
        rw [hc, ih, hrow]
        rfl
    unfold intersect_structs
    rw [this]
    rfl
  have hleft : ∀ l : List Entry, intersect_structs host [] l = [] := fun _ => rfl
  refine ⟨?_, ?_, ?_⟩
  · intro h1
    simp only at h1
    subst h1
    cases a2 <;> cases l2 <;> simp [caps_intersect_first, CAPS_IS_EMPTY]
  · intro h1 h2
    simp only at h1 h2
    subst h1
    subst h2
    cases l1 <;> simp [caps_intersect_first, CAPS_IS_EMPTY]
  · intro h1 h2
    simp only at h1 h2
    subst h1
    subst h2
    cases l1 with
    | nil => simp [caps_intersect_first, CAPS_IS_EMPTY, hleft]
    | cons x xs =>
      cases l2 with
      | nil => simp [caps_intersect_first, CAPS_IS_EMPTY, hright]
      | cons y ys => simp [caps_intersect_first, CAPS_IS_EMPTY]

/-- C10.  Src direction, no filter: for every input caps `C` the caps returned
have the contents of `gst_caps_merge` of `C` with the copy of `C` in which the
features of every entry are replaced by `memory:GLMemory`, the structures being
kept as they are.  With a filter `F`, in every direction, `tmp` being the caps
the function returns without a filter: the function returns what
`gst_caps_intersect_full (F, tmp, GST_CAPS_INTERSECT_FIRST)` returns and
releases `tmp`, and `F` has its contents when it is read, so the contents
returned are what that function gives for the contents of `F` and `tmp`.  When
`F` and `tmp` are one object the contents returned are those of `F`; else when `F` is ANY they
are those of `tmp`; else when `tmp` is ANY they are those of `F`; else the caps
returned are not ANY and
(order) there are pairs of indices, one for each entry returned, that increase
in the order index in `F` first, index in `tmp` second, such that
(compatible) each entry returned has as its structure the intersection of the
structure of the entry of `F` with the structure of the entry of `tmp` at its
pair of indices, the two having equal features, and has the features of the
entry of `F`, or of the entry of `tmp` when those of `F` are ANY, stored as NULL
when they are not ANY and equal system memory; and
(nothing lost) every entry of `F` and entry of `tmp` with equal features and
intersecting structures have their intersection among the entries returned or
expressed by one of them: equal features and a structure it is a subset of. -/
theorem transform_caps_src_and_filter_spec (host : Host) (have_dmabuf : Bool) (h : Heap)
    (c : Nat) (hc : c < h.length) (hr : 1 ≤ h.refcount c) :
    ((gst_gl_download_element_transform_caps host have_dmabuf h
        GstPadDirection.GST_PAD_SRC c none).1.caps
      (gst_gl_download_element_transform_caps host have_dmabuf h
        GstPadDirection.GST_PAD_SRC c none).2 =
      caps_merge host (h.caps c) (withFeature (h.caps c) GST_CAPS_FEATURE_MEMORY_GL_MEMORY) ∧
     (withFeature (h.caps c) GST_CAPS_FEATURE_MEMORY_GL_MEMORY).structs =
      (h.caps c).structs.map
        (fun e => (e.1, some ({ is_any := false, array := ["memory:GLMemory"] } : GstCapsFeatures)))) ∧
    (∀ (direction : GstPadDirection) (f : Nat) (tmp res : Heap × Nat), f < h.length →
      tmp = gst_gl_download_element_transform_caps host have_dmabuf h direction c none →
      res = gst_gl_download_element_transform_caps host have_dmabuf h direction c (some f) →
      res = (gst_caps_unref (gst_caps_intersect_first host tmp.1 f tmp.2).1 tmp.2,
             (gst_caps_intersect_first host tmp.1 f tmp.2).2) ∧
      tmp.1.caps f = h.caps f ∧
      res.1.caps res.2 =
        caps_intersect_first host (decide (f = tmp.2)) (h.caps f) (tmp.1.caps tmp.2) ∧
      (f = tmp.2 → res.1.caps res.2 = h.caps f) ∧
      (f ≠ tmp.2 → (h.caps f).any = true → res.1.caps res.2 = tmp.1.caps tmp.2) ∧
      (f ≠ tmp.2 → (h.caps f).any = false → (tmp.1.caps tmp.2).any = true →
        res.1.caps res.2 = h.caps f) ∧
      (f ≠ tmp.2 → (h.caps f).any = false → (tmp.1.caps tmp.2).any = false →
        (res.1.caps res.2).any = false ∧
        (∃ ix : List (Nat × Nat),
          List.Pairwise (fun a b => a.1 < b.1 ∨ (a.1 = b.1 ∧ a.2 < b.2)) ix ∧
          List.Forall₂
            (fun p e => ∃ e1 e2, (h.caps f).structs[p.1]? = some e1 ∧
              (tmp.1.caps tmp.2).structs[p.2]? = some e2 ∧
              host.gst_caps_features_is_equal
                (e1.2.getD GST_CAPS_FEATURES_MEMORY_SYSTEM_MEMORY)
                (e2.2.getD GST_CAPS_FEATURES_MEMORY_SYSTEM_MEMORY) = true ∧
              host.gst_structure_intersect e1.1 e2.1 = some e.1 ∧
              ((e1.2.getD GST_CAPS_FEATURES_MEMORY_SYSTEM_MEMORY).is_any = true →
                e.2 = if (e2.2.getD GST_CAPS_FEATURES_MEMORY_SYSTEM_MEMORY).is_any = true ∨
                    host.gst_caps_features_is_equal
                      (e2.2.getD GST_CAPS_FEATURES_MEMORY_SYSTEM_MEMORY)
                      GST_CAPS_FEATURES_MEMORY_SYSTEM_MEMORY = false
                  then some (e2.2.getD GST_CAPS_FEATURES_MEMORY_SYSTEM_MEMORY) else none) ∧
              ((e1.2.getD GST_CAPS_FEATURES_MEMORY_SYSTEM_MEMORY).is_any = false →
                e.2 = if (e1.2.getD GST_CAPS_FEATURES_MEMORY_SYSTEM_MEMORY).is_any = true ∨
                    host.gst_caps_features_is_equal
                      (e1.2.getD GST_CAPS_FEATURES_MEMORY_SYSTEM_MEMORY)
                      GST_CAPS_FEATURES_MEMORY_SYSTEM_MEMORY = false
                  then some (e1.2.getD GST_CAPS_FEATURES_MEMORY_SYSTEM_MEMORY) else none))
            ix (res.1.caps res.2).structs) ∧
        (∀ e1 e2, e1 ∈ (h.caps f).structs → e2 ∈ (tmp.1.caps tmp.2).structs →
          host.gst_caps_features_is_equal (e1.2.getD GST_CAPS_FEATURES_MEMORY_SYSTEM_MEMORY)
            (e2.2.getD GST_CAPS_FEATURES_MEMORY_SYSTEM_MEMORY) = true →
          ∀ istruct, host.gst_structure_intersect e1.1 e2.1 = some istruct →
          ∃ cand r, cand.1 = istruct ∧
            ((e1.2.getD GST_CAPS_FEATURES_MEMORY_SYSTEM_MEMORY).is_any = true →
              cand.2 = if (e2.2.getD GST_CAPS_FEATURES_MEMORY_SYSTEM_MEMORY).is_any = true ∨
                  host.gst_caps_features_is_equal
                    (e2.2.getD GST_CAPS_FEATURES_MEMORY_SYSTEM_MEMORY)
                    GST_CAPS_FEATURES_MEMORY_SYSTEM_MEMORY = false
                then some (e2.2.getD GST_CAPS_FEATURES_MEMORY_SYSTEM_MEMORY) else none) ∧
            ((e1.2.getD GST_CAPS_FEATURES_MEMORY_SYSTEM_MEMORY).is_any = false →
              cand.2 = if (e1.2.getD GST_CAPS_FEATURES_MEMORY_SYSTEM_MEMORY).is_any = true ∨
                  host.gst_caps_features_is_equal
                    (e1.2.getD GST_CAPS_FEATURES_MEMORY_SYSTEM_MEMORY)
                    GST_CAPS_FEATURES_MEMORY_SYSTEM_MEMORY = false
                then some (e1.2.getD GST_CAPS_FEATURES_MEMORY_SYSTEM_MEMORY) else none) ∧
            r ∈ (res.1.caps res.2).structs ∧
            (r = cand ∨
              (host.gst_caps_features_is_equal
                  (cand.2.getD GST_CAPS_FEATURES_MEMORY_SYSTEM_MEMORY)
                  (r.2.getD GST_CAPS_FEATURES_MEMORY_SYSTEM_MEMORY) = true ∧
                host.gst_structure_is_subset cand.1 r.1 = true))))) := by
  refine ⟨⟨(unfiltered_src host have_dmabuf h c hc hr).2,
    withFeature_structs (h.caps c) GST_CAPS_FEATURE_MEMORY_GL_MEMORY (by decide)⟩, ?_⟩
  intro direction f tmp res hf htmp hres
  have hnone : gst_gl_download_element_transform_caps host have_dmabuf h direction c none =
      transform_caps_unfiltered host have_dmabuf h direction c := rfl
  have hsome : gst_gl_download_element_transform_caps host have_dmabuf h direction c (some f) =
      (gst_caps_unref
        (gst_caps_intersect_first host
          (transform_caps_unfiltered host have_dmabuf h direction c).1 f
          (transform_caps_unfiltered host have_dmabuf h direction c).2).1
        (transform_caps_unfiltered host have_dmabuf h direction c).2,
       (gst_caps_intersect_first host
          (transform_caps_unfiltered host have_dmabuf h direction c).1 f
          (transform_caps_unfiltered host have_dmabuf h direction c).2).2) := rfl
  rw [hnone] at htmp
  rw [hsome, ← htmp] at hres
  obtain ⟨k1, k2, k3, -, -, k6, -⟩ := unfiltered_keeps host have_dmabuf h direction c hc hr
  rw [← htmp] at k1 k2 k3 k6
  have hF : tmp.1.caps f = h.caps f := by
    by_cases hfc : f = c
    · rw [hfc]; exact k3
    · exact caps_of_getElem? _ _ _ (k6 f hf hfc)
  have hcontent : res.1.caps res.2 =
      caps_intersect_first host (decide (f = tmp.2)) (h.caps f) (tmp.1.caps tmp.2) := by
    rw [hres]
    simp only []
    rw [caps_unref, intersect_first_content host _ f _, hF]
  obtain ⟨c1, c2, c3⟩ := caps_intersect_first_cases host (h.caps f) (tmp.1.caps tmp.2)
  refine ⟨hres, hF, hcontent, ?_, ?_, ?_, ?_⟩
  · intro hsame
    rw [hcontent]
    simp [hsame, caps_intersect_first]
  · intro hne hany
    rw [hcontent]
    simp only [hne, decide_False]
    exact c1 hany
  · intro hne hany1 hany2
    rw [hcontent]
    simp only [hne, decide_False]
    exact c2 hany1 hany2
  · intro hne hany1 hany2
    have hloop : res.1.caps res.2 =
        { any := false,
          structs := intersect_structs host (h.caps f).structs (tmp.1.caps tmp.2).structs } := by
      rw [hcontent]
      simp only [hne, decide_False]
      exact c3 hany1 hany2
    obtain ⟨⟨ix, hp, hfa⟩, hcov⟩ :=
      intersect_structs_spec host (h.caps f).structs (tmp.1.caps tmp.2).structs
    rw [hloop]
    refine ⟨rfl, ⟨ix, hp, ?_⟩, ?_⟩
    · exact hfa
    · intro e1 e2 h1 h2 hfe istruct hi
      obtain ⟨cand, r, hic, hrm, hcase⟩ := hcov e1 e2 h1 h2 hfe (by rw [hi]; simp)
      obtain ⟨-, hstruct, hf1, hf2⟩ := hic
      have hcs : cand.1 = istruct := by
        rw [hi] at hstruct
        exact (Option.some.inj hstruct).symm
      exact ⟨cand, r, hcs, hf1, hf2, hrm, hcase⟩

/-- C10 (witness): the caps `video/x-raw, format=RGBA` at address 1 of the
example heap, src direction.  Without a filter the result is a new object with
the entry of the input and its copy with the features `memory:GLMemory`.  With
the example caps `video/x-raw(memory:GLMemory), format=RGBA, texture-target=2D`
at address 0 as filter, only the copy has the features of the filter, and the
intersection is returned in a new object. -/
theorem transform_caps_src_and_filter_spec_witness :
    1 < exampleHeap.length ∧ 1 ≤ exampleHeap.refcount 1 ∧
    (gst_gl_download_element_transform_caps exampleHost true exampleHeap
        GstPadDirection.GST_PAD_SRC 1 none).2 = 3 ∧
    (gst_gl_download_element_transform_caps exampleHost true exampleHeap
        GstPadDirection.GST_PAD_SRC 1 none).1.caps
      (gst_gl_download_element_transform_caps exampleHost true exampleHeap
        GstPadDirection.GST_PAD_SRC 1 none).2 =
      { any := false,
        structs := [({ name := "video/x-raw", fields := [("format", "RGBA")] }, none),
                    ({ name := "video/x-raw", fields := [("format", "RGBA")] },
                     some { is_any := false, array := ["memory:GLMemory"] })] } ∧
    (gst_gl_download_element_transform_caps exampleHost true exampleHeap
        GstPadDirection.GST_PAD_SRC 1 (some 0)).1.caps
      (gst_gl_download_element_transform_caps exampleHost true exampleHeap
        GstPadDirection.GST_PAD_SRC 1 (some 0)).2 =
      { any := false,
        structs := [({ name := "video/x-raw",
                       fields := [("format", "RGBA"), ("texture-target", "2D")] },
                     some { is_any := false, array := ["memory:GLMemory"] })] } :=
  ⟨by decide, by decide, by decide,
    ((transform_caps_src_and_filter_spec exampleHost true exampleHeap 1 (by decide)
      (by decide)).1.1).trans (by decide),
    (congrArg (fun r : Heap × Nat => r.1.caps r.2)
      ((transform_caps_src_and_filter_spec exampleHost true exampleHeap 1 (by decide)
        (by decide)).2 GstPadDirection.GST_PAD_SRC 0 _ _ (by decide) rfl rfl).1).trans
      (by decide)⟩

end GLDownload

namespace GLDownload

/-! ### The download mode -/

/-- C11.  `gst_gl_download_element_set_caps` returns FALSE exactly when the
output caps do not parse as video info, and then changes nothing.  After it
returns TRUE, with `features` what `gst_caps_get_features (out_caps, 0)`
returned: `do_pbo_transfers` is TRUE exactly when `features` is NULL, or the
features contain `memory:SystemMemory` and contain neither `memory:GLMemory`
nor, in EGL+DMABuf builds, `memory:DMABuf`; `dmabuf_allocator` is not NULL
exactly when the build is an EGL+DMABuf build and the features contain
`memory:DMABuf` and not `memory:GLMemory`; and `do_pbo_transfers` does not hold
together with a `dmabuf_allocator` that is not NULL.  When the two did not hold
together before the call they do not after it, whatever it returns. -/
theorem set_caps_download_mode (env : Env) (w : World) (out_caps : GstCaps) :
    ((gst_gl_download_element_set_caps env w out_caps).1 = false ↔
      env.gst_video_info_from_caps out_caps = none) ∧
    ((gst_gl_download_element_set_caps env w out_caps).1 = false →
      (gst_gl_download_element_set_caps env w out_caps).2 = w) ∧
    ((gst_gl_download_element_set_caps env w out_caps).1 = true →
      ((gst_gl_download_element_set_caps env w out_caps).2.dl.do_pbo_transfers = true ↔
        (env.gst_caps_get_features out_caps 0 = none ∨
         ∃ f, env.gst_caps_get_features out_caps 0 = some f ∧
           env.gst_caps_features_contains f GST_CAPS_FEATURE_MEMORY_SYSTEM_MEMORY = true ∧
           env.gst_caps_features_contains f GST_CAPS_FEATURE_MEMORY_GL_MEMORY = false ∧
           (env.have_dmabuf &&
             env.gst_caps_features_contains f GST_CAPS_FEATURE_MEMORY_DMABUF) = false))) ∧
    ((gst_gl_download_element_set_caps env w out_caps).1 = true →
      ((gst_gl_download_element_set_caps env w out_caps).2.dl.dmabuf_allocator ≠ none ↔
        (env.have_dmabuf = true ∧
         ∃ f, env.gst_caps_get_features out_caps 0 = some f ∧
           env.gst_caps_features_contains f GST_CAPS_FEATURE_MEMORY_DMABUF = true ∧
           env.gst_caps_features_contains f GST_CAPS_FEATURE_MEMORY_GL_MEMORY = false))) ∧
    ((gst_gl_download_element_set_caps env w out_caps).1 = true →
      ¬ ((gst_gl_download_element_set_caps env w out_caps).2.dl.do_pbo_transfers = true ∧
         (gst_gl_download_element_set_caps env w out_caps).2.dl.dmabuf_allocator ≠ none)) ∧
    (¬ (w.dl.do_pbo_transfers = true ∧ w.dl.dmabuf_allocator ≠ none) →
      ¬ ((gst_gl_download_element_set_caps env w out_caps).2.dl.do_pbo_transfers = true ∧
         (gst_gl_download_element_set_caps env w out_caps).2.dl.dmabuf_allocator ≠ none)) := by
  unfold gst_gl_download_element_set_caps
  cases hinfo : env.gst_video_info_from_caps out_caps with
  | none => simp
  | some info =>
    cases hfeat : env.gst_caps_get_features out_caps 0 with
    | none =>
      cases halloc : w.dl.dmabuf_allocator <;> simp [World.emit, halloc]
    | some f =>
      cases hgl : env.gst_caps_features_contains f GST_CAPS_FEATURE_MEMORY_GL_MEMORY <;>
      cases hdm : env.gst_caps_features_contains f GST_CAPS_FEATURE_MEMORY_DMABUF <;>
      cases hsys : env.gst_caps_features_contains f GST_CAPS_FEATURE_MEMORY_SYSTEM_MEMORY <;>
      cases hb : env.have_dmabuf <;>
      cases halloc : w.dl.dmabuf_allocator <;>
      simp [World.emit, halloc, hgl, hdm, hsys, hb]

end GLDownload

namespace GLDownload

/-! ### Preparing the output buffer -/

end GLDownload

namespace GLDownload

/-! ### The dmabuf export -/

end GLDownload

namespace GLDownload

end GLDownload

namespace GLDownload

end GLDownload
